import Mathlib

/-!
Verification development for the pinball table core (src/table.rs) and the
intro options menu (src/intro.rs).  The data model and the operations are a
shallow embedding of the Rust source: the Table struct becomes the
TableState record, run_frame and handle_key become Lean functions over it.
Subsystems whose code lives outside the two embedded source files (the
physics integrator, the four rule-variant modules, the cheat decoder, the
task payloads, asset loading, audio mixing, rendering) are modelled from
the specification; each such definition carries a doc comment starting
with Modelled from the spec.  Every call into such a subsystem is recorded
in a ghost event trace so that theorems can speak about which calls a
frame performs.
-/

namespace Pfr

/-- Table identity (config.rs TableId, used by table.rs for dispatch). -/
inductive TableId
| Table1
| Table2
| Table3
| Table4
deriving DecidableEq, Repr

/-- Display resolution option (config.rs Resolution). -/
inductive Resolution
| Normal
| High
| Full
deriving DecidableEq, Repr

/-- Scroll speed option (config.rs ScrollSpeed, toggled by the intro options menu). -/
inductive ScrollSpeed
| Hard
| Medium
| Soft
deriving DecidableEq, Repr

/-- Global options record (config.rs Options), the fields the embedded code reads. -/
structure Options where
  balls : Nat
  angle_high : Bool
  scroll_speed : ScrollSpeed
  no_music : Bool
  resolution : Resolution
  mono : Bool
deriving DecidableEq, Repr

/-- Keyboard mode of the table view (table.rs KbdState). -/
inductive KbdState
| Main
| ConfirmQuit
| Paused
| PausedConfirmQuit
| GetName
deriving DecidableEq, Repr

/-- Collision layer carried by the ball; table.rs only names Layer::Ground
directly, the remaining layers live in the physics assets. -/
inductive Layer
| Ground
| Overhead
deriving DecidableEq, Repr

/-- Sound effect bindings referenced from the embedded code (assets sound.rs SfxBind). -/
inductive SfxBind
| GameStart
| FlipperPress
deriving DecidableEq, Repr

/-- Jingle bindings referenced from the embedded code (assets sound.rs JingleBind). -/
inductive JingleBind
| Attract
| Silence
| Plunger
| MainTheme
| GameStart
| Tilt
| WarnTilt
deriving DecidableEq, Repr

/-- Script bindings referenced from the embedded code (assets script.rs ScriptBind). -/
inductive ScriptBind
| Init
| GameStart
| GameStartPlayers
| Tilt
| ConfirmQuit
deriving DecidableEq, Repr

/-- Task kinds; SetStartKeysActive is the only kind the embedded code names. -/
inductive TaskKind
| SetStartKeysActive
deriving DecidableEq, Repr

/-- A scheduled task: a kind plus a remaining-frame countdown (spec section 4.3). -/
structure Task where
  kind : TaskKind
  delay : Nat
deriving DecidableEq, Repr

/-- Modelled from the spec: BallState lives in table/ball.rs, outside the
embedded sources.  Spec section 3 gives it a position, an active collision
layer, and a frozen flag that suspends integration. -/
structure BallState where
  pos : Int × Int
  layer : Layer
  frozen : Bool
deriving DecidableEq, Repr

/-- Modelled from the spec: CheatState lives in table/cheat.rs, outside the
embedded sources.  table.rs reads the slowdown and no_tilt debug flags. -/
structure CheatState where
  slowdown : Bool
  no_tilt : Bool
deriving DecidableEq, Repr

/-- Modelled from the spec: PlayerState lives in table/player.rs, outside
the embedded sources.  Spec section 3 gives each player per-player scores;
table.rs constructs one per player from the table identity. -/
structure PlayerState where
  table : TableId
  score : Nat
deriving DecidableEq, Repr

/-- Modelled from the spec: HighScore lives in config.rs, outside the
embedded sources; a kept score entry with an owner name. -/
structure HighScore where
  name : List Nat
  score : Nat
deriving DecidableEq, Repr

/-- Dot-matrix display operations issued by the embedded code; the display
itself is a presentation concern, so the embedding logs the operations. -/
inductive DmOp
| save
| clear
| restore
| setState (b : Bool)
| puts (text : List Nat)
| blink
deriving DecidableEq, Repr

/-- Ghost trace events: one constructor per call the embedded code makes
into a subsystem outside the embedded sources. -/
inductive Ev
| physicsFrame
| drainHandler (t : TableId)
| variantFrame (t : TableId)
| flipperHandler (t : TableId)
| sfx (b : SfxBind)
| jingle (j : JingleBind)
| jingleSilence (j : JingleBind)
| jingleForce (j : JingleBind)
| seqPlayJingle (j : JingleBind) (next : JingleBind)
| seqSetMusic (j : JingleBind)
| seqForceEndLoop
| seqSetNoMusic (b : Bool)
| script (b : ScriptBind)
| setMasterVolume (v : Nat)
| issueBall
| initGame
| playerPause
| playerUnpause
| scrollAttract
| scrollUpdate
| lightsAttract
| lightsBlink
| lightsTilt
| scoreBumper
| ballGravity
| checkTransitions
| rollTriggers
| hitTriggers
| springRelease
| abortGame
| cheatChar (c : Nat)
deriving DecidableEq, Repr

/-- Navigation routes (view.rs Route), the cases the embedded code produces. -/
inductive Route
| intro (t : Option TableId)
| table (t : TableId)
deriving DecidableEq, Repr

/-- Frame actions returned to the host (view.rs Action), the cases the
embedded code produces. -/
inductive Action
| none
| navigate (r : Route)
| saveHighScores (t : TableId) (hs : List HighScore)
| saveOptions (o : Options)
deriving DecidableEq, Repr

/-- The Table struct of table.rs.  Asset and physics plumbing that is both
outside the embedded sources and unread by the embedded control flow
(collision maps, materials, flipper kinematic states, sprite data, the
audio handles) is omitted; the scroll subsystem is reduced to its speed
setting and the dot-matrix display to an operation log.  The trace field
is a ghost event log recording every call into an external subsystem. -/
structure TableState where
  table : TableId
  options : Options
  high_scores : List HighScore
  scroll_speed : Nat
  spring_pos : Nat
  dm : List DmOp
  script : Option ScriptBind
  script_cursor : Nat
  tasks : List Task
  ball : BallState
  cheat : CheatState
  in_attract : Bool
  in_game_start : Bool
  in_plunger : Bool
  at_spring : Bool
  in_drain : Bool
  drained : Bool
  got_top_score : Bool
  party_on : Bool
  special_plunger_event : Bool
  match_digit : Option Nat
  ball_scored_points : Bool
  tilted : Bool
  tilt_counter : Nat
  silence_effect : Bool
  timer_stop : Bool
  block_drain : Bool
  got_high_score : Bool
  flush_high_scores : Bool
  name_buf : List Nat
  in_mode : Bool
  in_mode_hit : Bool
  in_mode_ramp : Bool
  pending_mode : Bool
  pending_mode_hit : Bool
  pending_mode_ramp : Bool
  mode_timeout_frames : Nat
  mode_timeout_secs : Nat
  kbd_state : KbdState
  flipper_left : Bool
  flipper_right : Bool
  flipper_pressed : Bool
  flippers_enabled : Bool
  space_state : Bool
  space_pressed : Bool
  spring_down_state : Bool
  spring_released : Bool
  start_keys_active : Bool
  start_key : Option Nat
  quitting : Bool
  fade : Nat
  cur_player : Nat
  total_players : Nat
  cur_ball : Nat
  total_balls : Nat
  extra_balls : Nat
  bonus_mult_early : Nat
  bonus_mult_late : Nat
  players : List PlayerState
  score_main : Nat
  score_bonus : Nat
  score_jackpot : Nat
  hold_bonus : Bool
  party_secret_drop_release : Bool
  trace : List Ev
deriving DecidableEq, Repr

/-- Append one ghost event to the trace. -/
def emit (e : Ev) (s : TableState) : TableState :=
  { s with trace := s.trace ++ [e] }

/-- Modelled from the spec: one physics sub-step (table/physics.rs, spec
section 4.1).  The integrator itself is outside the embedded sources; the
verified claims only depend on which sub-step calls a frame performs, so
the call is recorded in the trace. -/
def physicsFrame (s : TableState) : TableState :=
  emit .physicsFrame s

/-- Modelled from the spec: play a one-shot sound effect (table/sound.rs). -/
def playSfxBind (b : SfxBind) (s : TableState) : TableState :=
  emit (.sfx b) s

/-- Modelled from the spec: play a jingle binding (table/sound.rs). -/
def playJingleBind (j : JingleBind) (s : TableState) : TableState :=
  emit (.jingle j) s

/-- Modelled from the spec: play a jingle falling back to silence (table/sound.rs). -/
def playJingleBindSilence (j : JingleBind) (s : TableState) : TableState :=
  emit (.jingleSilence j) s

/-- Modelled from the spec: force-play a jingle binding (table/sound.rs). -/
def playJingleBindForce (j : JingleBind) (s : TableState) : TableState :=
  emit (.jingleForce j) s

/-- Modelled from the spec: bind a script sequence (table/script.rs, spec
section 4.4): replaces the current sequence and resets the cursor. -/
def startScript (b : ScriptBind) (s : TableState) : TableState :=
  emit (.script b) { s with script := some b, script_cursor := 0 }

/-- Modelled from the spec: advance the script cursor once per frame (spec
section 4.4); the per-step display and sound payloads act on surfaces
outside this core and are omitted. -/
def scriptFrame (s : TableState) : TableState :=
  match s.script with
  | some _ => { s with script_cursor := s.script_cursor + 1 }
  | none => s

/-- Modelled from the spec: the concrete countdown for a scheduled task
kind lives in table/tasks.rs, outside the embedded sources (spec section
4.3 only says the effect is delayed by N frames). -/
def taskDelay : TaskKind → Nat
| .SetStartKeysActive => 60

/-- Enqueue a task (table.rs add_task callers; spec section 4.3). -/
def addTask (k : TaskKind) (s : TableState) : TableState :=
  { s with tasks := s.tasks ++ [⟨k, taskDelay k⟩] }

/-- Modelled from the spec: the effect of a fired task (table/tasks.rs);
SetStartKeysActive re-enables the start keys (spec section 4.3). -/
def fireTask : TaskKind → TableState → TableState
| .SetStartKeysActive, s => { s with start_keys_active := true }

/-- Fire a list of expired tasks in insertion order. -/
def runFired : List Task → TableState → TableState
| [], s => s
| t :: ts, s => runFired ts (fireTask t.kind s)

/-- Modelled from the spec: per-frame task tick (spec section 4.3):
decrement every countdown, fire and remove the entries reaching zero in
insertion order. -/
def tasksFrame (s : TableState) : TableState :=
  let ticked := s.tasks.map fun t => { t with delay := t.delay - 1 }
  let fired := ticked.filter fun t => t.delay = 0
  let kept := ticked.filter fun t => ¬ t.delay = 0
  runFired fired { s with tasks := kept }

/-- Modelled from the spec: per-game bookkeeping reset (table/game.rs
init_game); spec section 8 requires the total ball count to be set from
the configured option. -/
def initGame (s : TableState) : TableState :=
  emit .initGame { s with
    cur_player := 1
    cur_ball := 1
    total_balls := s.options.balls
    extra_balls := 0
    score_main := 0
    score_bonus := 0
    score_jackpot := 0 }

/-- Modelled from the spec: issue a new ball (table/game.rs issue_ball);
spec sections 4.7 and 8: a fresh ball starts in the plunger lane with the
drain condition cleared. -/
def issueBall (s : TableState) : TableState :=
  emit .issueBall { s with
    in_plunger := true
    drained := false
    in_drain := false
    ball := { pos := (280, 525), layer := .Ground, frozen := false } }

/-- Modelled from the spec: teleport the ball and freeze it (table/ball.rs
teleport_freeze; spec section 3, the frozen flag suspends integration). -/
def teleportFreeze (l : Layer) (p : Int × Int) (s : TableState) : TableState :=
  { s with ball := { pos := p, layer := l, frozen := true } }

/-- Modelled from the spec: Table1 drain handler (table/party.rs on_drain);
rule effects are outside the embedded sources, the call is recorded. -/
def partyDrained (s : TableState) : TableState :=
  emit (.drainHandler .Table1) s

/-- Modelled from the spec: Table2 drain handler (table/speed.rs on_drain). -/
def speedDrained (s : TableState) : TableState :=
  emit (.drainHandler .Table2) s

/-- Modelled from the spec: Table3 drain handler (table/show.rs on_drain). -/
def showDrained (s : TableState) : TableState :=
  emit (.drainHandler .Table3) s

/-- Modelled from the spec: Table4 drain handler (table/stones.rs on_drain). -/
def stonesDrained (s : TableState) : TableState :=
  emit (.drainHandler .Table4) s

/-- Drain dispatch of table.rs run_frame lines 429 to 434. -/
def runDrained (s : TableState) : TableState :=
  match s.table with
  | .Table1 => partyDrained s
  | .Table2 => speedDrained s
  | .Table3 => showDrained s
  | .Table4 => stonesDrained s

/-- Modelled from the spec: Table1 per-frame rule hook (table/party.rs). -/
def partyFrame (s : TableState) : TableState :=
  emit (.variantFrame .Table1) s

/-- Modelled from the spec: Table2 per-frame rule hook (table/speed.rs). -/
def speedFrame (s : TableState) : TableState :=
  emit (.variantFrame .Table2) s

/-- Modelled from the spec: Table3 per-frame rule hook (table/show.rs). -/
def showFrame (s : TableState) : TableState :=
  emit (.variantFrame .Table3) s

/-- Modelled from the spec: Table4 per-frame rule hook (table/stones.rs). -/
def stonesFrame (s : TableState) : TableState :=
  emit (.variantFrame .Table4) s

/-- Per-frame rule dispatch of table.rs run_frame lines 437 to 442. -/
def runVariantFrame (s : TableState) : TableState :=
  match s.table with
  | .Table1 => partyFrame s
  | .Table2 => speedFrame s
  | .Table3 => showFrame s
  | .Table4 => stonesFrame s

/-- Modelled from the spec: Table1 flipper-press rule hook (table/party.rs). -/
def partyFlipperPressed (s : TableState) : TableState :=
  emit (.flipperHandler .Table1) s

/-- Modelled from the spec: Table2 flipper-press rule hook (table/speed.rs). -/
def speedFlipperPressed (s : TableState) : TableState :=
  emit (.flipperHandler .Table2) s

/-- Modelled from the spec: Table3 flipper-press rule hook (table/show.rs). -/
def showFlipperPressed (s : TableState) : TableState :=
  emit (.flipperHandler .Table3) s

/-- Modelled from the spec: Table4 flipper-press rule hook (table/stones.rs). -/
def stonesFlipperPressed (s : TableState) : TableState :=
  emit (.flipperHandler .Table4) s

/-- Flipper-press rule dispatch of table.rs run_frame lines 447 to 452. -/
def runFlipperPressed (s : TableState) : TableState :=
  match s.table with
  | .Table1 => partyFlipperPressed s
  | .Table2 => speedFlipperPressed s
  | .Table3 => showFlipperPressed s
  | .Table4 => stonesFlipperPressed s

/-- Modelled from the spec: scroll attract animation step (table/scroll.rs). -/
def scrollAttractFrame (s : TableState) : TableState :=
  emit .scrollAttract s

/-- Modelled from the spec: scroll tracking update from the ball position
(table/scroll.rs update). -/
def scrollUpdate (s : TableState) : TableState :=
  emit .scrollUpdate s

/-- Modelled from the spec: attract-mode light animation (table/lights.rs). -/
def lightsAttractFrame (s : TableState) : TableState :=
  emit .lightsAttract s

/-- Modelled from the spec: per-frame light blink step (table/lights.rs). -/
def lightsBlinkFrame (s : TableState) : TableState :=
  emit .lightsBlink s

/-- Modelled from the spec: switch the lights to the tilt pattern (table/lights.rs). -/
def lightsTilt (s : TableState) : TableState :=
  emit .lightsTilt s

/-- Modelled from the spec: bumper scoring step (table/triggers.rs score_bumper). -/
def scoreBumper (s : TableState) : TableState :=
  emit .scoreBumper s

/-- Modelled from the spec: per-frame gravity adjustment (table/ball.rs ball_gravity). -/
def ballGravity (s : TableState) : TableState :=
  emit .ballGravity s

/-- Modelled from the spec: layer and drain transition detection
(table/game.rs check_transitions).  The drain geometry is asset data
outside the embedded sources, so the detection outcome is taken from the
pre-state in the theorems; the call itself is recorded. -/
def checkTransitions (s : TableState) : TableState :=
  emit .checkTransitions s

/-- Modelled from the spec: roll-trigger edge dispatch (table/triggers.rs). -/
def doRollTriggers (s : TableState) : TableState :=
  emit .rollTriggers s

/-- Modelled from the spec: hit-trigger dispatch (table/triggers.rs). -/
def doHitTriggers (s : TableState) : TableState :=
  emit .hitTriggers s

/-- Modelled from the spec: release the plunger spring, transferring the
charge as ball velocity and resetting the charge (spec section 4.1). -/
def springRelease (s : TableState) : TableState :=
  emit .springRelease { s with spring_pos := 0 }

/-- Modelled from the spec: abort the running game (table/game.rs
abort_game); its effect is outside the embedded sources and not needed by
the verified claims, only the call is recorded. -/
def abortGame (s : TableState) : TableState :=
  emit .abortGame s

/-- Modelled from the spec: cheat-code character decoding (table/cheat.rs);
the decoder is outside the embedded sources, the fed character is recorded. -/
def handleCheat (c : Nat) (s : TableState) : TableState :=
  emit (.cheatChar c) s

/-- Dot-matrix save (table/dm.rs), logged as a display operation. -/
def dmSave (s : TableState) : TableState :=
  { s with dm := s.dm ++ [.save] }

/-- Dot-matrix clear (table/dm.rs), logged as a display operation. -/
def dmClear (s : TableState) : TableState :=
  { s with dm := s.dm ++ [.clear] }

/-- Dot-matrix restore (table/dm.rs), logged as a display operation. -/
def dmRestore (s : TableState) : TableState :=
  { s with dm := s.dm ++ [.restore] }

/-- Dot-matrix blink state set (table/dm.rs), logged as a display operation. -/
def dmSetState (b : Bool) (s : TableState) : TableState :=
  { s with dm := s.dm ++ [.setState b] }

/-- Dot-matrix text draw (table.rs dm_puts), logged as a display operation. -/
def dmPuts (text : List Nat) (s : TableState) : TableState :=
  { s with dm := s.dm ++ [.puts text] }

/-- Dot-matrix blink frame (table/dm.rs blink_frame), logged as a display operation. -/
def dmBlinkFrame (s : TableState) : TableState :=
  { s with dm := s.dm ++ [.blink] }

/-- Audio player pause command, recorded in the trace. -/
def playerPause (s : TableState) : TableState :=
  emit .playerPause s

/-- Audio player unpause command, recorded in the trace. -/
def playerUnpause (s : TableState) : TableState :=
  emit .playerUnpause s

/-- Audio master volume command, recorded in the trace. -/
def playerSetMasterVolume (v : Nat) (s : TableState) : TableState :=
  emit (.setMasterVolume v) s

/-- The ASCII bytes of the GAME PAUSED banner drawn by Table::pause. -/
def gamePausedText : List Nat := [71, 65, 77, 69, 32, 80, 65, 85, 83, 69, 68]

/-- The ASCII bytes of the REALLY QUIT (Y OR N) banner of handle_key. -/
def reallyQuitText : List Nat :=
  [82, 69, 65, 76, 76, 89, 32, 81, 85, 73, 84, 32, 40, 89, 32, 79, 82, 32, 78, 41]

/-- Table::pause (table.rs lines 310 to 317). -/
def pause (s : TableState) : TableState :=
  let s := dmSave s
  let s := dmClear s
  let s := dmSetState true s
  let s := dmPuts gamePausedText s
  playerPause { s with kbd_state := .Paused }

/-- Table::unpause (table.rs lines 319 to 323). -/
def unpause (s : TableState) : TableState :=
  playerUnpause { (dmRestore s) with kbd_state := .Main }

/-- Table::toggle_music (table.rs lines 325 to 341). -/
def toggleMusic (s : TableState) : TableState :=
  if s.options.no_music then
    let s := { s with options := { s.options with no_music := false } }
    let bind := if s.in_plunger then JingleBind.Plunger else JingleBind.MainTheme
    let s := emit (.seqSetMusic bind) s
    let s := emit .seqForceEndLoop s
    emit (.seqSetNoMusic s.options.no_music) s
  else
    let s := { s with options := { s.options with no_music := true } }
    let s := playJingleBindForce .Silence s
    emit (.seqSetNoMusic s.options.no_music) s

/-- Table::new (table.rs lines 168 to 308): the initial table state for a
given table identity, options and stored high scores.  The asset and audio
loading is external; the field initialisers mirror lines 197 to 307,
including the ball position set and the Init script start. -/
def TableState.new (t : TableId) (o : Options) (hs : List HighScore) : TableState :=
  startScript .Init {
    table := t
    options := o
    high_scores := hs
    scroll_speed := 0
    spring_pos := 0
    dm := []
    script := none
    script_cursor := 0
    tasks := []
    ball := { pos := (280, 525), layer := .Ground, frozen := false }
    cheat := { slowdown := false, no_tilt := false }
    in_attract := true
    in_game_start := true
    in_plunger := true
    at_spring := false
    in_drain := false
    drained := false
    got_top_score := false
    party_on := false
    special_plunger_event := false
    match_digit := none
    ball_scored_points := false
    tilted := false
    tilt_counter := 0
    silence_effect := false
    timer_stop := false
    block_drain := false
    got_high_score := false
    flush_high_scores := false
    name_buf := []
    in_mode := false
    in_mode_hit := false
    in_mode_ramp := false
    pending_mode := false
    pending_mode_hit := false
    pending_mode_ramp := false
    mode_timeout_frames := 0
    mode_timeout_secs := 0
    kbd_state := .Main
    flipper_left := false
    flipper_right := false
    flipper_pressed := false
    flippers_enabled := false
    space_state := false
    space_pressed := false
    spring_down_state := false
    spring_released := false
    start_keys_active := true
    start_key := none
    quitting := false
    fade := 0x100
    cur_player := 1
    total_players := 1
    cur_ball := 1
    total_balls := o.balls
    extra_balls := 0
    bonus_mult_early := 1
    bonus_mult_late := 1
    players := []
    score_main := 0
    score_bonus := 0
    score_jackpot := 0
    hold_bonus := false
    party_secret_drop_release := false
    trace := [] }

/-- Game start from attract mode (table.rs run_frame lines 379 to 398). -/
def gameStartAttract (players : Nat) (s : TableState) : TableState :=
  let s := { s with
    start_key := none
    total_players := players
    players := List.replicate players { table := s.table, score := 0 } }
  let s := startScript .GameStart s
  let s := playSfxBind .GameStart s
  let s := { s with in_attract := false }
  let s := initGame s
  let s := emit (.seqPlayJingle .GameStart
    (if s.options.no_music then .Silence else .Plunger)) s
  let s := issueBall s
  addTask .SetStartKeysActive s

/-- The attract-mode frame body (table.rs run_frame lines 375 to 398). -/
def attractBranch (s : TableState) : TableState :=
  let s := scrollAttractFrame s
  let s := lightsAttractFrame s
  let s := dmBlinkFrame s
  match s.start_key with
  | some players => gameStartAttract players s
  | none => s

/-- Mid-game player-count restart (table.rs run_frame lines 401 to 408). -/
def gameStartMid (players : Nat) (s : TableState) : TableState :=
  let s := { s with
    start_key := none
    total_players := players
    players := List.replicate players { table := s.table, score := 0 } }
  let s := startScript .GameStartPlayers s
  let s := playSfxBind .GameStart s
  addTask .SetStartKeysActive s

/-- Tilt-counter decay (table.rs run_frame lines 415 to 417). -/
def tiltDecayStep (s : TableState) : TableState :=
  if s.tilt_counter ≠ 0 then { s with tilt_counter := s.tilt_counter - 1 } else s

/-- Drain handling (table.rs run_frame lines 421 to 436). -/
def drainStep (s : TableState) : TableState :=
  if s.drained ∧ ¬ s.in_drain then
    let s := teleportFreeze .Ground (280, 525) s
    let s := { s with
      flippers_enabled := false
      in_mode := false
      in_mode_hit := false
      in_mode_ramp := false }
    if ¬ s.block_drain then runDrained { s with in_drain := true } else s
  else s

/-- Flipper-press rule dispatch gate (table.rs run_frame lines 445 to 453). -/
def flipperPressedStep (s : TableState) : TableState :=
  if s.flipper_pressed then runFlipperPressed { s with flipper_pressed := false }
  else s

/-- Space-bar tilt accumulation (table.rs run_frame lines 454 to 469). -/
def spacePressedStep (s : TableState) : TableState :=
  if s.space_pressed then
    let s := { s with space_pressed := false }
    if ¬ s.cheat.no_tilt ∧ ¬ s.in_plunger ∧ ¬ s.drained ∧ ¬ s.tilted then
      let s := { s with tilt_counter := s.tilt_counter + 60 }
      if s.tilt_counter > 120 then
        let s := { s with tilted := true, flippers_enabled := false }
        let s := playJingleBindSilence .Tilt s
        let s := startScript .Tilt s
        let s := lightsTilt s
        { s with party_secret_drop_release := true }
      else if s.tilt_counter > 60 then playJingleBind .WarnTilt s
      else s
    else s
  else s

/-- Plunger spring charge and release (table.rs run_frame lines 473 to 478). -/
def springStep (s : TableState) : TableState :=
  if s.spring_released ∧ s.spring_pos ≠ 0 then
    { (springRelease s) with spring_released := false }
  else if s.spring_down_state ∧ s.spring_pos < 0x20 then
    { s with spring_pos := s.spring_pos + 1 }
  else s

/-- The in-play frame body (table.rs run_frame lines 399 to 479). -/
def playBranch (s : TableState) : TableState :=
  let s := scrollUpdate s
  let s := match s.start_key with
    | some players => gameStartMid players s
    | none => s
  let s := if ¬ s.cheat.slowdown then physicsFrame s else s
  let s := physicsFrame s
  let s := physicsFrame s
  let s := physicsFrame s
  let s := tiltDecayStep s
  let s := scoreBumper s
  let s := ballGravity s
  let s := checkTransitions s
  let s := drainStep s
  let s := runVariantFrame s
  let s := doRollTriggers s
  let s := doHitTriggers s
  let s := flipperPressedStep s
  let s := spacePressedStep s
  let s := dmBlinkFrame s
  let s := tasksFrame s
  let s := lightsBlinkFrame s
  springStep s

/-- Quit fade-out step (table.rs run_frame lines 366 to 373). -/
def quitStep (s : TableState) : TableState × Action :=
  let s := { s with fade := s.fade - 2 }
  let s := playerSetMasterVolume s.fade s
  if s.fade = 0 then (s, .navigate (.intro (some s.table))) else (s, .none)

/-- High-score flush gate (table.rs run_frame lines 481 to 486). -/
def flushStep (s : TableState) : TableState × Action :=
  if s.flush_high_scores then
    ({ s with flush_high_scores := false }, .saveHighScores s.table s.high_scores)
  else (s, .none)

/-- View::run_frame for the table (table.rs lines 360 to 488). -/
def runFrame (s : TableState) : TableState × Action :=
  if s.kbd_state = .Paused ∨ s.kbd_state = .PausedConfirmQuit then (s, .none)
  else if s.quitting then quitStep s
  else
    let s := if s.in_attract then attractBranch s else playBranch s
    flushStep (scriptFrame s)

/-- Virtual key codes the table and intro key handlers match on (winit
VirtualKeyCode restricted to the keys the embedded code names). -/
inductive Key
| A
| B
| C
| D
| E
| F
| G
| H
| I
| J
| K
| L
| M
| N
| O
| P
| Q
| R
| S
| T
| U
| V
| W
| X
| Y
| Z
| Space
| Down
| Up
| Return
| Escape
| F1
| F2
| F3
| F4
| F5
| F6
| F7
| F8
| F9
| F10
| F11
| F12
| LShift
| LControl
| LAlt
| RShift
| RControl
| RAlt
deriving DecidableEq, Repr

/-- Key element state (winit ElementState). -/
inductive KeyState
| Pressed
| Released
deriving DecidableEq, Repr

/-- Whether a key element state is the pressed state. -/
def KeyState.isPressed : KeyState → Bool
| .Pressed => true
| .Released => false

/-- The left flipper keys of handle_key (table.rs lines 491 to 494). -/
def isLeftFlipperKey : Key → Bool
| .LShift | .LControl | .LAlt => true
| _ => false

/-- The right flipper keys of handle_key (table.rs lines 504 to 507). -/
def isRightFlipperKey : Key → Bool
| .RShift | .RControl | .RAlt => true
| _ => false

/-- The letter-to-byte map of handle_key (table.rs lines 536 to 565). -/
def keyChr : Key → Option Nat
| .A => some 65
| .B => some 66
| .C => some 67
| .D => some 68
| .E => some 69
| .F => some 70
| .G => some 71
| .H => some 72
| .I => some 73
| .J => some 74
| .K => some 75
| .L => some 76
| .M => some 77
| .N => some 78
| .O => some 79
| .P => some 80
| .Q => some 81
| .R => some 82
| .S => some 83
| .T => some 84
| .U => some 85
| .V => some 86
| .W => some 87
| .X => some 88
| .Y => some 89
| .Z => some 90
| .Space => some 32
| _ => none

/-- Left flipper key handling (table.rs handle_key lines 495 to 502). -/
def flipperKeyStepLeft (st : KeyState) (s : TableState) : TableState :=
  let s :=
    if st = .Pressed ∧ s.flippers_enabled ∧ s.flipper_left = false then
      playSfxBind .FlipperPress { s with flipper_pressed := true }
    else s
  { s with flipper_left := st.isPressed }

/-- Right flipper key handling (table.rs handle_key lines 508 to 515). -/
def flipperKeyStepRight (st : KeyState) (s : TableState) : TableState :=
  let s :=
    if st = .Pressed ∧ s.flippers_enabled ∧ s.flipper_right = false then
      playSfxBind .FlipperPress { s with flipper_pressed := true }
    else s
  { s with flipper_right := st.isPressed }

/-- Space key handling (table.rs handle_key lines 518 to 523). -/
def spaceKeyStep (k : Key) (st : KeyState) (s : TableState) : TableState :=
  if k = .Space then
    let s :=
      if st = .Pressed ∧ s.space_state = false then { s with space_pressed := true }
      else s
    { s with space_state := st.isPressed }
  else s

/-- Down key handling (table.rs handle_key lines 525 to 530). -/
def downKeyStep (k : Key) (st : KeyState) (s : TableState) : TableState :=
  if k = .Down then
    let s := { s with spring_down_state := st.isPressed }
    if st = .Released then { s with spring_released := true } else s
  else s

/-- Scroll speed selected by the function keys (table.rs handle_key lines
569 to 575). -/
def scrollSpeedSel : Key → Option Nat
| .F9 => some 9
| .F10 => some 11
| .F11 => some 20
| .F12 => some 40
| _ => none

/-- The new start_key value selected by a key (table.rs handle_key lines
578 to 595); keys outside the match keep the current value. -/
def startKeySel (k : Key) (s : TableState) : Option Nat :=
  match k with
  | .F1 => some 1
  | .F2 => some 2
  | .F3 => some 3
  | .F4 => some 4
  | .F5 => some 5
  | .F6 => some 6
  | .F7 => some 7
  | .F8 => some 8
  | .Return =>
    if s.in_attract then some 1
    else if s.total_players < 8 then some (s.total_players + 1)
    else s.start_key
  | _ => s.start_key

/-- Start-key capture (table.rs handle_key lines 577 to 599). -/
def startKeysStep (k : Key) (s : TableState) : TableState :=
  if s.start_keys_active ∧ (s.in_attract ∨ s.at_spring) then
    let s := { s with start_key := startKeySel k s }
    if s.start_key.isSome then { s with start_keys_active := false } else s
  else s

/-- Main keyboard mode dispatch (table.rs handle_key lines 568 to 621). -/
def mainKbdStep (k : Key) (s : TableState) : TableState :=
  let s := match scrollSpeedSel k with
    | some n => { s with scroll_speed := n }
    | none => s
  let s := startKeysStep k s
  if s.in_attract then
    let s := match keyChr k with
      | some c => handleCheat c s
      | none => s
    if k = .Escape then startScript .ConfirmQuit { s with kbd_state := .ConfirmQuit }
    else s
  else if ¬ s.in_drain then
    if k = .Escape then (if s.at_spring then abortGame s else s)
    else if k = .M then toggleMusic s
    else if k = .P then pause s
    else s
  else s

/-- Keyboard mode dispatch on pressed keys (table.rs handle_key lines 567
to 664). -/
def kbdDispatch (k : Key) (s : TableState) : TableState :=
  match s.kbd_state with
  | .Main => mainKbdStep k s
  | .ConfirmQuit =>
    if k = .Y then { s with quitting := true, kbd_state := .Main }
    else if k = .N then { s with kbd_state := .Main }
    else s
  | .Paused =>
    if k = .Escape then
      { (dmPuts reallyQuitText (dmClear s)) with kbd_state := .PausedConfirmQuit }
    else unpause s
  | .PausedConfirmQuit =>
    if k = .Y then { (dmRestore s) with quitting := true, kbd_state := .Main }
    else unpause s
  | .GetName =>
    match keyChr k with
    | some c =>
      { s with name_buf := if s.name_buf.length < 3 then s.name_buf ++ [c] else s.name_buf }
    | none => s

/-- View::handle_key for the table (table.rs lines 490 to 665). -/
def handleKey (k : Key) (st : KeyState) (s : TableState) : TableState :=
  let s := if isLeftFlipperKey k then flipperKeyStepLeft st s else s
  let s := if isRightFlipperKey k then flipperKeyStepRight st s else s
  let s := spaceKeyStep k st s
  let s := downKeyStep k st s
  if st ≠ .Pressed then s else kbdDispatch k s

/-- View::get_resolution for the table (table.rs lines 345 to 354). -/
def getResolution (s : TableState) : Nat × Nat :=
  (320,
    match s.options.resolution with
    | .Normal => 240
    | .High => 350
    | .Full => 576 + 33)

/-- View::get_fps for the table (table.rs lines 356 to 358). -/
def getFps (_ : TableState) : Nat := 60

/-- Key intents of the intro front end (intro.rs KeyPress). -/
inductive KeyPress
| noKey
| tableKey (t : TableId)
| optionsKey
| enter
| space
| escape
| up
| down
deriving DecidableEq, Repr

/-- One frame of the intro options menu in the Options state (intro.rs
run_frame lines 622 to 672): returns the cursor to stay at, or none when
the menu is left to the fade-out state, together with the updated
options. -/
def introOptionsStep (key : KeyPress) (cursor : Nat) (o : Options) :
    Option Nat × Options :=
  match key with
  | .enter | .space =>
    match cursor with
    | 0 => (some cursor, { o with balls := if o.balls = 3 then 5 else 3 })
    | 1 => (some cursor, { o with angle_high := ¬ o.angle_high })
    | 2 =>
      (some cursor, { o with scroll_speed :=
        match o.scroll_speed with
        | .Hard => .Medium
        | .Medium => .Soft
        | .Soft => .Hard })
    | 3 => (some cursor, { o with no_music := ¬ o.no_music })
    | 4 =>
      (some cursor, { o with resolution :=
        match o.resolution with
        | .Normal => .High
        | .High => .Full
        | .Full => .Normal })
    | 5 => (some cursor, { o with mono := ¬ o.mono })
    | _ => (none, o)
  | .escape => (none, o)
  | .up => (some (if cursor = 0 then 6 else cursor - 1), o)
  | .down => (some (if cursor = 6 then 0 else cursor + 1), o)
  | _ => (some cursor, o)

/-- Count the trace events satisfying a predicate. -/
def countEv (p : Ev → Bool) (l : List Ev) : Nat := l.countP p

/-- Recognize a physics sub-step event. -/
def isPhysicsEv : Ev → Bool
| .physicsFrame => true
| _ => false

/-- Recognize a drain-handler dispatch event. -/
def isDrainEv : Ev → Bool
| .drainHandler _ => true
| _ => false

/-- Recognize a ball-issue event. -/
def isIssueBallEv : Ev → Bool
| .issueBall => true
| _ => false

/-- Recognize the flipper-press sound effect event. -/
def isFlipperSfxEv : Ev → Bool
| .sfx .FlipperPress => true
| _ => false

/-- The table identity named by a rule-variant dispatch event, if any. -/
def dispatchEvTable : Ev → Option TableId
| .drainHandler t => some t
| .variantFrame t => some t
| .flipperHandler t => some t
| _ => none

/-- One space-bar press followed by a rendered frame and the key release:
the input pattern the tilt scenario feeds to the table. -/
def pressFrame (s : TableState) : TableState :=
  handleKey .Space .Released (runFrame (handleKey .Space .Pressed s)).1

/-- Iterate the press-then-frame pattern. -/
def pressFrames : Nat → TableState → TableState
| 0, s => s
| n + 1, s => pressFrames n (pressFrame s)

/-- A concrete options record used by the witnesses. -/
def baseOptions : Options :=
  { balls := 3
    angle_high := false
    scroll_speed := .Medium
    no_music := false
    resolution := .Normal
    mono := false }

/-- A freshly constructed Table1 in attract mode. -/
def attractEx : TableState := TableState.new .Table1 baseOptions []

/-- A concrete in-play state: attract left, ball on the playfield. -/
def playEx : TableState :=
  { attractEx with
    in_attract := false
    in_plunger := false
    flippers_enabled := true
    players := [{ table := .Table1, score := 0 }] }

/-- The in-play state with the slow-motion cheat enabled. -/
def slowdownEx : TableState :=
  { playEx with cheat := { slowdown := true, no_tilt := false } }

/-- The in-play state at the frame where the ball has just drained. -/
def drainEx : TableState := { playEx with drained := true }

/-- The in-play state after a confirmed quit. -/
def quitEx : TableState := { playEx with quitting := true }

/-- A paused state. -/
def pausedEx : TableState := { playEx with kbd_state := .Paused }

/-- The attract state with a pending one-player start request. -/
def startEx : TableState := { attractEx with start_key := some 1 }

/-- Recognize the drain-handler dispatch event of one specific table. -/
def drainEvFor (t : TableId) : Ev → Bool
| .drainHandler t2 => decide (t2 = t)
| _ => false

/-- The in-play keyboard and game-flow configuration of the tilt scenario:
Main keyboard mode, a running game with the ball on the playfield, no
pending start request, space bar currently up. -/
def InPlay (s : TableState) : Prop :=
  s.kbd_state = .Main ∧ s.quitting = false ∧ s.in_attract = false ∧
  s.cheat.no_tilt = false ∧ s.in_plunger = false ∧ s.drained = false ∧
  s.in_drain = false ∧ s.at_spring = false ∧ s.start_key = none ∧
  s.space_state = false

theorem countEv_emit (p : Ev → Bool) (e : Ev) (s : TableState) :
    countEv p (emit e s).trace = countEv p s.trace + (if p e then 1 else 0) := by
  simp [emit, countEv, List.countP_append, List.countP_cons]

@[simp] theorem emit_table (e : Ev) (s : TableState) : (emit e s).table = s.table := rfl

@[simp] theorem emit_options (e : Ev) (s : TableState) : (emit e s).options = s.options := rfl

@[simp] theorem emit_cheat (e : Ev) (s : TableState) : (emit e s).cheat = s.cheat := rfl

@[simp] theorem emit_kbd_state (e : Ev) (s : TableState) : (emit e s).kbd_state = s.kbd_state := rfl

@[simp] theorem emit_quitting (e : Ev) (s : TableState) : (emit e s).quitting = s.quitting := rfl

@[simp] theorem emit_in_attract (e : Ev) (s : TableState) : (emit e s).in_attract = s.in_attract := rfl

@[simp] theorem emit_in_plunger (e : Ev) (s : TableState) : (emit e s).in_plunger = s.in_plunger := rfl

@[simp] theorem emit_at_spring (e : Ev) (s : TableState) : (emit e s).at_spring = s.at_spring := rfl

@[simp] theorem emit_in_drain (e : Ev) (s : TableState) : (emit e s).in_drain = s.in_drain := rfl

@[simp] theorem emit_drained (e : Ev) (s : TableState) : (emit e s).drained = s.drained := rfl

@[simp] theorem emit_block_drain (e : Ev) (s : TableState) : (emit e s).block_drain = s.block_drain := rfl

@[simp] theorem emit_tilted (e : Ev) (s : TableState) : (emit e s).tilted = s.tilted := rfl

@[simp] theorem emit_tilt_counter (e : Ev) (s : TableState) : (emit e s).tilt_counter = s.tilt_counter := rfl

@[simp] theorem emit_flippers_enabled (e : Ev) (s : TableState) : (emit e s).flippers_enabled = s.flippers_enabled := rfl

@[simp] theorem emit_flipper_pressed (e : Ev) (s : TableState) : (emit e s).flipper_pressed = s.flipper_pressed := rfl

@[simp] theorem emit_flipper_left (e : Ev) (s : TableState) : (emit e s).flipper_left = s.flipper_left := rfl

@[simp] theorem emit_flipper_right (e : Ev) (s : TableState) : (emit e s).flipper_right = s.flipper_right := rfl

@[simp] theorem emit_space_state (e : Ev) (s : TableState) : (emit e s).space_state = s.space_state := rfl

@[simp] theorem emit_space_pressed (e : Ev) (s : TableState) : (emit e s).space_pressed = s.space_pressed := rfl

@[simp] theorem emit_spring_down_state (e : Ev) (s : TableState) : (emit e s).spring_down_state = s.spring_down_state := rfl

@[simp] theorem emit_spring_released (e : Ev) (s : TableState) : (emit e s).spring_released = s.spring_released := rfl

@[simp] theorem emit_spring_pos (e : Ev) (s : TableState) : (emit e s).spring_pos = s.spring_pos := rfl

@[simp] theorem emit_start_keys_active (e : Ev) (s : TableState) : (emit e s).start_keys_active = s.start_keys_active := rfl

@[simp] theorem emit_start_key (e : Ev) (s : TableState) : (emit e s).start_key = s.start_key := rfl

@[simp] theorem emit_fade (e : Ev) (s : TableState) : (emit e s).fade = s.fade := rfl

@[simp] theorem emit_total_players (e : Ev) (s : TableState) : (emit e s).total_players = s.total_players := rfl

@[simp] theorem emit_total_balls (e : Ev) (s : TableState) : (emit e s).total_balls = s.total_balls := rfl

@[simp] theorem emit_players (e : Ev) (s : TableState) : (emit e s).players = s.players := rfl

@[simp] theorem emit_flush_high_scores (e : Ev) (s : TableState) : (emit e s).flush_high_scores = s.flush_high_scores := rfl

@[simp] theorem emit_high_scores (e : Ev) (s : TableState) : (emit e s).high_scores = s.high_scores := rfl

@[simp] theorem emit_script (e : Ev) (s : TableState) : (emit e s).script = s.script := rfl

@[simp] theorem emit_script_cursor (e : Ev) (s : TableState) : (emit e s).script_cursor = s.script_cursor := rfl

@[simp] theorem emit_tasks (e : Ev) (s : TableState) : (emit e s).tasks = s.tasks := rfl

theorem countEv_dmBlinkFrame (p : Ev → Bool) (s : TableState) :
    countEv p (dmBlinkFrame s).trace = countEv p s.trace := rfl

theorem runFired_eq (l : List Task) (s : TableState) :
    runFired l s = if l.isEmpty then s else { s with start_keys_active := true } := by
  induction l generalizing s with
  | nil => rfl
  | cons t ts ih =>
    cases t with
    | mk k d =>
      cases k
      rw [runFired, fireTask, ih]
      split <;> rfl

theorem runVariantFrame_eq (s : TableState) :
    runVariantFrame s = emit (.variantFrame s.table) s := by
  cases h : s.table <;>
    simp [runVariantFrame, h, partyFrame, speedFrame, showFrame, stonesFrame]

theorem runDrained_eq (s : TableState) :
    runDrained s = emit (.drainHandler s.table) s := by
  cases h : s.table <;>
    simp [runDrained, h, partyDrained, speedDrained, showDrained, stonesDrained]

theorem runFlipperPressed_eq (s : TableState) :
    runFlipperPressed s = emit (.flipperHandler s.table) s := by
  cases h : s.table <;>
    simp [runFlipperPressed, h, partyFlipperPressed, speedFlipperPressed,
      showFlipperPressed, stonesFlipperPressed]

theorem countEv_tiltDecayStep (p : Ev → Bool) (s : TableState) :
    countEv p (tiltDecayStep s).trace = countEv p s.trace := by
  unfold tiltDecayStep
  split <;> rfl

theorem countEv_scriptFrame (p : Ev → Bool) (s : TableState) :
    countEv p (scriptFrame s).trace = countEv p s.trace := by
  unfold scriptFrame
  split <;> rfl

theorem countEv_tasksFrame (p : Ev → Bool) (s : TableState) :
    countEv p (tasksFrame s).trace = countEv p s.trace := by
  unfold tasksFrame
  rw [runFired_eq]
  split <;> rfl

theorem countEv_flushStep (p : Ev → Bool) (s : TableState) :
    countEv p (flushStep s).1.trace = countEv p s.trace := by
  unfold flushStep
  split <;> rfl

theorem countEv_springStep (p : Ev → Bool) (s : TableState)
    (h : p .springRelease = false) :
    countEv p (springStep s).trace = countEv p s.trace := by
  unfold springStep springRelease
  split_ifs <;> simp [emit, countEv, List.countP_append, List.countP_cons, h]

theorem countEv_flipperPressedStep (p : Ev → Bool) (s : TableState)
    (h : ∀ t, p (Ev.flipperHandler t) = false) :
    countEv p (flipperPressedStep s).trace = countEv p s.trace := by
  unfold flipperPressedStep
  split_ifs
  · rw [runFlipperPressed_eq, countEv_emit, h]
    simp
  · rfl

theorem countEv_drainStep (p : Ev → Bool) (s : TableState)
    (h : ∀ t, p (Ev.drainHandler t) = false) :
    countEv p (drainStep s).trace = countEv p s.trace := by
  unfold drainStep
  simp only [teleportFreeze]
  split_ifs <;> first
  | rfl
  | (rw [runDrained_eq, countEv_emit, h]; simp)

theorem countEv_spacePressedStep (p : Ev → Bool) (s : TableState)
    (h1 : p (Ev.jingleSilence .Tilt) = false)
    (h2 : p (Ev.script .Tilt) = false)
    (h3 : p Ev.lightsTilt = false)
    (h4 : p (Ev.jingle .WarnTilt) = false) :
    countEv p (spacePressedStep s).trace = countEv p s.trace := by
  simp only [spacePressedStep, playJingleBindSilence, startScript, lightsTilt,
    playJingleBind, emit]
  split_ifs <;>
    simp [countEv, List.countP_append, List.countP_cons, h1, h2, h3, h4]

theorem quitStep_eq (s : TableState) :
    quitStep s =
      ({ s with fade := s.fade - 2, trace := s.trace ++ [.setMasterVolume (s.fade - 2)] },
        if s.fade - 2 = 0 then Action.navigate (.intro (some s.table)) else .none) := by
  unfold quitStep playerSetMasterVolume emit
  by_cases hz : s.fade - 2 = 0 <;> simp [hz]

@[simp] theorem scriptFrame_table (s : TableState) : (scriptFrame s).table = s.table := by
  unfold scriptFrame
  split <;> rfl

@[simp] theorem scriptFrame_options (s : TableState) : (scriptFrame s).options = s.options := by
  unfold scriptFrame
  split <;> rfl

@[simp] theorem scriptFrame_cheat (s : TableState) : (scriptFrame s).cheat = s.cheat := by
  unfold scriptFrame
  split <;> rfl

@[simp] theorem scriptFrame_high_scores (s : TableState) : (scriptFrame s).high_scores = s.high_scores := by
  unfold scriptFrame
  split <;> rfl

@[simp] theorem scriptFrame_kbd_state (s : TableState) : (scriptFrame s).kbd_state = s.kbd_state := by
  unfold scriptFrame
  split <;> rfl

@[simp] theorem scriptFrame_quitting (s : TableState) : (scriptFrame s).quitting = s.quitting := by
  unfold scriptFrame
  split <;> rfl

@[simp] theorem scriptFrame_in_attract (s : TableState) : (scriptFrame s).in_attract = s.in_attract := by
  unfold scriptFrame
  split <;> rfl

@[simp] theorem scriptFrame_in_plunger (s : TableState) : (scriptFrame s).in_plunger = s.in_plunger := by
  unfold scriptFrame
  split <;> rfl

@[simp] theorem scriptFrame_at_spring (s : TableState) : (scriptFrame s).at_spring = s.at_spring := by
  unfold scriptFrame
  split <;> rfl

@[simp] theorem scriptFrame_in_drain (s : TableState) : (scriptFrame s).in_drain = s.in_drain := by
  unfold scriptFrame
  split <;> rfl

@[simp] theorem scriptFrame_drained (s : TableState) : (scriptFrame s).drained = s.drained := by
  unfold scriptFrame
  split <;> rfl

@[simp] theorem scriptFrame_block_drain (s : TableState) : (scriptFrame s).block_drain = s.block_drain := by
  unfold scriptFrame
  split <;> rfl

@[simp] theorem scriptFrame_tilted (s : TableState) : (scriptFrame s).tilted = s.tilted := by
  unfold scriptFrame
  split <;> rfl

@[simp] theorem scriptFrame_tilt_counter (s : TableState) : (scriptFrame s).tilt_counter = s.tilt_counter := by
  unfold scriptFrame
  split <;> rfl

@[simp] theorem scriptFrame_flippers_enabled (s : TableState) : (scriptFrame s).flippers_enabled = s.flippers_enabled := by
  unfold scriptFrame
  split <;> rfl

@[simp] theorem scriptFrame_flipper_pressed (s : TableState) : (scriptFrame s).flipper_pressed = s.flipper_pressed := by
  unfold scriptFrame
  split <;> rfl

@[simp] theorem scriptFrame_flipper_left (s : TableState) : (scriptFrame s).flipper_left = s.flipper_left := by
  unfold scriptFrame
  split <;> rfl

@[simp] theorem scriptFrame_flipper_right (s : TableState) : (scriptFrame s).flipper_right = s.flipper_right := by
  unfold scriptFrame
  split <;> rfl

@[simp] theorem scriptFrame_space_state (s : TableState) : (scriptFrame s).space_state = s.space_state := by
  unfold scriptFrame
  split <;> rfl

@[simp] theorem scriptFrame_space_pressed (s : TableState) : (scriptFrame s).space_pressed = s.space_pressed := by
  unfold scriptFrame
  split <;> rfl

@[simp] theorem scriptFrame_spring_down_state (s : TableState) : (scriptFrame s).spring_down_state = s.spring_down_state := by
  unfold scriptFrame
  split <;> rfl

@[simp] theorem scriptFrame_spring_released (s : TableState) : (scriptFrame s).spring_released = s.spring_released := by
  unfold scriptFrame
  split <;> rfl

@[simp] theorem scriptFrame_spring_pos (s : TableState) : (scriptFrame s).spring_pos = s.spring_pos := by
  unfold scriptFrame
  split <;> rfl

@[simp] theorem scriptFrame_start_keys_active (s : TableState) : (scriptFrame s).start_keys_active = s.start_keys_active := by
  unfold scriptFrame
  split <;> rfl

@[simp] theorem scriptFrame_start_key (s : TableState) : (scriptFrame s).start_key = s.start_key := by
  unfold scriptFrame
  split <;> rfl

@[simp] theorem scriptFrame_fade (s : TableState) : (scriptFrame s).fade = s.fade := by
  unfold scriptFrame
  split <;> rfl

@[simp] theorem scriptFrame_total_players (s : TableState) : (scriptFrame s).total_players = s.total_players := by
  unfold scriptFrame
  split <;> rfl

@[simp] theorem scriptFrame_total_balls (s : TableState) : (scriptFrame s).total_balls = s.total_balls := by
  unfold scriptFrame
  split <;> rfl

@[simp] theorem scriptFrame_players (s : TableState) : (scriptFrame s).players = s.players := by
  unfold scriptFrame
  split <;> rfl

@[simp] theorem scriptFrame_flush_high_scores (s : TableState) : (scriptFrame s).flush_high_scores = s.flush_high_scores := by
  unfold scriptFrame
  split <;> rfl

@[simp] theorem scriptFrame_script (s : TableState) : (scriptFrame s).script = s.script := by
  unfold scriptFrame
  split <;> rfl

@[simp] theorem scriptFrame_trace (s : TableState) : (scriptFrame s).trace = s.trace := by
  unfold scriptFrame
  split <;> rfl

@[simp] theorem tasksFrame_table (s : TableState) : (tasksFrame s).table = s.table := by
  unfold tasksFrame
  rw [runFired_eq]
  split <;> rfl

@[simp] theorem tasksFrame_options (s : TableState) : (tasksFrame s).options = s.options := by
  unfold tasksFrame
  rw [runFired_eq]
  split <;> rfl

@[simp] theorem tasksFrame_cheat (s : TableState) : (tasksFrame s).cheat = s.cheat := by
  unfold tasksFrame
  rw [runFired_eq]
  split <;> rfl

@[simp] theorem tasksFrame_high_scores (s : TableState) : (tasksFrame s).high_scores = s.high_scores := by
  unfold tasksFrame
  rw [runFired_eq]
  split <;> rfl

@[simp] theorem tasksFrame_kbd_state (s : TableState) : (tasksFrame s).kbd_state = s.kbd_state := by
  unfold tasksFrame
  rw [runFired_eq]
  split <;> rfl

@[simp] theorem tasksFrame_quitting (s : TableState) : (tasksFrame s).quitting = s.quitting := by
  unfold tasksFrame
  rw [runFired_eq]
  split <;> rfl

@[simp] theorem tasksFrame_in_attract (s : TableState) : (tasksFrame s).in_attract = s.in_attract := by
  unfold tasksFrame
  rw [runFired_eq]
  split <;> rfl

@[simp] theorem tasksFrame_in_plunger (s : TableState) : (tasksFrame s).in_plunger = s.in_plunger := by
  unfold tasksFrame
  rw [runFired_eq]
  split <;> rfl

@[simp] theorem tasksFrame_at_spring (s : TableState) : (tasksFrame s).at_spring = s.at_spring := by
  unfold tasksFrame
  rw [runFired_eq]
  split <;> rfl

@[simp] theorem tasksFrame_in_drain (s : TableState) : (tasksFrame s).in_drain = s.in_drain := by
  unfold tasksFrame
  rw [runFired_eq]
  split <;> rfl

@[simp] theorem tasksFrame_drained (s : TableState) : (tasksFrame s).drained = s.drained := by
  unfold tasksFrame
  rw [runFired_eq]
  split <;> rfl

@[simp] theorem tasksFrame_block_drain (s : TableState) : (tasksFrame s).block_drain = s.block_drain := by
  unfold tasksFrame
  rw [runFired_eq]
  split <;> rfl

@[simp] theorem tasksFrame_tilted (s : TableState) : (tasksFrame s).tilted = s.tilted := by
  unfold tasksFrame
  rw [runFired_eq]
  split <;> rfl

@[simp] theorem tasksFrame_tilt_counter (s : TableState) : (tasksFrame s).tilt_counter = s.tilt_counter := by
  unfold tasksFrame
  rw [runFired_eq]
  split <;> rfl

@[simp] theorem tasksFrame_flippers_enabled (s : TableState) : (tasksFrame s).flippers_enabled = s.flippers_enabled := by
  unfold tasksFrame
  rw [runFired_eq]
  split <;> rfl

@[simp] theorem tasksFrame_flipper_pressed (s : TableState) : (tasksFrame s).flipper_pressed = s.flipper_pressed := by
  unfold tasksFrame
  rw [runFired_eq]
  split <;> rfl

@[simp] theorem tasksFrame_flipper_left (s : TableState) : (tasksFrame s).flipper_left = s.flipper_left := by
  unfold tasksFrame
  rw [runFired_eq]
  split <;> rfl

@[simp] theorem tasksFrame_flipper_right (s : TableState) : (tasksFrame s).flipper_right = s.flipper_right := by
  unfold tasksFrame
  rw [runFired_eq]
  split <;> rfl

@[simp] theorem tasksFrame_space_state (s : TableState) : (tasksFrame s).space_state = s.space_state := by
  unfold tasksFrame
  rw [runFired_eq]
  split <;> rfl

@[simp] theorem tasksFrame_space_pressed (s : TableState) : (tasksFrame s).space_pressed = s.space_pressed := by
  unfold tasksFrame
  rw [runFired_eq]
  split <;> rfl

@[simp] theorem tasksFrame_spring_down_state (s : TableState) : (tasksFrame s).spring_down_state = s.spring_down_state := by
  unfold tasksFrame
  rw [runFired_eq]
  split <;> rfl

@[simp] theorem tasksFrame_spring_released (s : TableState) : (tasksFrame s).spring_released = s.spring_released := by
  unfold tasksFrame
  rw [runFired_eq]
  split <;> rfl

@[simp] theorem tasksFrame_spring_pos (s : TableState) : (tasksFrame s).spring_pos = s.spring_pos := by
  unfold tasksFrame
  rw [runFired_eq]
  split <;> rfl

@[simp] theorem tasksFrame_start_key (s : TableState) : (tasksFrame s).start_key = s.start_key := by
  unfold tasksFrame
  rw [runFired_eq]
  split <;> rfl

@[simp] theorem tasksFrame_fade (s : TableState) : (tasksFrame s).fade = s.fade := by
  unfold tasksFrame
  rw [runFired_eq]
  split <;> rfl

@[simp] theorem tasksFrame_total_players (s : TableState) : (tasksFrame s).total_players = s.total_players := by
  unfold tasksFrame
  rw [runFired_eq]
  split <;> rfl

@[simp] theorem tasksFrame_total_balls (s : TableState) : (tasksFrame s).total_balls = s.total_balls := by
  unfold tasksFrame
  rw [runFired_eq]
  split <;> rfl

@[simp] theorem tasksFrame_players (s : TableState) : (tasksFrame s).players = s.players := by
  unfold tasksFrame
  rw [runFired_eq]
  split <;> rfl

@[simp] theorem tasksFrame_flush_high_scores (s : TableState) : (tasksFrame s).flush_high_scores = s.flush_high_scores := by
  unfold tasksFrame
  rw [runFired_eq]
  split <;> rfl

@[simp] theorem tasksFrame_script (s : TableState) : (tasksFrame s).script = s.script := by
  unfold tasksFrame
  rw [runFired_eq]
  split <;> rfl

@[simp] theorem tasksFrame_script_cursor (s : TableState) : (tasksFrame s).script_cursor = s.script_cursor := by
  unfold tasksFrame
  rw [runFired_eq]
  split <;> rfl

@[simp] theorem tasksFrame_trace (s : TableState) : (tasksFrame s).trace = s.trace := by
  unfold tasksFrame
  rw [runFired_eq]
  split <;> rfl

@[simp] theorem tiltDecayStep_table (s : TableState) : (tiltDecayStep s).table = s.table := by
  unfold tiltDecayStep
  split <;> rfl

@[simp] theorem tiltDecayStep_options (s : TableState) : (tiltDecayStep s).options = s.options := by
  unfold tiltDecayStep
  split <;> rfl

@[simp] theorem tiltDecayStep_cheat (s : TableState) : (tiltDecayStep s).cheat = s.cheat := by
  unfold tiltDecayStep
  split <;> rfl

@[simp] theorem tiltDecayStep_high_scores (s : TableState) : (tiltDecayStep s).high_scores = s.high_scores := by
  unfold tiltDecayStep
  split <;> rfl

@[simp] theorem tiltDecayStep_kbd_state (s : TableState) : (tiltDecayStep s).kbd_state = s.kbd_state := by
  unfold tiltDecayStep
  split <;> rfl

@[simp] theorem tiltDecayStep_quitting (s : TableState) : (tiltDecayStep s).quitting = s.quitting := by
  unfold tiltDecayStep
  split <;> rfl

@[simp] theorem tiltDecayStep_in_attract (s : TableState) : (tiltDecayStep s).in_attract = s.in_attract := by
  unfold tiltDecayStep
  split <;> rfl

@[simp] theorem tiltDecayStep_in_plunger (s : TableState) : (tiltDecayStep s).in_plunger = s.in_plunger := by
  unfold tiltDecayStep
  split <;> rfl

@[simp] theorem tiltDecayStep_at_spring (s : TableState) : (tiltDecayStep s).at_spring = s.at_spring := by
  unfold tiltDecayStep
  split <;> rfl

@[simp] theorem tiltDecayStep_in_drain (s : TableState) : (tiltDecayStep s).in_drain = s.in_drain := by
  unfold tiltDecayStep
  split <;> rfl

@[simp] theorem tiltDecayStep_drained (s : TableState) : (tiltDecayStep s).drained = s.drained := by
  unfold tiltDecayStep
  split <;> rfl

@[simp] theorem tiltDecayStep_block_drain (s : TableState) : (tiltDecayStep s).block_drain = s.block_drain := by
  unfold tiltDecayStep
  split <;> rfl

@[simp] theorem tiltDecayStep_tilted (s : TableState) : (tiltDecayStep s).tilted = s.tilted := by
  unfold tiltDecayStep
  split <;> rfl

@[simp] theorem tiltDecayStep_flippers_enabled (s : TableState) : (tiltDecayStep s).flippers_enabled = s.flippers_enabled := by
  unfold tiltDecayStep
  split <;> rfl

@[simp] theorem tiltDecayStep_flipper_pressed (s : TableState) : (tiltDecayStep s).flipper_pressed = s.flipper_pressed := by
  unfold tiltDecayStep
  split <;> rfl

@[simp] theorem tiltDecayStep_flipper_left (s : TableState) : (tiltDecayStep s).flipper_left = s.flipper_left := by
  unfold tiltDecayStep
  split <;> rfl

@[simp] theorem tiltDecayStep_flipper_right (s : TableState) : (tiltDecayStep s).flipper_right = s.flipper_right := by
  unfold tiltDecayStep
  split <;> rfl

@[simp] theorem tiltDecayStep_space_state (s : TableState) : (tiltDecayStep s).space_state = s.space_state := by
  unfold tiltDecayStep
  split <;> rfl

@[simp] theorem tiltDecayStep_space_pressed (s : TableState) : (tiltDecayStep s).space_pressed = s.space_pressed := by
  unfold tiltDecayStep
  split <;> rfl

@[simp] theorem tiltDecayStep_spring_down_state (s : TableState) : (tiltDecayStep s).spring_down_state = s.spring_down_state := by
  unfold tiltDecayStep
  split <;> rfl

@[simp] theorem tiltDecayStep_spring_released (s : TableState) : (tiltDecayStep s).spring_released = s.spring_released := by
  unfold tiltDecayStep
  split <;> rfl

@[simp] theorem tiltDecayStep_spring_pos (s : TableState) : (tiltDecayStep s).spring_pos = s.spring_pos := by
  unfold tiltDecayStep
  split <;> rfl

@[simp] theorem tiltDecayStep_start_keys_active (s : TableState) : (tiltDecayStep s).start_keys_active = s.start_keys_active := by
  unfold tiltDecayStep
  split <;> rfl

@[simp] theorem tiltDecayStep_start_key (s : TableState) : (tiltDecayStep s).start_key = s.start_key := by
  unfold tiltDecayStep
  split <;> rfl

@[simp] theorem tiltDecayStep_fade (s : TableState) : (tiltDecayStep s).fade = s.fade := by
  unfold tiltDecayStep
  split <;> rfl

@[simp] theorem tiltDecayStep_total_players (s : TableState) : (tiltDecayStep s).total_players = s.total_players := by
  unfold tiltDecayStep
  split <;> rfl

@[simp] theorem tiltDecayStep_total_balls (s : TableState) : (tiltDecayStep s).total_balls = s.total_balls := by
  unfold tiltDecayStep
  split <;> rfl

@[simp] theorem tiltDecayStep_players (s : TableState) : (tiltDecayStep s).players = s.players := by
  unfold tiltDecayStep
  split <;> rfl

@[simp] theorem tiltDecayStep_flush_high_scores (s : TableState) : (tiltDecayStep s).flush_high_scores = s.flush_high_scores := by
  unfold tiltDecayStep
  split <;> rfl

@[simp] theorem tiltDecayStep_script (s : TableState) : (tiltDecayStep s).script = s.script := by
  unfold tiltDecayStep
  split <;> rfl

@[simp] theorem tiltDecayStep_script_cursor (s : TableState) : (tiltDecayStep s).script_cursor = s.script_cursor := by
  unfold tiltDecayStep
  split <;> rfl

@[simp] theorem tiltDecayStep_trace (s : TableState) : (tiltDecayStep s).trace = s.trace := by
  unfold tiltDecayStep
  split <;> rfl

@[simp] theorem flipperPressedStep_table (s : TableState) : (flipperPressedStep s).table = s.table := by
  unfold flipperPressedStep
  split_ifs <;> simp [runFlipperPressed_eq]

@[simp] theorem flipperPressedStep_options (s : TableState) : (flipperPressedStep s).options = s.options := by
  unfold flipperPressedStep
  split_ifs <;> simp [runFlipperPressed_eq]

@[simp] theorem flipperPressedStep_cheat (s : TableState) : (flipperPressedStep s).cheat = s.cheat := by
  unfold flipperPressedStep
  split_ifs <;> simp [runFlipperPressed_eq]

@[simp] theorem flipperPressedStep_high_scores (s : TableState) : (flipperPressedStep s).high_scores = s.high_scores := by
  unfold flipperPressedStep
  split_ifs <;> simp [runFlipperPressed_eq]

@[simp] theorem flipperPressedStep_kbd_state (s : TableState) : (flipperPressedStep s).kbd_state = s.kbd_state := by
  unfold flipperPressedStep
  split_ifs <;> simp [runFlipperPressed_eq]

@[simp] theorem flipperPressedStep_quitting (s : TableState) : (flipperPressedStep s).quitting = s.quitting := by
  unfold flipperPressedStep
  split_ifs <;> simp [runFlipperPressed_eq]

@[simp] theorem flipperPressedStep_in_attract (s : TableState) : (flipperPressedStep s).in_attract = s.in_attract := by
  unfold flipperPressedStep
  split_ifs <;> simp [runFlipperPressed_eq]

@[simp] theorem flipperPressedStep_in_plunger (s : TableState) : (flipperPressedStep s).in_plunger = s.in_plunger := by
  unfold flipperPressedStep
  split_ifs <;> simp [runFlipperPressed_eq]

@[simp] theorem flipperPressedStep_at_spring (s : TableState) : (flipperPressedStep s).at_spring = s.at_spring := by
  unfold flipperPressedStep
  split_ifs <;> simp [runFlipperPressed_eq]

@[simp] theorem flipperPressedStep_in_drain (s : TableState) : (flipperPressedStep s).in_drain = s.in_drain := by
  unfold flipperPressedStep
  split_ifs <;> simp [runFlipperPressed_eq]

@[simp] theorem flipperPressedStep_drained (s : TableState) : (flipperPressedStep s).drained = s.drained := by
  unfold flipperPressedStep
  split_ifs <;> simp [runFlipperPressed_eq]

@[simp] theorem flipperPressedStep_block_drain (s : TableState) : (flipperPressedStep s).block_drain = s.block_drain := by
  unfold flipperPressedStep
  split_ifs <;> simp [runFlipperPressed_eq]

@[simp] theorem flipperPressedStep_tilted (s : TableState) : (flipperPressedStep s).tilted = s.tilted := by
  unfold flipperPressedStep
  split_ifs <;> simp [runFlipperPressed_eq]

@[simp] theorem flipperPressedStep_tilt_counter (s : TableState) : (flipperPressedStep s).tilt_counter = s.tilt_counter := by
  unfold flipperPressedStep
  split_ifs <;> simp [runFlipperPressed_eq]

@[simp] theorem flipperPressedStep_flippers_enabled (s : TableState) : (flipperPressedStep s).flippers_enabled = s.flippers_enabled := by
  unfold flipperPressedStep
  split_ifs <;> simp [runFlipperPressed_eq]

@[simp] theorem flipperPressedStep_flipper_left (s : TableState) : (flipperPressedStep s).flipper_left = s.flipper_left := by
  unfold flipperPressedStep
  split_ifs <;> simp [runFlipperPressed_eq]

@[simp] theorem flipperPressedStep_flipper_right (s : TableState) : (flipperPressedStep s).flipper_right = s.flipper_right := by
  unfold flipperPressedStep
  split_ifs <;> simp [runFlipperPressed_eq]

@[simp] theorem flipperPressedStep_space_state (s : TableState) : (flipperPressedStep s).space_state = s.space_state := by
  unfold flipperPressedStep
  split_ifs <;> simp [runFlipperPressed_eq]

@[simp] theorem flipperPressedStep_space_pressed (s : TableState) : (flipperPressedStep s).space_pressed = s.space_pressed := by
  unfold flipperPressedStep
  split_ifs <;> simp [runFlipperPressed_eq]

@[simp] theorem flipperPressedStep_spring_down_state (s : TableState) : (flipperPressedStep s).spring_down_state = s.spring_down_state := by
  unfold flipperPressedStep
  split_ifs <;> simp [runFlipperPressed_eq]

@[simp] theorem flipperPressedStep_spring_released (s : TableState) : (flipperPressedStep s).spring_released = s.spring_released := by
  unfold flipperPressedStep
  split_ifs <;> simp [runFlipperPressed_eq]

@[simp] theorem flipperPressedStep_spring_pos (s : TableState) : (flipperPressedStep s).spring_pos = s.spring_pos := by
  unfold flipperPressedStep
  split_ifs <;> simp [runFlipperPressed_eq]

@[simp] theorem flipperPressedStep_start_keys_active (s : TableState) : (flipperPressedStep s).start_keys_active = s.start_keys_active := by
  unfold flipperPressedStep
  split_ifs <;> simp [runFlipperPressed_eq]

@[simp] theorem flipperPressedStep_start_key (s : TableState) : (flipperPressedStep s).start_key = s.start_key := by
  unfold flipperPressedStep
  split_ifs <;> simp [runFlipperPressed_eq]

@[simp] theorem flipperPressedStep_fade (s : TableState) : (flipperPressedStep s).fade = s.fade := by
  unfold flipperPressedStep
  split_ifs <;> simp [runFlipperPressed_eq]

@[simp] theorem flipperPressedStep_total_players (s : TableState) : (flipperPressedStep s).total_players = s.total_players := by
  unfold flipperPressedStep
  split_ifs <;> simp [runFlipperPressed_eq]

@[simp] theorem flipperPressedStep_total_balls (s : TableState) : (flipperPressedStep s).total_balls = s.total_balls := by
  unfold flipperPressedStep
  split_ifs <;> simp [runFlipperPressed_eq]

@[simp] theorem flipperPressedStep_players (s : TableState) : (flipperPressedStep s).players = s.players := by
  unfold flipperPressedStep
  split_ifs <;> simp [runFlipperPressed_eq]

@[simp] theorem flipperPressedStep_flush_high_scores (s : TableState) : (flipperPressedStep s).flush_high_scores = s.flush_high_scores := by
  unfold flipperPressedStep
  split_ifs <;> simp [runFlipperPressed_eq]

@[simp] theorem flipperPressedStep_script (s : TableState) : (flipperPressedStep s).script = s.script := by
  unfold flipperPressedStep
  split_ifs <;> simp [runFlipperPressed_eq]

@[simp] theorem flipperPressedStep_script_cursor (s : TableState) : (flipperPressedStep s).script_cursor = s.script_cursor := by
  unfold flipperPressedStep
  split_ifs <;> simp [runFlipperPressed_eq]

@[simp] theorem springStep_table (s : TableState) : (springStep s).table = s.table := by
  unfold springStep
  split_ifs <;> simp [springRelease, emit]

@[simp] theorem springStep_options (s : TableState) : (springStep s).options = s.options := by
  unfold springStep
  split_ifs <;> simp [springRelease, emit]

@[simp] theorem springStep_cheat (s : TableState) : (springStep s).cheat = s.cheat := by
  unfold springStep
  split_ifs <;> simp [springRelease, emit]

@[simp] theorem springStep_high_scores (s : TableState) : (springStep s).high_scores = s.high_scores := by
  unfold springStep
  split_ifs <;> simp [springRelease, emit]

@[simp] theorem springStep_kbd_state (s : TableState) : (springStep s).kbd_state = s.kbd_state := by
  unfold springStep
  split_ifs <;> simp [springRelease, emit]

@[simp] theorem springStep_quitting (s : TableState) : (springStep s).quitting = s.quitting := by
  unfold springStep
  split_ifs <;> simp [springRelease, emit]

@[simp] theorem springStep_in_attract (s : TableState) : (springStep s).in_attract = s.in_attract := by
  unfold springStep
  split_ifs <;> simp [springRelease, emit]

@[simp] theorem springStep_in_plunger (s : TableState) : (springStep s).in_plunger = s.in_plunger := by
  unfold springStep
  split_ifs <;> simp [springRelease, emit]

@[simp] theorem springStep_at_spring (s : TableState) : (springStep s).at_spring = s.at_spring := by
  unfold springStep
  split_ifs <;> simp [springRelease, emit]

@[simp] theorem springStep_in_drain (s : TableState) : (springStep s).in_drain = s.in_drain := by
  unfold springStep
  split_ifs <;> simp [springRelease, emit]

@[simp] theorem springStep_drained (s : TableState) : (springStep s).drained = s.drained := by
  unfold springStep
  split_ifs <;> simp [springRelease, emit]

@[simp] theorem springStep_block_drain (s : TableState) : (springStep s).block_drain = s.block_drain := by
  unfold springStep
  split_ifs <;> simp [springRelease, emit]

@[simp] theorem springStep_tilted (s : TableState) : (springStep s).tilted = s.tilted := by
  unfold springStep
  split_ifs <;> simp [springRelease, emit]

@[simp] theorem springStep_tilt_counter (s : TableState) : (springStep s).tilt_counter = s.tilt_counter := by
  unfold springStep
  split_ifs <;> simp [springRelease, emit]

@[simp] theorem springStep_flippers_enabled (s : TableState) : (springStep s).flippers_enabled = s.flippers_enabled := by
  unfold springStep
  split_ifs <;> simp [springRelease, emit]

@[simp] theorem springStep_flipper_pressed (s : TableState) : (springStep s).flipper_pressed = s.flipper_pressed := by
  unfold springStep
  split_ifs <;> simp [springRelease, emit]

@[simp] theorem springStep_flipper_left (s : TableState) : (springStep s).flipper_left = s.flipper_left := by
  unfold springStep
  split_ifs <;> simp [springRelease, emit]

@[simp] theorem springStep_flipper_right (s : TableState) : (springStep s).flipper_right = s.flipper_right := by
  unfold springStep
  split_ifs <;> simp [springRelease, emit]

@[simp] theorem springStep_space_state (s : TableState) : (springStep s).space_state = s.space_state := by
  unfold springStep
  split_ifs <;> simp [springRelease, emit]

@[simp] theorem springStep_space_pressed (s : TableState) : (springStep s).space_pressed = s.space_pressed := by
  unfold springStep
  split_ifs <;> simp [springRelease, emit]

@[simp] theorem springStep_spring_down_state (s : TableState) : (springStep s).spring_down_state = s.spring_down_state := by
  unfold springStep
  split_ifs <;> simp [springRelease, emit]

@[simp] theorem springStep_start_keys_active (s : TableState) : (springStep s).start_keys_active = s.start_keys_active := by
  unfold springStep
  split_ifs <;> simp [springRelease, emit]

@[simp] theorem springStep_start_key (s : TableState) : (springStep s).start_key = s.start_key := by
  unfold springStep
  split_ifs <;> simp [springRelease, emit]

@[simp] theorem springStep_fade (s : TableState) : (springStep s).fade = s.fade := by
  unfold springStep
  split_ifs <;> simp [springRelease, emit]

@[simp] theorem springStep_total_players (s : TableState) : (springStep s).total_players = s.total_players := by
  unfold springStep
  split_ifs <;> simp [springRelease, emit]

@[simp] theorem springStep_total_balls (s : TableState) : (springStep s).total_balls = s.total_balls := by
  unfold springStep
  split_ifs <;> simp [springRelease, emit]

@[simp] theorem springStep_players (s : TableState) : (springStep s).players = s.players := by
  unfold springStep
  split_ifs <;> simp [springRelease, emit]

@[simp] theorem springStep_flush_high_scores (s : TableState) : (springStep s).flush_high_scores = s.flush_high_scores := by
  unfold springStep
  split_ifs <;> simp [springRelease, emit]

@[simp] theorem springStep_script (s : TableState) : (springStep s).script = s.script := by
  unfold springStep
  split_ifs <;> simp [springRelease, emit]

@[simp] theorem springStep_script_cursor (s : TableState) : (springStep s).script_cursor = s.script_cursor := by
  unfold springStep
  split_ifs <;> simp [springRelease, emit]

@[simp] theorem drainStep_table (s : TableState) : (drainStep s).table = s.table := by
  unfold drainStep
  simp only [teleportFreeze]
  split_ifs <;> simp [runDrained_eq, emit]

@[simp] theorem drainStep_options (s : TableState) : (drainStep s).options = s.options := by
  unfold drainStep
  simp only [teleportFreeze]
  split_ifs <;> simp [runDrained_eq, emit]

@[simp] theorem drainStep_cheat (s : TableState) : (drainStep s).cheat = s.cheat := by
  unfold drainStep
  simp only [teleportFreeze]
  split_ifs <;> simp [runDrained_eq, emit]

@[simp] theorem drainStep_high_scores (s : TableState) : (drainStep s).high_scores = s.high_scores := by
  unfold drainStep
  simp only [teleportFreeze]
  split_ifs <;> simp [runDrained_eq, emit]

@[simp] theorem drainStep_kbd_state (s : TableState) : (drainStep s).kbd_state = s.kbd_state := by
  unfold drainStep
  simp only [teleportFreeze]
  split_ifs <;> simp [runDrained_eq, emit]

@[simp] theorem drainStep_quitting (s : TableState) : (drainStep s).quitting = s.quitting := by
  unfold drainStep
  simp only [teleportFreeze]
  split_ifs <;> simp [runDrained_eq, emit]

@[simp] theorem drainStep_in_attract (s : TableState) : (drainStep s).in_attract = s.in_attract := by
  unfold drainStep
  simp only [teleportFreeze]
  split_ifs <;> simp [runDrained_eq, emit]

@[simp] theorem drainStep_in_plunger (s : TableState) : (drainStep s).in_plunger = s.in_plunger := by
  unfold drainStep
  simp only [teleportFreeze]
  split_ifs <;> simp [runDrained_eq, emit]

@[simp] theorem drainStep_at_spring (s : TableState) : (drainStep s).at_spring = s.at_spring := by
  unfold drainStep
  simp only [teleportFreeze]
  split_ifs <;> simp [runDrained_eq, emit]

@[simp] theorem drainStep_drained (s : TableState) : (drainStep s).drained = s.drained := by
  unfold drainStep
  simp only [teleportFreeze]
  split_ifs <;> simp [runDrained_eq, emit]

@[simp] theorem drainStep_block_drain (s : TableState) : (drainStep s).block_drain = s.block_drain := by
  unfold drainStep
  simp only [teleportFreeze]
  split_ifs <;> simp [runDrained_eq, emit]

@[simp] theorem drainStep_tilted (s : TableState) : (drainStep s).tilted = s.tilted := by
  unfold drainStep
  simp only [teleportFreeze]
  split_ifs <;> simp [runDrained_eq, emit]

@[simp] theorem drainStep_tilt_counter (s : TableState) : (drainStep s).tilt_counter = s.tilt_counter := by
  unfold drainStep
  simp only [teleportFreeze]
  split_ifs <;> simp [runDrained_eq, emit]

@[simp] theorem drainStep_flipper_pressed (s : TableState) : (drainStep s).flipper_pressed = s.flipper_pressed := by
  unfold drainStep
  simp only [teleportFreeze]
  split_ifs <;> simp [runDrained_eq, emit]

@[simp] theorem drainStep_flipper_left (s : TableState) : (drainStep s).flipper_left = s.flipper_left := by
  unfold drainStep
  simp only [teleportFreeze]
  split_ifs <;> simp [runDrained_eq, emit]

@[simp] theorem drainStep_flipper_right (s : TableState) : (drainStep s).flipper_right = s.flipper_right := by
  unfold drainStep
  simp only [teleportFreeze]
  split_ifs <;> simp [runDrained_eq, emit]

@[simp] theorem drainStep_space_state (s : TableState) : (drainStep s).space_state = s.space_state := by
  unfold drainStep
  simp only [teleportFreeze]
  split_ifs <;> simp [runDrained_eq, emit]

@[simp] theorem drainStep_space_pressed (s : TableState) : (drainStep s).space_pressed = s.space_pressed := by
  unfold drainStep
  simp only [teleportFreeze]
  split_ifs <;> simp [runDrained_eq, emit]

@[simp] theorem drainStep_spring_down_state (s : TableState) : (drainStep s).spring_down_state = s.spring_down_state := by
  unfold drainStep
  simp only [teleportFreeze]
  split_ifs <;> simp [runDrained_eq, emit]

@[simp] theorem drainStep_spring_released (s : TableState) : (drainStep s).spring_released = s.spring_released := by
  unfold drainStep
  simp only [teleportFreeze]
  split_ifs <;> simp [runDrained_eq, emit]

@[simp] theorem drainStep_spring_pos (s : TableState) : (drainStep s).spring_pos = s.spring_pos := by
  unfold drainStep
  simp only [teleportFreeze]
  split_ifs <;> simp [runDrained_eq, emit]

@[simp] theorem drainStep_start_keys_active (s : TableState) : (drainStep s).start_keys_active = s.start_keys_active := by
  unfold drainStep
  simp only [teleportFreeze]
  split_ifs <;> simp [runDrained_eq, emit]

@[simp] theorem drainStep_start_key (s : TableState) : (drainStep s).start_key = s.start_key := by
  unfold drainStep
  simp only [teleportFreeze]
  split_ifs <;> simp [runDrained_eq, emit]

@[simp] theorem drainStep_fade (s : TableState) : (drainStep s).fade = s.fade := by
  unfold drainStep
  simp only [teleportFreeze]
  split_ifs <;> simp [runDrained_eq, emit]

@[simp] theorem drainStep_total_players (s : TableState) : (drainStep s).total_players = s.total_players := by
  unfold drainStep
  simp only [teleportFreeze]
  split_ifs <;> simp [runDrained_eq, emit]

@[simp] theorem drainStep_total_balls (s : TableState) : (drainStep s).total_balls = s.total_balls := by
  unfold drainStep
  simp only [teleportFreeze]
  split_ifs <;> simp [runDrained_eq, emit]

@[simp] theorem drainStep_players (s : TableState) : (drainStep s).players = s.players := by
  unfold drainStep
  simp only [teleportFreeze]
  split_ifs <;> simp [runDrained_eq, emit]

@[simp] theorem drainStep_flush_high_scores (s : TableState) : (drainStep s).flush_high_scores = s.flush_high_scores := by
  unfold drainStep
  simp only [teleportFreeze]
  split_ifs <;> simp [runDrained_eq, emit]

@[simp] theorem drainStep_script (s : TableState) : (drainStep s).script = s.script := by
  unfold drainStep
  simp only [teleportFreeze]
  split_ifs <;> simp [runDrained_eq, emit]

@[simp] theorem drainStep_script_cursor (s : TableState) : (drainStep s).script_cursor = s.script_cursor := by
  unfold drainStep
  simp only [teleportFreeze]
  split_ifs <;> simp [runDrained_eq, emit]

@[simp] theorem spacePressedStep_table (s : TableState) : (spacePressedStep s).table = s.table := by
  simp only [spacePressedStep, playJingleBindSilence, startScript, lightsTilt,
    playJingleBind, emit]
  split_ifs <;> rfl

@[simp] theorem spacePressedStep_options (s : TableState) : (spacePressedStep s).options = s.options := by
  simp only [spacePressedStep, playJingleBindSilence, startScript, lightsTilt,
    playJingleBind, emit]
  split_ifs <;> rfl

@[simp] theorem spacePressedStep_cheat (s : TableState) : (spacePressedStep s).cheat = s.cheat := by
  simp only [spacePressedStep, playJingleBindSilence, startScript, lightsTilt,
    playJingleBind, emit]
  split_ifs <;> rfl

@[simp] theorem spacePressedStep_high_scores (s : TableState) : (spacePressedStep s).high_scores = s.high_scores := by
  simp only [spacePressedStep, playJingleBindSilence, startScript, lightsTilt,
    playJingleBind, emit]
  split_ifs <;> rfl

@[simp] theorem spacePressedStep_kbd_state (s : TableState) : (spacePressedStep s).kbd_state = s.kbd_state := by
  simp only [spacePressedStep, playJingleBindSilence, startScript, lightsTilt,
    playJingleBind, emit]
  split_ifs <;> rfl

@[simp] theorem spacePressedStep_quitting (s : TableState) : (spacePressedStep s).quitting = s.quitting := by
  simp only [spacePressedStep, playJingleBindSilence, startScript, lightsTilt,
    playJingleBind, emit]
  split_ifs <;> rfl

@[simp] theorem spacePressedStep_in_attract (s : TableState) : (spacePressedStep s).in_attract = s.in_attract := by
  simp only [spacePressedStep, playJingleBindSilence, startScript, lightsTilt,
    playJingleBind, emit]
  split_ifs <;> rfl

@[simp] theorem spacePressedStep_in_plunger (s : TableState) : (spacePressedStep s).in_plunger = s.in_plunger := by
  simp only [spacePressedStep, playJingleBindSilence, startScript, lightsTilt,
    playJingleBind, emit]
  split_ifs <;> rfl

@[simp] theorem spacePressedStep_at_spring (s : TableState) : (spacePressedStep s).at_spring = s.at_spring := by
  simp only [spacePressedStep, playJingleBindSilence, startScript, lightsTilt,
    playJingleBind, emit]
  split_ifs <;> rfl

@[simp] theorem spacePressedStep_in_drain (s : TableState) : (spacePressedStep s).in_drain = s.in_drain := by
  simp only [spacePressedStep, playJingleBindSilence, startScript, lightsTilt,
    playJingleBind, emit]
  split_ifs <;> rfl

@[simp] theorem spacePressedStep_drained (s : TableState) : (spacePressedStep s).drained = s.drained := by
  simp only [spacePressedStep, playJingleBindSilence, startScript, lightsTilt,
    playJingleBind, emit]
  split_ifs <;> rfl

@[simp] theorem spacePressedStep_block_drain (s : TableState) : (spacePressedStep s).block_drain = s.block_drain := by
  simp only [spacePressedStep, playJingleBindSilence, startScript, lightsTilt,
    playJingleBind, emit]
  split_ifs <;> rfl

@[simp] theorem spacePressedStep_flipper_pressed (s : TableState) : (spacePressedStep s).flipper_pressed = s.flipper_pressed := by
  simp only [spacePressedStep, playJingleBindSilence, startScript, lightsTilt,
    playJingleBind, emit]
  split_ifs <;> rfl

@[simp] theorem spacePressedStep_flipper_left (s : TableState) : (spacePressedStep s).flipper_left = s.flipper_left := by
  simp only [spacePressedStep, playJingleBindSilence, startScript, lightsTilt,
    playJingleBind, emit]
  split_ifs <;> rfl

@[simp] theorem spacePressedStep_flipper_right (s : TableState) : (spacePressedStep s).flipper_right = s.flipper_right := by
  simp only [spacePressedStep, playJingleBindSilence, startScript, lightsTilt,
    playJingleBind, emit]
  split_ifs <;> rfl

@[simp] theorem spacePressedStep_space_state (s : TableState) : (spacePressedStep s).space_state = s.space_state := by
  simp only [spacePressedStep, playJingleBindSilence, startScript, lightsTilt,
    playJingleBind, emit]
  split_ifs <;> rfl

@[simp] theorem spacePressedStep_spring_down_state (s : TableState) : (spacePressedStep s).spring_down_state = s.spring_down_state := by
  simp only [spacePressedStep, playJingleBindSilence, startScript, lightsTilt,
    playJingleBind, emit]
  split_ifs <;> rfl

@[simp] theorem spacePressedStep_spring_released (s : TableState) : (spacePressedStep s).spring_released = s.spring_released := by
  simp only [spacePressedStep, playJingleBindSilence, startScript, lightsTilt,
    playJingleBind, emit]
  split_ifs <;> rfl

@[simp] theorem spacePressedStep_spring_pos (s : TableState) : (spacePressedStep s).spring_pos = s.spring_pos := by
  simp only [spacePressedStep, playJingleBindSilence, startScript, lightsTilt,
    playJingleBind, emit]
  split_ifs <;> rfl

@[simp] theorem spacePressedStep_start_keys_active (s : TableState) : (spacePressedStep s).start_keys_active = s.start_keys_active := by
  simp only [spacePressedStep, playJingleBindSilence, startScript, lightsTilt,
    playJingleBind, emit]
  split_ifs <;> rfl

@[simp] theorem spacePressedStep_start_key (s : TableState) : (spacePressedStep s).start_key = s.start_key := by
  simp only [spacePressedStep, playJingleBindSilence, startScript, lightsTilt,
    playJingleBind, emit]
  split_ifs <;> rfl

@[simp] theorem spacePressedStep_fade (s : TableState) : (spacePressedStep s).fade = s.fade := by
  simp only [spacePressedStep, playJingleBindSilence, startScript, lightsTilt,
    playJingleBind, emit]
  split_ifs <;> rfl

@[simp] theorem spacePressedStep_total_players (s : TableState) : (spacePressedStep s).total_players = s.total_players := by
  simp only [spacePressedStep, playJingleBindSilence, startScript, lightsTilt,
    playJingleBind, emit]
  split_ifs <;> rfl

@[simp] theorem spacePressedStep_total_balls (s : TableState) : (spacePressedStep s).total_balls = s.total_balls := by
  simp only [spacePressedStep, playJingleBindSilence, startScript, lightsTilt,
    playJingleBind, emit]
  split_ifs <;> rfl

@[simp] theorem spacePressedStep_players (s : TableState) : (spacePressedStep s).players = s.players := by
  simp only [spacePressedStep, playJingleBindSilence, startScript, lightsTilt,
    playJingleBind, emit]
  split_ifs <;> rfl

@[simp] theorem spacePressedStep_flush_high_scores (s : TableState) : (spacePressedStep s).flush_high_scores = s.flush_high_scores := by
  simp only [spacePressedStep, playJingleBindSilence, startScript, lightsTilt,
    playJingleBind, emit]
  split_ifs <;> rfl

@[simp] theorem dmBlinkFrame_table (s : TableState) : (dmBlinkFrame s).table = s.table := rfl

@[simp] theorem dmBlinkFrame_options (s : TableState) : (dmBlinkFrame s).options = s.options := rfl

@[simp] theorem dmBlinkFrame_cheat (s : TableState) : (dmBlinkFrame s).cheat = s.cheat := rfl

@[simp] theorem dmBlinkFrame_high_scores (s : TableState) : (dmBlinkFrame s).high_scores = s.high_scores := rfl

@[simp] theorem dmBlinkFrame_kbd_state (s : TableState) : (dmBlinkFrame s).kbd_state = s.kbd_state := rfl

@[simp] theorem dmBlinkFrame_quitting (s : TableState) : (dmBlinkFrame s).quitting = s.quitting := rfl

@[simp] theorem dmBlinkFrame_in_attract (s : TableState) : (dmBlinkFrame s).in_attract = s.in_attract := rfl

@[simp] theorem dmBlinkFrame_in_plunger (s : TableState) : (dmBlinkFrame s).in_plunger = s.in_plunger := rfl

@[simp] theorem dmBlinkFrame_at_spring (s : TableState) : (dmBlinkFrame s).at_spring = s.at_spring := rfl

@[simp] theorem dmBlinkFrame_in_drain (s : TableState) : (dmBlinkFrame s).in_drain = s.in_drain := rfl

@[simp] theorem dmBlinkFrame_drained (s : TableState) : (dmBlinkFrame s).drained = s.drained := rfl

@[simp] theorem dmBlinkFrame_block_drain (s : TableState) : (dmBlinkFrame s).block_drain = s.block_drain := rfl

@[simp] theorem dmBlinkFrame_tilted (s : TableState) : (dmBlinkFrame s).tilted = s.tilted := rfl

@[simp] theorem dmBlinkFrame_tilt_counter (s : TableState) : (dmBlinkFrame s).tilt_counter = s.tilt_counter := rfl

@[simp] theorem dmBlinkFrame_flippers_enabled (s : TableState) : (dmBlinkFrame s).flippers_enabled = s.flippers_enabled := rfl

@[simp] theorem dmBlinkFrame_flipper_pressed (s : TableState) : (dmBlinkFrame s).flipper_pressed = s.flipper_pressed := rfl

@[simp] theorem dmBlinkFrame_flipper_left (s : TableState) : (dmBlinkFrame s).flipper_left = s.flipper_left := rfl

@[simp] theorem dmBlinkFrame_flipper_right (s : TableState) : (dmBlinkFrame s).flipper_right = s.flipper_right := rfl

@[simp] theorem dmBlinkFrame_space_state (s : TableState) : (dmBlinkFrame s).space_state = s.space_state := rfl

@[simp] theorem dmBlinkFrame_space_pressed (s : TableState) : (dmBlinkFrame s).space_pressed = s.space_pressed := rfl

@[simp] theorem dmBlinkFrame_spring_down_state (s : TableState) : (dmBlinkFrame s).spring_down_state = s.spring_down_state := rfl

@[simp] theorem dmBlinkFrame_spring_released (s : TableState) : (dmBlinkFrame s).spring_released = s.spring_released := rfl

@[simp] theorem dmBlinkFrame_spring_pos (s : TableState) : (dmBlinkFrame s).spring_pos = s.spring_pos := rfl

@[simp] theorem dmBlinkFrame_start_keys_active (s : TableState) : (dmBlinkFrame s).start_keys_active = s.start_keys_active := rfl

@[simp] theorem dmBlinkFrame_start_key (s : TableState) : (dmBlinkFrame s).start_key = s.start_key := rfl

@[simp] theorem dmBlinkFrame_fade (s : TableState) : (dmBlinkFrame s).fade = s.fade := rfl

@[simp] theorem dmBlinkFrame_total_players (s : TableState) : (dmBlinkFrame s).total_players = s.total_players := rfl

@[simp] theorem dmBlinkFrame_total_balls (s : TableState) : (dmBlinkFrame s).total_balls = s.total_balls := rfl

@[simp] theorem dmBlinkFrame_players (s : TableState) : (dmBlinkFrame s).players = s.players := rfl

@[simp] theorem dmBlinkFrame_flush_high_scores (s : TableState) : (dmBlinkFrame s).flush_high_scores = s.flush_high_scores := rfl

@[simp] theorem dmBlinkFrame_script (s : TableState) : (dmBlinkFrame s).script = s.script := rfl

@[simp] theorem dmBlinkFrame_script_cursor (s : TableState) : (dmBlinkFrame s).script_cursor = s.script_cursor := rfl

@[simp] theorem dmBlinkFrame_trace (s : TableState) : (dmBlinkFrame s).trace = s.trace := rfl

@[simp] theorem flushStep_fst_table (s : TableState) : (flushStep s).1.table = s.table := by
  unfold flushStep
  split <;> rfl

@[simp] theorem flushStep_fst_options (s : TableState) : (flushStep s).1.options = s.options := by
  unfold flushStep
  split <;> rfl

@[simp] theorem flushStep_fst_cheat (s : TableState) : (flushStep s).1.cheat = s.cheat := by
  unfold flushStep
  split <;> rfl

@[simp] theorem flushStep_fst_high_scores (s : TableState) : (flushStep s).1.high_scores = s.high_scores := by
  unfold flushStep
  split <;> rfl

@[simp] theorem flushStep_fst_kbd_state (s : TableState) : (flushStep s).1.kbd_state = s.kbd_state := by
  unfold flushStep
  split <;> rfl

@[simp] theorem flushStep_fst_quitting (s : TableState) : (flushStep s).1.quitting = s.quitting := by
  unfold flushStep
  split <;> rfl

@[simp] theorem flushStep_fst_in_attract (s : TableState) : (flushStep s).1.in_attract = s.in_attract := by
  unfold flushStep
  split <;> rfl

@[simp] theorem flushStep_fst_in_plunger (s : TableState) : (flushStep s).1.in_plunger = s.in_plunger := by
  unfold flushStep
  split <;> rfl

@[simp] theorem flushStep_fst_at_spring (s : TableState) : (flushStep s).1.at_spring = s.at_spring := by
  unfold flushStep
  split <;> rfl

@[simp] theorem flushStep_fst_in_drain (s : TableState) : (flushStep s).1.in_drain = s.in_drain := by
  unfold flushStep
  split <;> rfl

@[simp] theorem flushStep_fst_drained (s : TableState) : (flushStep s).1.drained = s.drained := by
  unfold flushStep
  split <;> rfl

@[simp] theorem flushStep_fst_block_drain (s : TableState) : (flushStep s).1.block_drain = s.block_drain := by
  unfold flushStep
  split <;> rfl

@[simp] theorem flushStep_fst_tilted (s : TableState) : (flushStep s).1.tilted = s.tilted := by
  unfold flushStep
  split <;> rfl

@[simp] theorem flushStep_fst_tilt_counter (s : TableState) : (flushStep s).1.tilt_counter = s.tilt_counter := by
  unfold flushStep
  split <;> rfl

@[simp] theorem flushStep_fst_flippers_enabled (s : TableState) : (flushStep s).1.flippers_enabled = s.flippers_enabled := by
  unfold flushStep
  split <;> rfl

@[simp] theorem flushStep_fst_flipper_pressed (s : TableState) : (flushStep s).1.flipper_pressed = s.flipper_pressed := by
  unfold flushStep
  split <;> rfl

@[simp] theorem flushStep_fst_flipper_left (s : TableState) : (flushStep s).1.flipper_left = s.flipper_left := by
  unfold flushStep
  split <;> rfl

@[simp] theorem flushStep_fst_flipper_right (s : TableState) : (flushStep s).1.flipper_right = s.flipper_right := by
  unfold flushStep
  split <;> rfl

@[simp] theorem flushStep_fst_space_state (s : TableState) : (flushStep s).1.space_state = s.space_state := by
  unfold flushStep
  split <;> rfl

@[simp] theorem flushStep_fst_space_pressed (s : TableState) : (flushStep s).1.space_pressed = s.space_pressed := by
  unfold flushStep
  split <;> rfl

@[simp] theorem flushStep_fst_spring_down_state (s : TableState) : (flushStep s).1.spring_down_state = s.spring_down_state := by
  unfold flushStep
  split <;> rfl

@[simp] theorem flushStep_fst_spring_released (s : TableState) : (flushStep s).1.spring_released = s.spring_released := by
  unfold flushStep
  split <;> rfl

@[simp] theorem flushStep_fst_spring_pos (s : TableState) : (flushStep s).1.spring_pos = s.spring_pos := by
  unfold flushStep
  split <;> rfl

@[simp] theorem flushStep_fst_start_keys_active (s : TableState) : (flushStep s).1.start_keys_active = s.start_keys_active := by
  unfold flushStep
  split <;> rfl

@[simp] theorem flushStep_fst_start_key (s : TableState) : (flushStep s).1.start_key = s.start_key := by
  unfold flushStep
  split <;> rfl

@[simp] theorem flushStep_fst_fade (s : TableState) : (flushStep s).1.fade = s.fade := by
  unfold flushStep
  split <;> rfl

@[simp] theorem flushStep_fst_total_players (s : TableState) : (flushStep s).1.total_players = s.total_players := by
  unfold flushStep
  split <;> rfl

@[simp] theorem flushStep_fst_total_balls (s : TableState) : (flushStep s).1.total_balls = s.total_balls := by
  unfold flushStep
  split <;> rfl

@[simp] theorem flushStep_fst_players (s : TableState) : (flushStep s).1.players = s.players := by
  unfold flushStep
  split <;> rfl

@[simp] theorem flushStep_fst_script (s : TableState) : (flushStep s).1.script = s.script := by
  unfold flushStep
  split <;> rfl

@[simp] theorem flushStep_fst_script_cursor (s : TableState) : (flushStep s).1.script_cursor = s.script_cursor := by
  unfold flushStep
  split <;> rfl

@[simp] theorem flushStep_fst_trace (s : TableState) : (flushStep s).1.trace = s.trace := by
  unfold flushStep
  split <;> rfl

@[simp] theorem spaceKeyStep_table (k : Key) (st : KeyState) (s : TableState) : (spaceKeyStep k st s).table = s.table := by
  unfold spaceKeyStep
  dsimp only
  split_ifs <;> rfl

@[simp] theorem spaceKeyStep_options (k : Key) (st : KeyState) (s : TableState) : (spaceKeyStep k st s).options = s.options := by
  unfold spaceKeyStep
  dsimp only
  split_ifs <;> rfl

@[simp] theorem spaceKeyStep_cheat (k : Key) (st : KeyState) (s : TableState) : (spaceKeyStep k st s).cheat = s.cheat := by
  unfold spaceKeyStep
  dsimp only
  split_ifs <;> rfl

@[simp] theorem spaceKeyStep_high_scores (k : Key) (st : KeyState) (s : TableState) : (spaceKeyStep k st s).high_scores = s.high_scores := by
  unfold spaceKeyStep
  dsimp only
  split_ifs <;> rfl

@[simp] theorem spaceKeyStep_kbd_state (k : Key) (st : KeyState) (s : TableState) : (spaceKeyStep k st s).kbd_state = s.kbd_state := by
  unfold spaceKeyStep
  dsimp only
  split_ifs <;> rfl

@[simp] theorem spaceKeyStep_quitting (k : Key) (st : KeyState) (s : TableState) : (spaceKeyStep k st s).quitting = s.quitting := by
  unfold spaceKeyStep
  dsimp only
  split_ifs <;> rfl

@[simp] theorem spaceKeyStep_in_attract (k : Key) (st : KeyState) (s : TableState) : (spaceKeyStep k st s).in_attract = s.in_attract := by
  unfold spaceKeyStep
  dsimp only
  split_ifs <;> rfl

@[simp] theorem spaceKeyStep_in_plunger (k : Key) (st : KeyState) (s : TableState) : (spaceKeyStep k st s).in_plunger = s.in_plunger := by
  unfold spaceKeyStep
  dsimp only
  split_ifs <;> rfl

@[simp] theorem spaceKeyStep_at_spring (k : Key) (st : KeyState) (s : TableState) : (spaceKeyStep k st s).at_spring = s.at_spring := by
  unfold spaceKeyStep
  dsimp only
  split_ifs <;> rfl

@[simp] theorem spaceKeyStep_in_drain (k : Key) (st : KeyState) (s : TableState) : (spaceKeyStep k st s).in_drain = s.in_drain := by
  unfold spaceKeyStep
  dsimp only
  split_ifs <;> rfl

@[simp] theorem spaceKeyStep_drained (k : Key) (st : KeyState) (s : TableState) : (spaceKeyStep k st s).drained = s.drained := by
  unfold spaceKeyStep
  dsimp only
  split_ifs <;> rfl

@[simp] theorem spaceKeyStep_block_drain (k : Key) (st : KeyState) (s : TableState) : (spaceKeyStep k st s).block_drain = s.block_drain := by
  unfold spaceKeyStep
  dsimp only
  split_ifs <;> rfl

@[simp] theorem spaceKeyStep_tilted (k : Key) (st : KeyState) (s : TableState) : (spaceKeyStep k st s).tilted = s.tilted := by
  unfold spaceKeyStep
  dsimp only
  split_ifs <;> rfl

@[simp] theorem spaceKeyStep_tilt_counter (k : Key) (st : KeyState) (s : TableState) : (spaceKeyStep k st s).tilt_counter = s.tilt_counter := by
  unfold spaceKeyStep
  dsimp only
  split_ifs <;> rfl

@[simp] theorem spaceKeyStep_flippers_enabled (k : Key) (st : KeyState) (s : TableState) : (spaceKeyStep k st s).flippers_enabled = s.flippers_enabled := by
  unfold spaceKeyStep
  dsimp only
  split_ifs <;> rfl

@[simp] theorem spaceKeyStep_flipper_pressed (k : Key) (st : KeyState) (s : TableState) : (spaceKeyStep k st s).flipper_pressed = s.flipper_pressed := by
  unfold spaceKeyStep
  dsimp only
  split_ifs <;> rfl

@[simp] theorem spaceKeyStep_flipper_left (k : Key) (st : KeyState) (s : TableState) : (spaceKeyStep k st s).flipper_left = s.flipper_left := by
  unfold spaceKeyStep
  dsimp only
  split_ifs <;> rfl

@[simp] theorem spaceKeyStep_flipper_right (k : Key) (st : KeyState) (s : TableState) : (spaceKeyStep k st s).flipper_right = s.flipper_right := by
  unfold spaceKeyStep
  dsimp only
  split_ifs <;> rfl

@[simp] theorem spaceKeyStep_spring_down_state (k : Key) (st : KeyState) (s : TableState) : (spaceKeyStep k st s).spring_down_state = s.spring_down_state := by
  unfold spaceKeyStep
  dsimp only
  split_ifs <;> rfl

@[simp] theorem spaceKeyStep_spring_released (k : Key) (st : KeyState) (s : TableState) : (spaceKeyStep k st s).spring_released = s.spring_released := by
  unfold spaceKeyStep
  dsimp only
  split_ifs <;> rfl

@[simp] theorem spaceKeyStep_spring_pos (k : Key) (st : KeyState) (s : TableState) : (spaceKeyStep k st s).spring_pos = s.spring_pos := by
  unfold spaceKeyStep
  dsimp only
  split_ifs <;> rfl

@[simp] theorem spaceKeyStep_start_keys_active (k : Key) (st : KeyState) (s : TableState) : (spaceKeyStep k st s).start_keys_active = s.start_keys_active := by
  unfold spaceKeyStep
  dsimp only
  split_ifs <;> rfl

@[simp] theorem spaceKeyStep_start_key (k : Key) (st : KeyState) (s : TableState) : (spaceKeyStep k st s).start_key = s.start_key := by
  unfold spaceKeyStep
  dsimp only
  split_ifs <;> rfl

@[simp] theorem spaceKeyStep_fade (k : Key) (st : KeyState) (s : TableState) : (spaceKeyStep k st s).fade = s.fade := by
  unfold spaceKeyStep
  dsimp only
  split_ifs <;> rfl

@[simp] theorem spaceKeyStep_total_players (k : Key) (st : KeyState) (s : TableState) : (spaceKeyStep k st s).total_players = s.total_players := by
  unfold spaceKeyStep
  dsimp only
  split_ifs <;> rfl

@[simp] theorem spaceKeyStep_total_balls (k : Key) (st : KeyState) (s : TableState) : (spaceKeyStep k st s).total_balls = s.total_balls := by
  unfold spaceKeyStep
  dsimp only
  split_ifs <;> rfl

@[simp] theorem spaceKeyStep_players (k : Key) (st : KeyState) (s : TableState) : (spaceKeyStep k st s).players = s.players := by
  unfold spaceKeyStep
  dsimp only
  split_ifs <;> rfl

@[simp] theorem spaceKeyStep_flush_high_scores (k : Key) (st : KeyState) (s : TableState) : (spaceKeyStep k st s).flush_high_scores = s.flush_high_scores := by
  unfold spaceKeyStep
  dsimp only
  split_ifs <;> rfl

@[simp] theorem spaceKeyStep_script (k : Key) (st : KeyState) (s : TableState) : (spaceKeyStep k st s).script = s.script := by
  unfold spaceKeyStep
  dsimp only
  split_ifs <;> rfl

@[simp] theorem spaceKeyStep_script_cursor (k : Key) (st : KeyState) (s : TableState) : (spaceKeyStep k st s).script_cursor = s.script_cursor := by
  unfold spaceKeyStep
  dsimp only
  split_ifs <;> rfl

@[simp] theorem spaceKeyStep_trace (k : Key) (st : KeyState) (s : TableState) : (spaceKeyStep k st s).trace = s.trace := by
  unfold spaceKeyStep
  dsimp only
  split_ifs <;> rfl

@[simp] theorem downKeyStep_table (k : Key) (st : KeyState) (s : TableState) : (downKeyStep k st s).table = s.table := by
  unfold downKeyStep
  dsimp only
  split_ifs <;> rfl

@[simp] theorem downKeyStep_options (k : Key) (st : KeyState) (s : TableState) : (downKeyStep k st s).options = s.options := by
  unfold downKeyStep
  dsimp only
  split_ifs <;> rfl

@[simp] theorem downKeyStep_cheat (k : Key) (st : KeyState) (s : TableState) : (downKeyStep k st s).cheat = s.cheat := by
  unfold downKeyStep
  dsimp only
  split_ifs <;> rfl

@[simp] theorem downKeyStep_high_scores (k : Key) (st : KeyState) (s : TableState) : (downKeyStep k st s).high_scores = s.high_scores := by
  unfold downKeyStep
  dsimp only
  split_ifs <;> rfl

@[simp] theorem downKeyStep_kbd_state (k : Key) (st : KeyState) (s : TableState) : (downKeyStep k st s).kbd_state = s.kbd_state := by
  unfold downKeyStep
  dsimp only
  split_ifs <;> rfl

@[simp] theorem downKeyStep_quitting (k : Key) (st : KeyState) (s : TableState) : (downKeyStep k st s).quitting = s.quitting := by
  unfold downKeyStep
  dsimp only
  split_ifs <;> rfl

@[simp] theorem downKeyStep_in_attract (k : Key) (st : KeyState) (s : TableState) : (downKeyStep k st s).in_attract = s.in_attract := by
  unfold downKeyStep
  dsimp only
  split_ifs <;> rfl

@[simp] theorem downKeyStep_in_plunger (k : Key) (st : KeyState) (s : TableState) : (downKeyStep k st s).in_plunger = s.in_plunger := by
  unfold downKeyStep
  dsimp only
  split_ifs <;> rfl

@[simp] theorem downKeyStep_at_spring (k : Key) (st : KeyState) (s : TableState) : (downKeyStep k st s).at_spring = s.at_spring := by
  unfold downKeyStep
  dsimp only
  split_ifs <;> rfl

@[simp] theorem downKeyStep_in_drain (k : Key) (st : KeyState) (s : TableState) : (downKeyStep k st s).in_drain = s.in_drain := by
  unfold downKeyStep
  dsimp only
  split_ifs <;> rfl

@[simp] theorem downKeyStep_drained (k : Key) (st : KeyState) (s : TableState) : (downKeyStep k st s).drained = s.drained := by
  unfold downKeyStep
  dsimp only
  split_ifs <;> rfl

@[simp] theorem downKeyStep_block_drain (k : Key) (st : KeyState) (s : TableState) : (downKeyStep k st s).block_drain = s.block_drain := by
  unfold downKeyStep
  dsimp only
  split_ifs <;> rfl

@[simp] theorem downKeyStep_tilted (k : Key) (st : KeyState) (s : TableState) : (downKeyStep k st s).tilted = s.tilted := by
  unfold downKeyStep
  dsimp only
  split_ifs <;> rfl

@[simp] theorem downKeyStep_tilt_counter (k : Key) (st : KeyState) (s : TableState) : (downKeyStep k st s).tilt_counter = s.tilt_counter := by
  unfold downKeyStep
  dsimp only
  split_ifs <;> rfl

@[simp] theorem downKeyStep_flippers_enabled (k : Key) (st : KeyState) (s : TableState) : (downKeyStep k st s).flippers_enabled = s.flippers_enabled := by
  unfold downKeyStep
  dsimp only
  split_ifs <;> rfl

@[simp] theorem downKeyStep_flipper_pressed (k : Key) (st : KeyState) (s : TableState) : (downKeyStep k st s).flipper_pressed = s.flipper_pressed := by
  unfold downKeyStep
  dsimp only
  split_ifs <;> rfl

@[simp] theorem downKeyStep_flipper_left (k : Key) (st : KeyState) (s : TableState) : (downKeyStep k st s).flipper_left = s.flipper_left := by
  unfold downKeyStep
  dsimp only
  split_ifs <;> rfl

@[simp] theorem downKeyStep_flipper_right (k : Key) (st : KeyState) (s : TableState) : (downKeyStep k st s).flipper_right = s.flipper_right := by
  unfold downKeyStep
  dsimp only
  split_ifs <;> rfl

@[simp] theorem downKeyStep_space_state (k : Key) (st : KeyState) (s : TableState) : (downKeyStep k st s).space_state = s.space_state := by
  unfold downKeyStep
  dsimp only
  split_ifs <;> rfl

@[simp] theorem downKeyStep_space_pressed (k : Key) (st : KeyState) (s : TableState) : (downKeyStep k st s).space_pressed = s.space_pressed := by
  unfold downKeyStep
  dsimp only
  split_ifs <;> rfl

@[simp] theorem downKeyStep_spring_pos (k : Key) (st : KeyState) (s : TableState) : (downKeyStep k st s).spring_pos = s.spring_pos := by
  unfold downKeyStep
  dsimp only
  split_ifs <;> rfl

@[simp] theorem downKeyStep_start_keys_active (k : Key) (st : KeyState) (s : TableState) : (downKeyStep k st s).start_keys_active = s.start_keys_active := by
  unfold downKeyStep
  dsimp only
  split_ifs <;> rfl

@[simp] theorem downKeyStep_start_key (k : Key) (st : KeyState) (s : TableState) : (downKeyStep k st s).start_key = s.start_key := by
  unfold downKeyStep
  dsimp only
  split_ifs <;> rfl

@[simp] theorem downKeyStep_fade (k : Key) (st : KeyState) (s : TableState) : (downKeyStep k st s).fade = s.fade := by
  unfold downKeyStep
  dsimp only
  split_ifs <;> rfl

@[simp] theorem downKeyStep_total_players (k : Key) (st : KeyState) (s : TableState) : (downKeyStep k st s).total_players = s.total_players := by
  unfold downKeyStep
  dsimp only
  split_ifs <;> rfl

@[simp] theorem downKeyStep_total_balls (k : Key) (st : KeyState) (s : TableState) : (downKeyStep k st s).total_balls = s.total_balls := by
  unfold downKeyStep
  dsimp only
  split_ifs <;> rfl

@[simp] theorem downKeyStep_players (k : Key) (st : KeyState) (s : TableState) : (downKeyStep k st s).players = s.players := by
  unfold downKeyStep
  dsimp only
  split_ifs <;> rfl

@[simp] theorem downKeyStep_flush_high_scores (k : Key) (st : KeyState) (s : TableState) : (downKeyStep k st s).flush_high_scores = s.flush_high_scores := by
  unfold downKeyStep
  dsimp only
  split_ifs <;> rfl

@[simp] theorem downKeyStep_script (k : Key) (st : KeyState) (s : TableState) : (downKeyStep k st s).script = s.script := by
  unfold downKeyStep
  dsimp only
  split_ifs <;> rfl

@[simp] theorem downKeyStep_script_cursor (k : Key) (st : KeyState) (s : TableState) : (downKeyStep k st s).script_cursor = s.script_cursor := by
  unfold downKeyStep
  dsimp only
  split_ifs <;> rfl

@[simp] theorem downKeyStep_trace (k : Key) (st : KeyState) (s : TableState) : (downKeyStep k st s).trace = s.trace := by
  unfold downKeyStep
  dsimp only
  split_ifs <;> rfl

@[simp] theorem startKeysStep_table (k : Key) (s : TableState) : (startKeysStep k s).table = s.table := by
  unfold startKeysStep
  dsimp only
  split_ifs <;> rfl

@[simp] theorem startKeysStep_options (k : Key) (s : TableState) : (startKeysStep k s).options = s.options := by
  unfold startKeysStep
  dsimp only
  split_ifs <;> rfl

@[simp] theorem startKeysStep_cheat (k : Key) (s : TableState) : (startKeysStep k s).cheat = s.cheat := by
  unfold startKeysStep
  dsimp only
  split_ifs <;> rfl

@[simp] theorem startKeysStep_high_scores (k : Key) (s : TableState) : (startKeysStep k s).high_scores = s.high_scores := by
  unfold startKeysStep
  dsimp only
  split_ifs <;> rfl

@[simp] theorem startKeysStep_kbd_state (k : Key) (s : TableState) : (startKeysStep k s).kbd_state = s.kbd_state := by
  unfold startKeysStep
  dsimp only
  split_ifs <;> rfl

@[simp] theorem startKeysStep_quitting (k : Key) (s : TableState) : (startKeysStep k s).quitting = s.quitting := by
  unfold startKeysStep
  dsimp only
  split_ifs <;> rfl

@[simp] theorem startKeysStep_in_attract (k : Key) (s : TableState) : (startKeysStep k s).in_attract = s.in_attract := by
  unfold startKeysStep
  dsimp only
  split_ifs <;> rfl

@[simp] theorem startKeysStep_in_plunger (k : Key) (s : TableState) : (startKeysStep k s).in_plunger = s.in_plunger := by
  unfold startKeysStep
  dsimp only
  split_ifs <;> rfl

@[simp] theorem startKeysStep_at_spring (k : Key) (s : TableState) : (startKeysStep k s).at_spring = s.at_spring := by
  unfold startKeysStep
  dsimp only
  split_ifs <;> rfl

@[simp] theorem startKeysStep_in_drain (k : Key) (s : TableState) : (startKeysStep k s).in_drain = s.in_drain := by
  unfold startKeysStep
  dsimp only
  split_ifs <;> rfl

@[simp] theorem startKeysStep_drained (k : Key) (s : TableState) : (startKeysStep k s).drained = s.drained := by
  unfold startKeysStep
  dsimp only
  split_ifs <;> rfl

@[simp] theorem startKeysStep_block_drain (k : Key) (s : TableState) : (startKeysStep k s).block_drain = s.block_drain := by
  unfold startKeysStep
  dsimp only
  split_ifs <;> rfl

@[simp] theorem startKeysStep_tilted (k : Key) (s : TableState) : (startKeysStep k s).tilted = s.tilted := by
  unfold startKeysStep
  dsimp only
  split_ifs <;> rfl

@[simp] theorem startKeysStep_tilt_counter (k : Key) (s : TableState) : (startKeysStep k s).tilt_counter = s.tilt_counter := by
  unfold startKeysStep
  dsimp only
  split_ifs <;> rfl

@[simp] theorem startKeysStep_flippers_enabled (k : Key) (s : TableState) : (startKeysStep k s).flippers_enabled = s.flippers_enabled := by
  unfold startKeysStep
  dsimp only
  split_ifs <;> rfl

@[simp] theorem startKeysStep_flipper_pressed (k : Key) (s : TableState) : (startKeysStep k s).flipper_pressed = s.flipper_pressed := by
  unfold startKeysStep
  dsimp only
  split_ifs <;> rfl

@[simp] theorem startKeysStep_flipper_left (k : Key) (s : TableState) : (startKeysStep k s).flipper_left = s.flipper_left := by
  unfold startKeysStep
  dsimp only
  split_ifs <;> rfl

@[simp] theorem startKeysStep_flipper_right (k : Key) (s : TableState) : (startKeysStep k s).flipper_right = s.flipper_right := by
  unfold startKeysStep
  dsimp only
  split_ifs <;> rfl

@[simp] theorem startKeysStep_space_state (k : Key) (s : TableState) : (startKeysStep k s).space_state = s.space_state := by
  unfold startKeysStep
  dsimp only
  split_ifs <;> rfl

@[simp] theorem startKeysStep_space_pressed (k : Key) (s : TableState) : (startKeysStep k s).space_pressed = s.space_pressed := by
  unfold startKeysStep
  dsimp only
  split_ifs <;> rfl

@[simp] theorem startKeysStep_spring_down_state (k : Key) (s : TableState) : (startKeysStep k s).spring_down_state = s.spring_down_state := by
  unfold startKeysStep
  dsimp only
  split_ifs <;> rfl

@[simp] theorem startKeysStep_spring_released (k : Key) (s : TableState) : (startKeysStep k s).spring_released = s.spring_released := by
  unfold startKeysStep
  dsimp only
  split_ifs <;> rfl

@[simp] theorem startKeysStep_spring_pos (k : Key) (s : TableState) : (startKeysStep k s).spring_pos = s.spring_pos := by
  unfold startKeysStep
  dsimp only
  split_ifs <;> rfl

@[simp] theorem startKeysStep_fade (k : Key) (s : TableState) : (startKeysStep k s).fade = s.fade := by
  unfold startKeysStep
  dsimp only
  split_ifs <;> rfl

@[simp] theorem startKeysStep_total_players (k : Key) (s : TableState) : (startKeysStep k s).total_players = s.total_players := by
  unfold startKeysStep
  dsimp only
  split_ifs <;> rfl

@[simp] theorem startKeysStep_total_balls (k : Key) (s : TableState) : (startKeysStep k s).total_balls = s.total_balls := by
  unfold startKeysStep
  dsimp only
  split_ifs <;> rfl

@[simp] theorem startKeysStep_players (k : Key) (s : TableState) : (startKeysStep k s).players = s.players := by
  unfold startKeysStep
  dsimp only
  split_ifs <;> rfl

@[simp] theorem startKeysStep_flush_high_scores (k : Key) (s : TableState) : (startKeysStep k s).flush_high_scores = s.flush_high_scores := by
  unfold startKeysStep
  dsimp only
  split_ifs <;> rfl

@[simp] theorem startKeysStep_script (k : Key) (s : TableState) : (startKeysStep k s).script = s.script := by
  unfold startKeysStep
  dsimp only
  split_ifs <;> rfl

@[simp] theorem startKeysStep_script_cursor (k : Key) (s : TableState) : (startKeysStep k s).script_cursor = s.script_cursor := by
  unfold startKeysStep
  dsimp only
  split_ifs <;> rfl

@[simp] theorem startKeysStep_trace (k : Key) (s : TableState) : (startKeysStep k s).trace = s.trace := by
  unfold startKeysStep
  dsimp only
  split_ifs <;> rfl

@[simp] theorem pause_table (s : TableState) : (pause s).table = s.table := rfl

@[simp] theorem pause_options (s : TableState) : (pause s).options = s.options := rfl

@[simp] theorem pause_cheat (s : TableState) : (pause s).cheat = s.cheat := rfl

@[simp] theorem pause_quitting (s : TableState) : (pause s).quitting = s.quitting := rfl

@[simp] theorem pause_in_attract (s : TableState) : (pause s).in_attract = s.in_attract := rfl

@[simp] theorem pause_in_plunger (s : TableState) : (pause s).in_plunger = s.in_plunger := rfl

@[simp] theorem pause_at_spring (s : TableState) : (pause s).at_spring = s.at_spring := rfl

@[simp] theorem pause_in_drain (s : TableState) : (pause s).in_drain = s.in_drain := rfl

@[simp] theorem pause_drained (s : TableState) : (pause s).drained = s.drained := rfl

@[simp] theorem pause_block_drain (s : TableState) : (pause s).block_drain = s.block_drain := rfl

@[simp] theorem pause_tilted (s : TableState) : (pause s).tilted = s.tilted := rfl

@[simp] theorem pause_tilt_counter (s : TableState) : (pause s).tilt_counter = s.tilt_counter := rfl

@[simp] theorem pause_flippers_enabled (s : TableState) : (pause s).flippers_enabled = s.flippers_enabled := rfl

@[simp] theorem pause_flipper_pressed (s : TableState) : (pause s).flipper_pressed = s.flipper_pressed := rfl

@[simp] theorem pause_flipper_left (s : TableState) : (pause s).flipper_left = s.flipper_left := rfl

@[simp] theorem pause_flipper_right (s : TableState) : (pause s).flipper_right = s.flipper_right := rfl

@[simp] theorem pause_space_state (s : TableState) : (pause s).space_state = s.space_state := rfl

@[simp] theorem pause_space_pressed (s : TableState) : (pause s).space_pressed = s.space_pressed := rfl

@[simp] theorem pause_start_keys_active (s : TableState) : (pause s).start_keys_active = s.start_keys_active := rfl

@[simp] theorem pause_start_key (s : TableState) : (pause s).start_key = s.start_key := rfl

@[simp] theorem pause_fade (s : TableState) : (pause s).fade = s.fade := rfl

@[simp] theorem pause_total_players (s : TableState) : (pause s).total_players = s.total_players := rfl

@[simp] theorem pause_total_balls (s : TableState) : (pause s).total_balls = s.total_balls := rfl

@[simp] theorem pause_players (s : TableState) : (pause s).players = s.players := rfl

@[simp] theorem pause_flush_high_scores (s : TableState) : (pause s).flush_high_scores = s.flush_high_scores := rfl

@[simp] theorem pause_high_scores (s : TableState) : (pause s).high_scores = s.high_scores := rfl

@[simp] theorem pause_script (s : TableState) : (pause s).script = s.script := rfl

@[simp] theorem unpause_table (s : TableState) : (unpause s).table = s.table := rfl

@[simp] theorem unpause_options (s : TableState) : (unpause s).options = s.options := rfl

@[simp] theorem unpause_cheat (s : TableState) : (unpause s).cheat = s.cheat := rfl

@[simp] theorem unpause_quitting (s : TableState) : (unpause s).quitting = s.quitting := rfl

@[simp] theorem unpause_in_attract (s : TableState) : (unpause s).in_attract = s.in_attract := rfl

@[simp] theorem unpause_in_plunger (s : TableState) : (unpause s).in_plunger = s.in_plunger := rfl

@[simp] theorem unpause_at_spring (s : TableState) : (unpause s).at_spring = s.at_spring := rfl

@[simp] theorem unpause_in_drain (s : TableState) : (unpause s).in_drain = s.in_drain := rfl

@[simp] theorem unpause_drained (s : TableState) : (unpause s).drained = s.drained := rfl

@[simp] theorem unpause_block_drain (s : TableState) : (unpause s).block_drain = s.block_drain := rfl

@[simp] theorem unpause_tilted (s : TableState) : (unpause s).tilted = s.tilted := rfl

@[simp] theorem unpause_tilt_counter (s : TableState) : (unpause s).tilt_counter = s.tilt_counter := rfl

@[simp] theorem unpause_flippers_enabled (s : TableState) : (unpause s).flippers_enabled = s.flippers_enabled := rfl

@[simp] theorem unpause_flipper_pressed (s : TableState) : (unpause s).flipper_pressed = s.flipper_pressed := rfl

@[simp] theorem unpause_flipper_left (s : TableState) : (unpause s).flipper_left = s.flipper_left := rfl

@[simp] theorem unpause_flipper_right (s : TableState) : (unpause s).flipper_right = s.flipper_right := rfl

@[simp] theorem unpause_space_state (s : TableState) : (unpause s).space_state = s.space_state := rfl

@[simp] theorem unpause_space_pressed (s : TableState) : (unpause s).space_pressed = s.space_pressed := rfl

@[simp] theorem unpause_start_keys_active (s : TableState) : (unpause s).start_keys_active = s.start_keys_active := rfl

@[simp] theorem unpause_start_key (s : TableState) : (unpause s).start_key = s.start_key := rfl

@[simp] theorem unpause_fade (s : TableState) : (unpause s).fade = s.fade := rfl

@[simp] theorem unpause_total_players (s : TableState) : (unpause s).total_players = s.total_players := rfl

@[simp] theorem unpause_total_balls (s : TableState) : (unpause s).total_balls = s.total_balls := rfl

@[simp] theorem unpause_players (s : TableState) : (unpause s).players = s.players := rfl

@[simp] theorem unpause_flush_high_scores (s : TableState) : (unpause s).flush_high_scores = s.flush_high_scores := rfl

@[simp] theorem unpause_high_scores (s : TableState) : (unpause s).high_scores = s.high_scores := rfl

@[simp] theorem unpause_script (s : TableState) : (unpause s).script = s.script := rfl

@[simp] theorem toggleMusic_table (s : TableState) : (toggleMusic s).table = s.table := by
  unfold toggleMusic
  split_ifs <;> simp [playJingleBindForce, emit]

@[simp] theorem toggleMusic_cheat (s : TableState) : (toggleMusic s).cheat = s.cheat := by
  unfold toggleMusic
  split_ifs <;> simp [playJingleBindForce, emit]

@[simp] theorem toggleMusic_kbd_state (s : TableState) : (toggleMusic s).kbd_state = s.kbd_state := by
  unfold toggleMusic
  split_ifs <;> simp [playJingleBindForce, emit]

@[simp] theorem toggleMusic_quitting (s : TableState) : (toggleMusic s).quitting = s.quitting := by
  unfold toggleMusic
  split_ifs <;> simp [playJingleBindForce, emit]

@[simp] theorem toggleMusic_in_attract (s : TableState) : (toggleMusic s).in_attract = s.in_attract := by
  unfold toggleMusic
  split_ifs <;> simp [playJingleBindForce, emit]

@[simp] theorem toggleMusic_in_plunger (s : TableState) : (toggleMusic s).in_plunger = s.in_plunger := by
  unfold toggleMusic
  split_ifs <;> simp [playJingleBindForce, emit]

@[simp] theorem toggleMusic_at_spring (s : TableState) : (toggleMusic s).at_spring = s.at_spring := by
  unfold toggleMusic
  split_ifs <;> simp [playJingleBindForce, emit]

@[simp] theorem toggleMusic_in_drain (s : TableState) : (toggleMusic s).in_drain = s.in_drain := by
  unfold toggleMusic
  split_ifs <;> simp [playJingleBindForce, emit]

@[simp] theorem toggleMusic_drained (s : TableState) : (toggleMusic s).drained = s.drained := by
  unfold toggleMusic
  split_ifs <;> simp [playJingleBindForce, emit]

@[simp] theorem toggleMusic_block_drain (s : TableState) : (toggleMusic s).block_drain = s.block_drain := by
  unfold toggleMusic
  split_ifs <;> simp [playJingleBindForce, emit]

@[simp] theorem toggleMusic_tilted (s : TableState) : (toggleMusic s).tilted = s.tilted := by
  unfold toggleMusic
  split_ifs <;> simp [playJingleBindForce, emit]

@[simp] theorem toggleMusic_tilt_counter (s : TableState) : (toggleMusic s).tilt_counter = s.tilt_counter := by
  unfold toggleMusic
  split_ifs <;> simp [playJingleBindForce, emit]

@[simp] theorem toggleMusic_flippers_enabled (s : TableState) : (toggleMusic s).flippers_enabled = s.flippers_enabled := by
  unfold toggleMusic
  split_ifs <;> simp [playJingleBindForce, emit]

@[simp] theorem toggleMusic_flipper_pressed (s : TableState) : (toggleMusic s).flipper_pressed = s.flipper_pressed := by
  unfold toggleMusic
  split_ifs <;> simp [playJingleBindForce, emit]

@[simp] theorem toggleMusic_flipper_left (s : TableState) : (toggleMusic s).flipper_left = s.flipper_left := by
  unfold toggleMusic
  split_ifs <;> simp [playJingleBindForce, emit]

@[simp] theorem toggleMusic_flipper_right (s : TableState) : (toggleMusic s).flipper_right = s.flipper_right := by
  unfold toggleMusic
  split_ifs <;> simp [playJingleBindForce, emit]

@[simp] theorem toggleMusic_space_state (s : TableState) : (toggleMusic s).space_state = s.space_state := by
  unfold toggleMusic
  split_ifs <;> simp [playJingleBindForce, emit]

@[simp] theorem toggleMusic_space_pressed (s : TableState) : (toggleMusic s).space_pressed = s.space_pressed := by
  unfold toggleMusic
  split_ifs <;> simp [playJingleBindForce, emit]

@[simp] theorem toggleMusic_start_keys_active (s : TableState) : (toggleMusic s).start_keys_active = s.start_keys_active := by
  unfold toggleMusic
  split_ifs <;> simp [playJingleBindForce, emit]

@[simp] theorem toggleMusic_start_key (s : TableState) : (toggleMusic s).start_key = s.start_key := by
  unfold toggleMusic
  split_ifs <;> simp [playJingleBindForce, emit]

@[simp] theorem toggleMusic_fade (s : TableState) : (toggleMusic s).fade = s.fade := by
  unfold toggleMusic
  split_ifs <;> simp [playJingleBindForce, emit]

@[simp] theorem toggleMusic_total_players (s : TableState) : (toggleMusic s).total_players = s.total_players := by
  unfold toggleMusic
  split_ifs <;> simp [playJingleBindForce, emit]

@[simp] theorem toggleMusic_total_balls (s : TableState) : (toggleMusic s).total_balls = s.total_balls := by
  unfold toggleMusic
  split_ifs <;> simp [playJingleBindForce, emit]

@[simp] theorem toggleMusic_players (s : TableState) : (toggleMusic s).players = s.players := by
  unfold toggleMusic
  split_ifs <;> simp [playJingleBindForce, emit]

@[simp] theorem toggleMusic_flush_high_scores (s : TableState) : (toggleMusic s).flush_high_scores = s.flush_high_scores := by
  unfold toggleMusic
  split_ifs <;> simp [playJingleBindForce, emit]

@[simp] theorem toggleMusic_high_scores (s : TableState) : (toggleMusic s).high_scores = s.high_scores := by
  unfold toggleMusic
  split_ifs <;> simp [playJingleBindForce, emit]

@[simp] theorem toggleMusic_script (s : TableState) : (toggleMusic s).script = s.script := by
  unfold toggleMusic
  split_ifs <;> simp [playJingleBindForce, emit]

@[simp] theorem handleCheatL_table (c : Nat) (s : TableState) : (handleCheat c s).table = s.table := rfl

@[simp] theorem handleCheatL_options (c : Nat) (s : TableState) : (handleCheat c s).options = s.options := rfl

@[simp] theorem handleCheatL_cheat (c : Nat) (s : TableState) : (handleCheat c s).cheat = s.cheat := rfl

@[simp] theorem handleCheatL_kbd_state (c : Nat) (s : TableState) : (handleCheat c s).kbd_state = s.kbd_state := rfl

@[simp] theorem handleCheatL_quitting (c : Nat) (s : TableState) : (handleCheat c s).quitting = s.quitting := rfl

@[simp] theorem handleCheatL_in_attract (c : Nat) (s : TableState) : (handleCheat c s).in_attract = s.in_attract := rfl

@[simp] theorem handleCheatL_in_plunger (c : Nat) (s : TableState) : (handleCheat c s).in_plunger = s.in_plunger := rfl

@[simp] theorem handleCheatL_at_spring (c : Nat) (s : TableState) : (handleCheat c s).at_spring = s.at_spring := rfl

@[simp] theorem handleCheatL_in_drain (c : Nat) (s : TableState) : (handleCheat c s).in_drain = s.in_drain := rfl

@[simp] theorem handleCheatL_drained (c : Nat) (s : TableState) : (handleCheat c s).drained = s.drained := rfl

@[simp] theorem handleCheatL_block_drain (c : Nat) (s : TableState) : (handleCheat c s).block_drain = s.block_drain := rfl

@[simp] theorem handleCheatL_tilted (c : Nat) (s : TableState) : (handleCheat c s).tilted = s.tilted := rfl

@[simp] theorem handleCheatL_tilt_counter (c : Nat) (s : TableState) : (handleCheat c s).tilt_counter = s.tilt_counter := rfl

@[simp] theorem handleCheatL_flippers_enabled (c : Nat) (s : TableState) : (handleCheat c s).flippers_enabled = s.flippers_enabled := rfl

@[simp] theorem handleCheatL_flipper_pressed (c : Nat) (s : TableState) : (handleCheat c s).flipper_pressed = s.flipper_pressed := rfl

@[simp] theorem handleCheatL_flipper_left (c : Nat) (s : TableState) : (handleCheat c s).flipper_left = s.flipper_left := rfl

@[simp] theorem handleCheatL_flipper_right (c : Nat) (s : TableState) : (handleCheat c s).flipper_right = s.flipper_right := rfl

@[simp] theorem handleCheatL_space_state (c : Nat) (s : TableState) : (handleCheat c s).space_state = s.space_state := rfl

@[simp] theorem handleCheatL_space_pressed (c : Nat) (s : TableState) : (handleCheat c s).space_pressed = s.space_pressed := rfl

@[simp] theorem handleCheatL_start_keys_active (c : Nat) (s : TableState) : (handleCheat c s).start_keys_active = s.start_keys_active := rfl

@[simp] theorem handleCheatL_start_key (c : Nat) (s : TableState) : (handleCheat c s).start_key = s.start_key := rfl

@[simp] theorem handleCheatL_fade (c : Nat) (s : TableState) : (handleCheat c s).fade = s.fade := rfl

@[simp] theorem handleCheatL_total_players (c : Nat) (s : TableState) : (handleCheat c s).total_players = s.total_players := rfl

@[simp] theorem handleCheatL_total_balls (c : Nat) (s : TableState) : (handleCheat c s).total_balls = s.total_balls := rfl

@[simp] theorem handleCheatL_players (c : Nat) (s : TableState) : (handleCheat c s).players = s.players := rfl

@[simp] theorem handleCheatL_flush_high_scores (c : Nat) (s : TableState) : (handleCheat c s).flush_high_scores = s.flush_high_scores := rfl

@[simp] theorem handleCheatL_high_scores (c : Nat) (s : TableState) : (handleCheat c s).high_scores = s.high_scores := rfl

@[simp] theorem handleCheatL_script (c : Nat) (s : TableState) : (handleCheat c s).script = s.script := rfl

@[simp] theorem abortGameL_table (s : TableState) : (abortGame s).table = s.table := rfl

@[simp] theorem abortGameL_options (s : TableState) : (abortGame s).options = s.options := rfl

@[simp] theorem abortGameL_cheat (s : TableState) : (abortGame s).cheat = s.cheat := rfl

@[simp] theorem abortGameL_kbd_state (s : TableState) : (abortGame s).kbd_state = s.kbd_state := rfl

@[simp] theorem abortGameL_quitting (s : TableState) : (abortGame s).quitting = s.quitting := rfl

@[simp] theorem abortGameL_in_attract (s : TableState) : (abortGame s).in_attract = s.in_attract := rfl

@[simp] theorem abortGameL_in_plunger (s : TableState) : (abortGame s).in_plunger = s.in_plunger := rfl

@[simp] theorem abortGameL_at_spring (s : TableState) : (abortGame s).at_spring = s.at_spring := rfl

@[simp] theorem abortGameL_in_drain (s : TableState) : (abortGame s).in_drain = s.in_drain := rfl

@[simp] theorem abortGameL_drained (s : TableState) : (abortGame s).drained = s.drained := rfl

@[simp] theorem abortGameL_block_drain (s : TableState) : (abortGame s).block_drain = s.block_drain := rfl

@[simp] theorem abortGameL_tilted (s : TableState) : (abortGame s).tilted = s.tilted := rfl

@[simp] theorem abortGameL_tilt_counter (s : TableState) : (abortGame s).tilt_counter = s.tilt_counter := rfl

@[simp] theorem abortGameL_flippers_enabled (s : TableState) : (abortGame s).flippers_enabled = s.flippers_enabled := rfl

@[simp] theorem abortGameL_flipper_pressed (s : TableState) : (abortGame s).flipper_pressed = s.flipper_pressed := rfl

@[simp] theorem abortGameL_flipper_left (s : TableState) : (abortGame s).flipper_left = s.flipper_left := rfl

@[simp] theorem abortGameL_flipper_right (s : TableState) : (abortGame s).flipper_right = s.flipper_right := rfl

@[simp] theorem abortGameL_space_state (s : TableState) : (abortGame s).space_state = s.space_state := rfl

@[simp] theorem abortGameL_space_pressed (s : TableState) : (abortGame s).space_pressed = s.space_pressed := rfl

@[simp] theorem abortGameL_start_keys_active (s : TableState) : (abortGame s).start_keys_active = s.start_keys_active := rfl

@[simp] theorem abortGameL_start_key (s : TableState) : (abortGame s).start_key = s.start_key := rfl

@[simp] theorem abortGameL_fade (s : TableState) : (abortGame s).fade = s.fade := rfl

@[simp] theorem abortGameL_total_players (s : TableState) : (abortGame s).total_players = s.total_players := rfl

@[simp] theorem abortGameL_total_balls (s : TableState) : (abortGame s).total_balls = s.total_balls := rfl

@[simp] theorem abortGameL_players (s : TableState) : (abortGame s).players = s.players := rfl

@[simp] theorem abortGameL_flush_high_scores (s : TableState) : (abortGame s).flush_high_scores = s.flush_high_scores := rfl

@[simp] theorem abortGameL_high_scores (s : TableState) : (abortGame s).high_scores = s.high_scores := rfl

@[simp] theorem abortGameL_script (s : TableState) : (abortGame s).script = s.script := rfl

@[simp] theorem startScriptL_table (b : ScriptBind) (s : TableState) : (startScript b s).table = s.table := rfl

@[simp] theorem startScriptL_options (b : ScriptBind) (s : TableState) : (startScript b s).options = s.options := rfl

@[simp] theorem startScriptL_cheat (b : ScriptBind) (s : TableState) : (startScript b s).cheat = s.cheat := rfl

@[simp] theorem startScriptL_kbd_state (b : ScriptBind) (s : TableState) : (startScript b s).kbd_state = s.kbd_state := rfl

@[simp] theorem startScriptL_quitting (b : ScriptBind) (s : TableState) : (startScript b s).quitting = s.quitting := rfl

@[simp] theorem startScriptL_in_attract (b : ScriptBind) (s : TableState) : (startScript b s).in_attract = s.in_attract := rfl

@[simp] theorem startScriptL_in_plunger (b : ScriptBind) (s : TableState) : (startScript b s).in_plunger = s.in_plunger := rfl

@[simp] theorem startScriptL_at_spring (b : ScriptBind) (s : TableState) : (startScript b s).at_spring = s.at_spring := rfl

@[simp] theorem startScriptL_in_drain (b : ScriptBind) (s : TableState) : (startScript b s).in_drain = s.in_drain := rfl

@[simp] theorem startScriptL_drained (b : ScriptBind) (s : TableState) : (startScript b s).drained = s.drained := rfl

@[simp] theorem startScriptL_block_drain (b : ScriptBind) (s : TableState) : (startScript b s).block_drain = s.block_drain := rfl

@[simp] theorem startScriptL_tilted (b : ScriptBind) (s : TableState) : (startScript b s).tilted = s.tilted := rfl

@[simp] theorem startScriptL_tilt_counter (b : ScriptBind) (s : TableState) : (startScript b s).tilt_counter = s.tilt_counter := rfl

@[simp] theorem startScriptL_flippers_enabled (b : ScriptBind) (s : TableState) : (startScript b s).flippers_enabled = s.flippers_enabled := rfl

@[simp] theorem startScriptL_flipper_pressed (b : ScriptBind) (s : TableState) : (startScript b s).flipper_pressed = s.flipper_pressed := rfl

@[simp] theorem startScriptL_flipper_left (b : ScriptBind) (s : TableState) : (startScript b s).flipper_left = s.flipper_left := rfl

@[simp] theorem startScriptL_flipper_right (b : ScriptBind) (s : TableState) : (startScript b s).flipper_right = s.flipper_right := rfl

@[simp] theorem startScriptL_space_state (b : ScriptBind) (s : TableState) : (startScript b s).space_state = s.space_state := rfl

@[simp] theorem startScriptL_space_pressed (b : ScriptBind) (s : TableState) : (startScript b s).space_pressed = s.space_pressed := rfl

@[simp] theorem startScriptL_start_keys_active (b : ScriptBind) (s : TableState) : (startScript b s).start_keys_active = s.start_keys_active := rfl

@[simp] theorem startScriptL_start_key (b : ScriptBind) (s : TableState) : (startScript b s).start_key = s.start_key := rfl

@[simp] theorem startScriptL_fade (b : ScriptBind) (s : TableState) : (startScript b s).fade = s.fade := rfl

@[simp] theorem startScriptL_total_players (b : ScriptBind) (s : TableState) : (startScript b s).total_players = s.total_players := rfl

@[simp] theorem startScriptL_total_balls (b : ScriptBind) (s : TableState) : (startScript b s).total_balls = s.total_balls := rfl

@[simp] theorem startScriptL_players (b : ScriptBind) (s : TableState) : (startScript b s).players = s.players := rfl

@[simp] theorem startScriptL_flush_high_scores (b : ScriptBind) (s : TableState) : (startScript b s).flush_high_scores = s.flush_high_scores := rfl

@[simp] theorem startScriptL_high_scores (b : ScriptBind) (s : TableState) : (startScript b s).high_scores = s.high_scores := rfl

@[simp] theorem initGameL_table (s : TableState) : (initGame s).table = s.table := rfl

@[simp] theorem initGameL_options (s : TableState) : (initGame s).options = s.options := rfl

@[simp] theorem initGameL_cheat (s : TableState) : (initGame s).cheat = s.cheat := rfl

@[simp] theorem initGameL_kbd_state (s : TableState) : (initGame s).kbd_state = s.kbd_state := rfl

@[simp] theorem initGameL_quitting (s : TableState) : (initGame s).quitting = s.quitting := rfl

@[simp] theorem initGameL_in_attract (s : TableState) : (initGame s).in_attract = s.in_attract := rfl

@[simp] theorem initGameL_in_plunger (s : TableState) : (initGame s).in_plunger = s.in_plunger := rfl

@[simp] theorem initGameL_at_spring (s : TableState) : (initGame s).at_spring = s.at_spring := rfl

@[simp] theorem initGameL_in_drain (s : TableState) : (initGame s).in_drain = s.in_drain := rfl

@[simp] theorem initGameL_drained (s : TableState) : (initGame s).drained = s.drained := rfl

@[simp] theorem initGameL_block_drain (s : TableState) : (initGame s).block_drain = s.block_drain := rfl

@[simp] theorem initGameL_tilted (s : TableState) : (initGame s).tilted = s.tilted := rfl

@[simp] theorem initGameL_tilt_counter (s : TableState) : (initGame s).tilt_counter = s.tilt_counter := rfl

@[simp] theorem initGameL_flippers_enabled (s : TableState) : (initGame s).flippers_enabled = s.flippers_enabled := rfl

@[simp] theorem initGameL_flipper_pressed (s : TableState) : (initGame s).flipper_pressed = s.flipper_pressed := rfl

@[simp] theorem initGameL_flipper_left (s : TableState) : (initGame s).flipper_left = s.flipper_left := rfl

@[simp] theorem initGameL_flipper_right (s : TableState) : (initGame s).flipper_right = s.flipper_right := rfl

@[simp] theorem initGameL_space_state (s : TableState) : (initGame s).space_state = s.space_state := rfl

@[simp] theorem initGameL_space_pressed (s : TableState) : (initGame s).space_pressed = s.space_pressed := rfl

@[simp] theorem initGameL_start_keys_active (s : TableState) : (initGame s).start_keys_active = s.start_keys_active := rfl

@[simp] theorem initGameL_start_key (s : TableState) : (initGame s).start_key = s.start_key := rfl

@[simp] theorem initGameL_fade (s : TableState) : (initGame s).fade = s.fade := rfl

@[simp] theorem initGameL_total_players (s : TableState) : (initGame s).total_players = s.total_players := rfl

@[simp] theorem initGameL_players (s : TableState) : (initGame s).players = s.players := rfl

@[simp] theorem initGameL_flush_high_scores (s : TableState) : (initGame s).flush_high_scores = s.flush_high_scores := rfl

@[simp] theorem initGameL_high_scores (s : TableState) : (initGame s).high_scores = s.high_scores := rfl

@[simp] theorem initGameL_script (s : TableState) : (initGame s).script = s.script := rfl

@[simp] theorem issueBallL_table (s : TableState) : (issueBall s).table = s.table := rfl

@[simp] theorem issueBallL_options (s : TableState) : (issueBall s).options = s.options := rfl

@[simp] theorem issueBallL_cheat (s : TableState) : (issueBall s).cheat = s.cheat := rfl

@[simp] theorem issueBallL_kbd_state (s : TableState) : (issueBall s).kbd_state = s.kbd_state := rfl

@[simp] theorem issueBallL_quitting (s : TableState) : (issueBall s).quitting = s.quitting := rfl

@[simp] theorem issueBallL_in_attract (s : TableState) : (issueBall s).in_attract = s.in_attract := rfl

@[simp] theorem issueBallL_at_spring (s : TableState) : (issueBall s).at_spring = s.at_spring := rfl

@[simp] theorem issueBallL_block_drain (s : TableState) : (issueBall s).block_drain = s.block_drain := rfl

@[simp] theorem issueBallL_tilted (s : TableState) : (issueBall s).tilted = s.tilted := rfl

@[simp] theorem issueBallL_tilt_counter (s : TableState) : (issueBall s).tilt_counter = s.tilt_counter := rfl

@[simp] theorem issueBallL_flippers_enabled (s : TableState) : (issueBall s).flippers_enabled = s.flippers_enabled := rfl

@[simp] theorem issueBallL_flipper_pressed (s : TableState) : (issueBall s).flipper_pressed = s.flipper_pressed := rfl

@[simp] theorem issueBallL_flipper_left (s : TableState) : (issueBall s).flipper_left = s.flipper_left := rfl

@[simp] theorem issueBallL_flipper_right (s : TableState) : (issueBall s).flipper_right = s.flipper_right := rfl

@[simp] theorem issueBallL_space_state (s : TableState) : (issueBall s).space_state = s.space_state := rfl

@[simp] theorem issueBallL_space_pressed (s : TableState) : (issueBall s).space_pressed = s.space_pressed := rfl

@[simp] theorem issueBallL_start_keys_active (s : TableState) : (issueBall s).start_keys_active = s.start_keys_active := rfl

@[simp] theorem issueBallL_start_key (s : TableState) : (issueBall s).start_key = s.start_key := rfl

@[simp] theorem issueBallL_fade (s : TableState) : (issueBall s).fade = s.fade := rfl

@[simp] theorem issueBallL_total_players (s : TableState) : (issueBall s).total_players = s.total_players := rfl

@[simp] theorem issueBallL_total_balls (s : TableState) : (issueBall s).total_balls = s.total_balls := rfl

@[simp] theorem issueBallL_players (s : TableState) : (issueBall s).players = s.players := rfl

@[simp] theorem issueBallL_flush_high_scores (s : TableState) : (issueBall s).flush_high_scores = s.flush_high_scores := rfl

@[simp] theorem issueBallL_high_scores (s : TableState) : (issueBall s).high_scores = s.high_scores := rfl

@[simp] theorem issueBallL_script (s : TableState) : (issueBall s).script = s.script := rfl

@[simp] theorem addTaskL_table (kk : TaskKind) (s : TableState) : (addTask kk s).table = s.table := rfl

@[simp] theorem addTaskL_options (kk : TaskKind) (s : TableState) : (addTask kk s).options = s.options := rfl

@[simp] theorem addTaskL_cheat (kk : TaskKind) (s : TableState) : (addTask kk s).cheat = s.cheat := rfl

@[simp] theorem addTaskL_kbd_state (kk : TaskKind) (s : TableState) : (addTask kk s).kbd_state = s.kbd_state := rfl

@[simp] theorem addTaskL_quitting (kk : TaskKind) (s : TableState) : (addTask kk s).quitting = s.quitting := rfl

@[simp] theorem addTaskL_in_attract (kk : TaskKind) (s : TableState) : (addTask kk s).in_attract = s.in_attract := rfl

@[simp] theorem addTaskL_in_plunger (kk : TaskKind) (s : TableState) : (addTask kk s).in_plunger = s.in_plunger := rfl

@[simp] theorem addTaskL_at_spring (kk : TaskKind) (s : TableState) : (addTask kk s).at_spring = s.at_spring := rfl

@[simp] theorem addTaskL_in_drain (kk : TaskKind) (s : TableState) : (addTask kk s).in_drain = s.in_drain := rfl

@[simp] theorem addTaskL_drained (kk : TaskKind) (s : TableState) : (addTask kk s).drained = s.drained := rfl

@[simp] theorem addTaskL_block_drain (kk : TaskKind) (s : TableState) : (addTask kk s).block_drain = s.block_drain := rfl

@[simp] theorem addTaskL_tilted (kk : TaskKind) (s : TableState) : (addTask kk s).tilted = s.tilted := rfl

@[simp] theorem addTaskL_tilt_counter (kk : TaskKind) (s : TableState) : (addTask kk s).tilt_counter = s.tilt_counter := rfl

@[simp] theorem addTaskL_flippers_enabled (kk : TaskKind) (s : TableState) : (addTask kk s).flippers_enabled = s.flippers_enabled := rfl

@[simp] theorem addTaskL_flipper_pressed (kk : TaskKind) (s : TableState) : (addTask kk s).flipper_pressed = s.flipper_pressed := rfl

@[simp] theorem addTaskL_flipper_left (kk : TaskKind) (s : TableState) : (addTask kk s).flipper_left = s.flipper_left := rfl

@[simp] theorem addTaskL_flipper_right (kk : TaskKind) (s : TableState) : (addTask kk s).flipper_right = s.flipper_right := rfl

@[simp] theorem addTaskL_space_state (kk : TaskKind) (s : TableState) : (addTask kk s).space_state = s.space_state := rfl

@[simp] theorem addTaskL_space_pressed (kk : TaskKind) (s : TableState) : (addTask kk s).space_pressed = s.space_pressed := rfl

@[simp] theorem addTaskL_start_keys_active (kk : TaskKind) (s : TableState) : (addTask kk s).start_keys_active = s.start_keys_active := rfl

@[simp] theorem addTaskL_start_key (kk : TaskKind) (s : TableState) : (addTask kk s).start_key = s.start_key := rfl

@[simp] theorem addTaskL_fade (kk : TaskKind) (s : TableState) : (addTask kk s).fade = s.fade := rfl

@[simp] theorem addTaskL_total_players (kk : TaskKind) (s : TableState) : (addTask kk s).total_players = s.total_players := rfl

@[simp] theorem addTaskL_total_balls (kk : TaskKind) (s : TableState) : (addTask kk s).total_balls = s.total_balls := rfl

@[simp] theorem addTaskL_players (kk : TaskKind) (s : TableState) : (addTask kk s).players = s.players := rfl

@[simp] theorem addTaskL_flush_high_scores (kk : TaskKind) (s : TableState) : (addTask kk s).flush_high_scores = s.flush_high_scores := rfl

@[simp] theorem addTaskL_high_scores (kk : TaskKind) (s : TableState) : (addTask kk s).high_scores = s.high_scores := rfl

@[simp] theorem addTaskL_script (kk : TaskKind) (s : TableState) : (addTask kk s).script = s.script := rfl

@[simp] theorem playSfxBindL_table (sb : SfxBind) (s : TableState) : (playSfxBind sb s).table = s.table := rfl

@[simp] theorem playSfxBindL_options (sb : SfxBind) (s : TableState) : (playSfxBind sb s).options = s.options := rfl

@[simp] theorem playSfxBindL_cheat (sb : SfxBind) (s : TableState) : (playSfxBind sb s).cheat = s.cheat := rfl

@[simp] theorem playSfxBindL_kbd_state (sb : SfxBind) (s : TableState) : (playSfxBind sb s).kbd_state = s.kbd_state := rfl

@[simp] theorem playSfxBindL_quitting (sb : SfxBind) (s : TableState) : (playSfxBind sb s).quitting = s.quitting := rfl

@[simp] theorem playSfxBindL_in_attract (sb : SfxBind) (s : TableState) : (playSfxBind sb s).in_attract = s.in_attract := rfl

@[simp] theorem playSfxBindL_in_plunger (sb : SfxBind) (s : TableState) : (playSfxBind sb s).in_plunger = s.in_plunger := rfl

@[simp] theorem playSfxBindL_at_spring (sb : SfxBind) (s : TableState) : (playSfxBind sb s).at_spring = s.at_spring := rfl

@[simp] theorem playSfxBindL_in_drain (sb : SfxBind) (s : TableState) : (playSfxBind sb s).in_drain = s.in_drain := rfl

@[simp] theorem playSfxBindL_drained (sb : SfxBind) (s : TableState) : (playSfxBind sb s).drained = s.drained := rfl

@[simp] theorem playSfxBindL_block_drain (sb : SfxBind) (s : TableState) : (playSfxBind sb s).block_drain = s.block_drain := rfl

@[simp] theorem playSfxBindL_tilted (sb : SfxBind) (s : TableState) : (playSfxBind sb s).tilted = s.tilted := rfl

@[simp] theorem playSfxBindL_tilt_counter (sb : SfxBind) (s : TableState) : (playSfxBind sb s).tilt_counter = s.tilt_counter := rfl

@[simp] theorem playSfxBindL_flippers_enabled (sb : SfxBind) (s : TableState) : (playSfxBind sb s).flippers_enabled = s.flippers_enabled := rfl

@[simp] theorem playSfxBindL_flipper_pressed (sb : SfxBind) (s : TableState) : (playSfxBind sb s).flipper_pressed = s.flipper_pressed := rfl

@[simp] theorem playSfxBindL_flipper_left (sb : SfxBind) (s : TableState) : (playSfxBind sb s).flipper_left = s.flipper_left := rfl

@[simp] theorem playSfxBindL_flipper_right (sb : SfxBind) (s : TableState) : (playSfxBind sb s).flipper_right = s.flipper_right := rfl

@[simp] theorem playSfxBindL_space_state (sb : SfxBind) (s : TableState) : (playSfxBind sb s).space_state = s.space_state := rfl

@[simp] theorem playSfxBindL_space_pressed (sb : SfxBind) (s : TableState) : (playSfxBind sb s).space_pressed = s.space_pressed := rfl

@[simp] theorem playSfxBindL_start_keys_active (sb : SfxBind) (s : TableState) : (playSfxBind sb s).start_keys_active = s.start_keys_active := rfl

@[simp] theorem playSfxBindL_start_key (sb : SfxBind) (s : TableState) : (playSfxBind sb s).start_key = s.start_key := rfl

@[simp] theorem playSfxBindL_fade (sb : SfxBind) (s : TableState) : (playSfxBind sb s).fade = s.fade := rfl

@[simp] theorem playSfxBindL_total_players (sb : SfxBind) (s : TableState) : (playSfxBind sb s).total_players = s.total_players := rfl

@[simp] theorem playSfxBindL_total_balls (sb : SfxBind) (s : TableState) : (playSfxBind sb s).total_balls = s.total_balls := rfl

@[simp] theorem playSfxBindL_players (sb : SfxBind) (s : TableState) : (playSfxBind sb s).players = s.players := rfl

@[simp] theorem playSfxBindL_flush_high_scores (sb : SfxBind) (s : TableState) : (playSfxBind sb s).flush_high_scores = s.flush_high_scores := rfl

@[simp] theorem playSfxBindL_high_scores (sb : SfxBind) (s : TableState) : (playSfxBind sb s).high_scores = s.high_scores := rfl

@[simp] theorem playSfxBindL_script (sb : SfxBind) (s : TableState) : (playSfxBind sb s).script = s.script := rfl

/-- C7: for every table state, get_resolution returns width 320 with the
height determined solely by the resolution option (Normal 240, High 350,
Full 609), and get_fps returns 60. -/
theorem c7_resolution_and_fps (s : TableState) :
    getResolution s =
      (320,
        match s.options.resolution with
        | .Normal => 240
        | .High => 350
        | .Full => 609) ∧
    getFps s = 60 := by
  refine ⟨?_, rfl⟩
  cases h : s.options.resolution <;> simp [getResolution, h]

/-- C10: in the intro options menu, confirming the BALLS row (cursor 0,
Enter or Space) toggles the balls option to 5 when it is 3 and to 3
otherwise, so the result is always 3 or 5. -/
theorem c10_balls_toggle (o : Options) :
    ((introOptionsStep .enter 0 o).2.balls = if o.balls = 3 then 5 else 3) ∧
    ((introOptionsStep .space 0 o).2.balls = if o.balls = 3 then 5 else 3) ∧
    ((introOptionsStep .enter 0 o).2.balls = 3 ∨
      (introOptionsStep .enter 0 o).2.balls = 5) ∧
    ((introOptionsStep .space 0 o).2.balls = 3 ∨
      (introOptionsStep .space 0 o).2.balls = 5) := by
  by_cases h : o.balls = 3 <;> simp [introOptionsStep, h]

/-- C8: while the keyboard state is Paused or PausedConfirmQuit, run_frame
returns Action none and leaves the whole state unchanged; moreover pause
and unpause leave the simulation state (ball, scores, tasks, script
cursor, tilt counter, mode flags, fade) unchanged, affecting only the
display, the keyboard state and the audio player. -/
theorem c8_paused_frame (s s2 : TableState)
    (h : s.kbd_state = .Paused ∨ s.kbd_state = .PausedConfirmQuit) :
    runFrame s = (s, .none) ∧
    (pause s2).ball = s2.ball ∧
    (pause s2).score_main = s2.score_main ∧
    (pause s2).score_bonus = s2.score_bonus ∧
    (pause s2).score_jackpot = s2.score_jackpot ∧
    (pause s2).tasks = s2.tasks ∧
    (pause s2).script = s2.script ∧
    (pause s2).script_cursor = s2.script_cursor ∧
    (pause s2).tilt_counter = s2.tilt_counter ∧
    (pause s2).tilted = s2.tilted ∧
    (pause s2).in_mode = s2.in_mode ∧
    (pause s2).in_mode_hit = s2.in_mode_hit ∧
    (pause s2).in_mode_ramp = s2.in_mode_ramp ∧
    (pause s2).fade = s2.fade ∧
    (unpause s2).ball = s2.ball ∧
    (unpause s2).score_main = s2.score_main ∧
    (unpause s2).score_bonus = s2.score_bonus ∧
    (unpause s2).score_jackpot = s2.score_jackpot ∧
    (unpause s2).tasks = s2.tasks ∧
    (unpause s2).script = s2.script ∧
    (unpause s2).script_cursor = s2.script_cursor ∧
    (unpause s2).tilt_counter = s2.tilt_counter ∧
    (unpause s2).tilted = s2.tilted ∧
    (unpause s2).in_mode = s2.in_mode ∧
    (unpause s2).in_mode_hit = s2.in_mode_hit ∧
    (unpause s2).in_mode_ramp = s2.in_mode_ramp ∧
    (unpause s2).fade = s2.fade := by
  refine ⟨?_, rfl, rfl, rfl, rfl, rfl, rfl, rfl, rfl, rfl, rfl, rfl, rfl, rfl,
    rfl, rfl, rfl, rfl, rfl, rfl, rfl, rfl, rfl, rfl, rfl, rfl, rfl⟩
  unfold runFrame
  rw [if_pos h]

/-- C8 witness: the paused example state is returned unchanged with Action
none. -/
theorem c8_paused_frame_witness : runFrame pausedEx = (pausedEx, .none) :=
  (c8_paused_frame pausedEx playEx (Or.inl rfl)).1

/-- C5: with quitting set and the game not paused, run_frame decreases the
fade counter by 2 and commands the master volume to the new value; the
navigation action back to the intro for the active table is returned
exactly when the fade reaches 0, and Action none otherwise.  The fade
counter is initialised to 0x100 at construction and stays even, whence
the 2 LE fade hypothesis. -/
theorem c5_quit_fade (t : TableId) (o : Options) (hs : List HighScore)
    (s : TableState)
    (h1 : s.kbd_state ≠ .Paused) (h2 : s.kbd_state ≠ .PausedConfirmQuit)
    (hq : s.quitting = true) (_hf : 2 ≤ s.fade) :
    (TableState.new t o hs).fade = 0x100 ∧
    (runFrame s).1.fade = s.fade - 2 ∧
    (runFrame s).1.trace = s.trace ++ [.setMasterVolume (s.fade - 2)] ∧
    ((runFrame s).2 = .navigate (.intro (some s.table)) ↔ s.fade - 2 = 0) ∧
    (s.fade - 2 ≠ 0 → (runFrame s).2 = .none) := by
  have hcond : ¬ (s.kbd_state = KbdState.Paused ∨ s.kbd_state = KbdState.PausedConfirmQuit) := by
    rintro (h | h)
    · exact h1 h
    · exact h2 h
  have hr : runFrame s = quitStep s := by
    unfold runFrame
    rw [if_neg hcond, if_pos hq]
  rw [hr, quitStep_eq]
  refine ⟨rfl, rfl, rfl, ?_, ?_⟩ <;> by_cases hz : s.fade - 2 = 0 <;> simp [hz]

/-- C5 witness: the quit example state fades from 0x100 to 0xfe and does
not navigate yet. -/
theorem c5_quit_fade_witness :
    (runFrame quitEx).1.fade = quitEx.fade - 2 ∧
    (quitEx.fade - 2 ≠ 0 → (runFrame quitEx).2 = .none) :=
  ⟨(c5_quit_fade .Table1 baseOptions [] quitEx (by decide) (by decide) (by decide)
      (by decide)).2.1,
    (c5_quit_fade .Table1 baseOptions [] quitEx (by decide) (by decide) (by decide)
      (by decide)).2.2.2.2⟩

/-- C1 (amended): in an unpaused, non-quitting, non-attract frame,
run_frame performs exactly four physics sub-steps, unless the slow-motion
cheat is set, in which case the first sub-step is skipped and exactly
three are performed. -/
theorem c1_physics_substeps (s : TableState)
    (h1 : s.kbd_state ≠ .Paused) (h2 : s.kbd_state ≠ .PausedConfirmQuit)
    (hq : s.quitting = false) (ha : s.in_attract = false) :
    countEv isPhysicsEv (runFrame s).1.trace =
      countEv isPhysicsEv s.trace + (if s.cheat.slowdown then 3 else 4) := by
  have hcond : ¬ (s.kbd_state = KbdState.Paused ∨ s.kbd_state = KbdState.PausedConfirmQuit) := by
    rintro (h | h)
    · exact h1 h
    · exact h2 h
  have hr : runFrame s = flushStep (scriptFrame (playBranch s)) := by
    unfold runFrame
    rw [if_neg hcond, if_neg (by simp [hq]), ha]
    simp
  rw [hr, countEv_flushStep, countEv_scriptFrame]
  unfold playBranch
  simp only [scrollUpdate, scoreBumper, ballGravity, checkTransitions, doRollTriggers,
    doHitTriggers, lightsBlinkFrame, physicsFrame, emit_start_key, emit_cheat]
  cases hsk : s.start_key with
  | none =>
    simp only [hsk]
    by_cases hc : s.cheat.slowdown = true <;>
      simp [hc, countEv_springStep, countEv_tasksFrame, countEv_dmBlinkFrame,
        countEv_spacePressedStep, countEv_flipperPressedStep, countEv_drainStep,
        countEv_tiltDecayStep, countEv_emit, runVariantFrame_eq, isPhysicsEv]
  | some n =>
    simp only [hsk, gameStartMid, startScript, playSfxBind, addTask]
    by_cases hc : s.cheat.slowdown = true <;>
      simp [hc, countEv_springStep, countEv_tasksFrame, countEv_dmBlinkFrame,
        countEv_spacePressedStep, countEv_flipperPressedStep, countEv_drainStep,
        countEv_tiltDecayStep, countEv_emit, runVariantFrame_eq, isPhysicsEv]

/-- C1 witness: the plain in-play example state performs four sub-steps. -/
theorem c1_physics_substeps_witness :
    countEv isPhysicsEv (runFrame playEx).1.trace =
      countEv isPhysicsEv playEx.trace + (if playEx.cheat.slowdown then 3 else 4) :=
  c1_physics_substeps playEx (by decide) (by decide) (by decide) (by decide)

theorem initGame_total_balls (s : TableState) :
    (initGame s).total_balls = s.options.balls := rfl

theorem drainStep_fire (s : TableState) (hd : s.drained = true)
    (hid : s.in_drain = false) (hb : s.block_drain = false) :
    drainStep s = emit (.drainHandler s.table)
      { s with ball := ⟨(280, 525), Layer.Ground, true⟩
               flippers_enabled := false
               in_mode := false
               in_mode_hit := false
               in_mode_ramp := false
               in_drain := true } := by
  unfold drainStep
  simp only [teleportFreeze]
  split_ifs with hA hB <;> first
  | (rw [runDrained_eq]; try rfl)
  | simp_all

theorem countEv_drainStep_fire (p : Ev → Bool) (s : TableState)
    (hd : s.drained = true) (hid : s.in_drain = false) (hb : s.block_drain = false) :
    countEv p (drainStep s).trace
      = countEv p s.trace + (if p (Ev.drainHandler s.table) then 1 else 0) := by
  rw [drainStep_fire s hd hid hb, countEv_emit]

theorem drainStep_flippers_off (s : TableState)
    (hd : s.drained = true) (hid : s.in_drain = false) :
    (drainStep s).flippers_enabled = false := by
  unfold drainStep
  simp only [teleportFreeze]
  split_ifs <;> simp_all [runDrained_eq]

theorem drainStep_fire_in_drain (s : TableState)
    (hd : s.drained = true) (hid : s.in_drain = false) (hb : s.block_drain = false) :
    (drainStep s).in_drain = true := by
  rw [drainStep_fire s hd hid hb]
  rfl

theorem drainStep_skip (s : TableState) (hd : s.drained = false) :
    drainStep s = s := by
  unfold drainStep
  rw [if_neg (by simp [hd])]

theorem drainStep_skip2 (s : TableState) (hid : s.in_drain = true) :
    drainStep s = s := by
  unfold drainStep
  rw [if_neg (by simp [hid])]

theorem spacePressedStep_flippers_of_drained (s : TableState)
    (hd : s.drained = true) :
    (spacePressedStep s).flippers_enabled = s.flippers_enabled := by
  simp only [spacePressedStep, playJingleBindSilence, startScript, lightsTilt,
    playJingleBind, emit]
  split_ifs <;> simp_all

theorem spacePressedStep_in_drain_keep (s : TableState) :
    (spacePressedStep s).in_drain = s.in_drain := spacePressedStep_in_drain s

/-- C3: in an in-play frame entered with the drained condition set and
in_drain still clear and block_drain clear, exactly one drain-handler
dispatch occurs, it names the active table, flippers are disabled and
in_drain is raised within the same frame; in a frame entered with
in_drain already set, no drain-handler dispatch occurs at all. -/
theorem c3_drain_once (s : TableState)
    (h1 : s.kbd_state ≠ .Paused) (h2 : s.kbd_state ≠ .PausedConfirmQuit)
    (hq : s.quitting = false) (ha : s.in_attract = false) (hsk : s.start_key = none) :
    (s.drained = true → s.in_drain = false → s.block_drain = false →
      countEv isDrainEv (runFrame s).1.trace = countEv isDrainEv s.trace + 1 ∧
      countEv (drainEvFor s.table) (runFrame s).1.trace
        = countEv (drainEvFor s.table) s.trace + 1 ∧
      (runFrame s).1.flippers_enabled = false ∧
      (runFrame s).1.in_drain = true) ∧
    (s.in_drain = true →
      countEv isDrainEv (runFrame s).1.trace = countEv isDrainEv s.trace) := by
  have hcond : ¬ (s.kbd_state = KbdState.Paused ∨ s.kbd_state = KbdState.PausedConfirmQuit) := by
    rintro (h | h)
    · exact h1 h
    · exact h2 h
  have hr : runFrame s = flushStep (scriptFrame (playBranch s)) := by
    unfold runFrame
    rw [if_neg hcond, if_neg (by simp [hq]), ha]
    simp
  rw [hr]
  constructor
  · intro hd hid hb
    refine ⟨?_, ?_, ?_, ?_⟩
    · rw [countEv_flushStep, countEv_scriptFrame]
      unfold playBranch
      simp only [scrollUpdate, scoreBumper, ballGravity, checkTransitions, doRollTriggers,
        doHitTriggers, lightsBlinkFrame, physicsFrame, emit_start_key, hsk]
      rw [countEv_springStep _ _ rfl]
      simp only [countEv_emit, countEv_tasksFrame, countEv_dmBlinkFrame]
      rw [countEv_spacePressedStep _ _ rfl rfl rfl rfl]
      rw [countEv_flipperPressedStep _ _ (fun t => rfl)]
      simp only [runVariantFrame_eq, countEv_emit]
      rw [countEv_drainStep_fire]
      · simp only [countEv_emit, countEv_tiltDecayStep]
        cases hc : s.cheat.slowdown <;> simp [hc, countEv_emit, isDrainEv]
      · cases hc : s.cheat.slowdown <;> simp [hc, hd]
      · cases hc : s.cheat.slowdown <;> simp [hc, hid]
      · cases hc : s.cheat.slowdown <;> simp [hc, hb]
    · rw [countEv_flushStep, countEv_scriptFrame]
      unfold playBranch
      simp only [scrollUpdate, scoreBumper, ballGravity, checkTransitions, doRollTriggers,
        doHitTriggers, lightsBlinkFrame, physicsFrame, emit_start_key, hsk]
      rw [countEv_springStep _ _ rfl]
      simp only [countEv_emit, countEv_tasksFrame, countEv_dmBlinkFrame]
      rw [countEv_spacePressedStep _ _ rfl rfl rfl rfl]
      rw [countEv_flipperPressedStep _ _ (fun t => rfl)]
      simp only [runVariantFrame_eq, countEv_emit]
      rw [countEv_drainStep_fire]
      · simp only [countEv_emit, countEv_tiltDecayStep]
        cases hc : s.cheat.slowdown <;>
          simp [hc, countEv_emit, drainEvFor]
      · cases hc : s.cheat.slowdown <;> simp [hc, hd]
      · cases hc : s.cheat.slowdown <;> simp [hc, hid]
      · cases hc : s.cheat.slowdown <;> simp [hc, hb]
    · simp only [flushStep_fst_flippers_enabled, scriptFrame_flippers_enabled]
      unfold playBranch
      simp only [scrollUpdate, scoreBumper, ballGravity, checkTransitions, doRollTriggers,
        doHitTriggers, lightsBlinkFrame, physicsFrame, emit_start_key, hsk]
      simp only [springStep_flippers_enabled, emit_flippers_enabled,
        tasksFrame_flippers_enabled, dmBlinkFrame_flippers_enabled]
      rw [spacePressedStep_flippers_of_drained]
      · simp only [flipperPressedStep_flippers_enabled, emit_flippers_enabled,
          runVariantFrame_eq]
        rw [drainStep_flippers_off]
        · cases hc : s.cheat.slowdown <;> simp [hc, hd]
        · cases hc : s.cheat.slowdown <;> simp [hc, hid]
      · cases hc : s.cheat.slowdown <;> simp [hc, hd, runVariantFrame_eq]
    · simp only [flushStep_fst_in_drain, scriptFrame_in_drain]
      unfold playBranch
      simp only [scrollUpdate, scoreBumper, ballGravity, checkTransitions, doRollTriggers,
        doHitTriggers, lightsBlinkFrame, physicsFrame, emit_start_key, hsk]
      simp only [springStep_in_drain, emit_in_drain, tasksFrame_in_drain,
        dmBlinkFrame_in_drain, spacePressedStep_in_drain, flipperPressedStep_in_drain,
        runVariantFrame_eq]
      rw [drainStep_fire_in_drain]
      · cases hc : s.cheat.slowdown <;> simp [hc, hd]
      · cases hc : s.cheat.slowdown <;> simp [hc, hid]
      · cases hc : s.cheat.slowdown <;> simp [hc, hb]
  · intro hid
    rw [countEv_flushStep, countEv_scriptFrame]
    unfold playBranch
    simp only [scrollUpdate, scoreBumper, ballGravity, checkTransitions, doRollTriggers,
      doHitTriggers, lightsBlinkFrame, physicsFrame, emit_start_key, hsk]
    rw [countEv_springStep _ _ rfl]
    simp only [countEv_emit, countEv_tasksFrame, countEv_dmBlinkFrame]
    rw [countEv_spacePressedStep _ _ rfl rfl rfl rfl]
    rw [countEv_flipperPressedStep _ _ (fun t => rfl)]
    simp only [runVariantFrame_eq, countEv_emit]
    rw [drainStep_skip2]
    · simp only [countEv_emit, countEv_tiltDecayStep]
      cases hc : s.cheat.slowdown <;> simp [hc, countEv_emit, isDrainEv]
    · cases hc2 : s.cheat.slowdown <;> simp [hc2, hid]

/-- C3 witness: the concrete just-drained state dispatches its drain
handler and disables the flippers in that frame. -/
theorem c3_drain_once_witness :
    (runFrame drainEx).1.flippers_enabled = false ∧
    (runFrame drainEx).1.in_drain = true := by
  have h := (c3_drain_once drainEx (by decide) (by decide) (by decide) (by decide)
    (by decide)).1 (by decide) (by decide) (by decide)
  exact ⟨h.2.2.1, h.2.2.2⟩

/-- C6: starting a one-player game from attract (start_key = some 1,
in_attract = true) makes that frame leave attract, create exactly one
PlayerState, issue exactly one ball, and leave total_balls equal to the
configured balls option; at construction total_balls is set from the
configured option. -/
theorem c6_game_start (t : TableId) (o : Options) (hs2 : List HighScore)
    (s : TableState)
    (h1 : s.kbd_state ≠ .Paused) (h2 : s.kbd_state ≠ .PausedConfirmQuit)
    (hq : s.quitting = false) (ha : s.in_attract = true) (hsk : s.start_key = some 1) :
    (runFrame s).1.in_attract = false ∧
    (runFrame s).1.players.length = 1 ∧
    (runFrame s).1.total_players = 1 ∧
    (runFrame s).1.total_balls = s.options.balls ∧
    countEv isIssueBallEv (runFrame s).1.trace = countEv isIssueBallEv s.trace + 1 ∧
    (TableState.new t o hs2).total_balls = o.balls ∧
    (TableState.new t o hs2).options.balls = o.balls := by
  have hcond : ¬ (s.kbd_state = KbdState.Paused ∨ s.kbd_state = KbdState.PausedConfirmQuit) := by
    rintro (h | h)
    · exact h1 h
    · exact h2 h
  have hr : runFrame s = flushStep (scriptFrame (attractBranch s)) := by
    unfold runFrame
    rw [if_neg hcond, if_neg (by simp [hq]), ha]
    simp
  rw [hr]
  have hb : attractBranch s =
      gameStartAttract 1 (dmBlinkFrame (lightsAttractFrame (scrollAttractFrame s))) := by
    unfold attractBranch
    simp [scrollAttractFrame, lightsAttractFrame, hsk]
  rw [hb]
  refine ⟨?_, ?_, ?_, ?_, ?_, rfl, rfl⟩ <;>
    simp [gameStartAttract, startScript, playSfxBind, initGame, issueBall, addTask,
      scrollAttractFrame, lightsAttractFrame, countEv_emit, isIssueBallEv,
      countEv_dmBlinkFrame, initGame_total_balls]

/-- C6 witness: the concrete attract state with a pending one-player start
leaves attract in that frame. -/
theorem c6_game_start_witness : (runFrame startEx).1.in_attract = false :=
  (c6_game_start .Table1 baseOptions [] startEx (by decide) (by decide) (by decide)
    (by decide) (by decide)).1

/-- C1 counterexample: with the slow-motion cheat set, a frame performs
three physics sub-steps, not the two the claim asserts. -/
theorem c1_counterexample :
    countEv isPhysicsEv (runFrame slowdownEx).1.trace =
      countEv isPhysicsEv slowdownEx.trace + 3 ∧
    ¬ (countEv isPhysicsEv (runFrame slowdownEx).1.trace =
      countEv isPhysicsEv slowdownEx.trace + 2) := by
  constructor
  · decide
  · decide

theorem runFrame_play (s : TableState) (hk : s.kbd_state = .Main)
    (hq : s.quitting = false) (ha : s.in_attract = false) :
    runFrame s = flushStep (scriptFrame (playBranch s)) := by
  unfold runFrame
  rw [if_neg (by simp [hk]), if_neg (by simp [hq]), ha]
  simp

theorem tiltDecayStep_counter (s : TableState) :
    (tiltDecayStep s).tilt_counter = s.tilt_counter - 1 := by
  unfold tiltDecayStep
  split_ifs with h
  · rfl
  · simp at h
    rw [h]

theorem spacePressedStep_tilted_low (s : TableState) (hsp : s.space_pressed = true)
    (h1 : s.cheat.no_tilt = false) (h2 : s.in_plunger = false) (h3 : s.drained = false)
    (h4 : s.tilted = false) (h5 : ¬ s.tilt_counter + 60 > 120) :
    (spacePressedStep s).tilted = false := by
  simp only [spacePressedStep, playJingleBindSilence, startScript, lightsTilt,
    playJingleBind, emit]
  split_ifs <;> simp_all

theorem spacePressedStep_flippers_low (s : TableState) (hsp : s.space_pressed = true)
    (h1 : s.cheat.no_tilt = false) (h2 : s.in_plunger = false) (h3 : s.drained = false)
    (h4 : s.tilted = false) (h5 : ¬ s.tilt_counter + 60 > 120) :
    (spacePressedStep s).flippers_enabled = s.flippers_enabled := by
  simp only [spacePressedStep, playJingleBindSilence, startScript, lightsTilt,
    playJingleBind, emit]
  split_ifs <;> simp_all

theorem spacePressedStep_counter_low (s : TableState) (hsp : s.space_pressed = true)
    (h1 : s.cheat.no_tilt = false) (h2 : s.in_plunger = false) (h3 : s.drained = false)
    (h4 : s.tilted = false) (h5 : ¬ s.tilt_counter + 60 > 120) :
    (spacePressedStep s).tilt_counter = s.tilt_counter + 60 := by
  simp only [spacePressedStep, playJingleBindSilence, startScript, lightsTilt,
    playJingleBind, emit]
  split_ifs <;> simp_all

theorem spacePressedStep_tilted_high (s : TableState) (hsp : s.space_pressed = true)
    (h1 : s.cheat.no_tilt = false) (h2 : s.in_plunger = false) (h3 : s.drained = false)
    (h4 : s.tilted = false) (h5 : s.tilt_counter + 60 > 120) :
    (spacePressedStep s).tilted = true := by
  simp only [spacePressedStep, playJingleBindSilence, startScript, lightsTilt,
    playJingleBind, emit]
  split_ifs <;> simp_all

theorem spacePressedStep_flippers_high (s : TableState) (hsp : s.space_pressed = true)
    (h1 : s.cheat.no_tilt = false) (h2 : s.in_plunger = false) (h3 : s.drained = false)
    (h4 : s.tilted = false) (h5 : s.tilt_counter + 60 > 120) :
    (spacePressedStep s).flippers_enabled = false := by
  simp only [spacePressedStep, playJingleBindSilence, startScript, lightsTilt,
    playJingleBind, emit]
  split_ifs <;> simp_all

theorem spacePressedStep_tilted_stays (s : TableState) (h4 : s.tilted = true) :
    (spacePressedStep s).tilted = true := by
  simp only [spacePressedStep, playJingleBindSilence, startScript, lightsTilt,
    playJingleBind, emit]
  split_ifs <;> simp_all

theorem spacePressedStep_flippers_stays (s : TableState) (h4 : s.tilted = true) :
    (spacePressedStep s).flippers_enabled = s.flippers_enabled := by
  simp only [spacePressedStep, playJingleBindSilence, startScript, lightsTilt,
    playJingleBind, emit]
  split_ifs <;> simp_all

theorem playBranch_fields (s : TableState) (hsk : s.start_key = none) :
    (playBranch s).kbd_state = s.kbd_state ∧
    (playBranch s).quitting = s.quitting ∧
    (playBranch s).in_attract = s.in_attract ∧
    (playBranch s).cheat = s.cheat ∧
    (playBranch s).in_plunger = s.in_plunger ∧
    (playBranch s).at_spring = s.at_spring ∧
    (playBranch s).drained = s.drained ∧
    (playBranch s).start_key = none ∧
    (playBranch s).space_state = s.space_state := by
  unfold playBranch
  simp only [scrollUpdate, scoreBumper, ballGravity, checkTransitions, doRollTriggers,
    doHitTriggers, lightsBlinkFrame, physicsFrame, emit_start_key, hsk]
  cases hc : s.cheat.slowdown <;> simp [hc, runVariantFrame_eq, hsk]

theorem playBranch_in_drain (s : TableState) (hsk : s.start_key = none)
    (hd : s.drained = false) :
    (playBranch s).in_drain = s.in_drain := by
  unfold playBranch
  simp only [scrollUpdate, scoreBumper, ballGravity, checkTransitions, doRollTriggers,
    doHitTriggers, lightsBlinkFrame, physicsFrame, emit_start_key, hsk]
  simp only [springStep_in_drain, emit_in_drain, tasksFrame_in_drain,
    dmBlinkFrame_in_drain, spacePressedStep_in_drain, flipperPressedStep_in_drain,
    runVariantFrame_eq]
  rw [drainStep_skip]
  · cases hc : s.cheat.slowdown <;> simp [hc]
  · cases hc : s.cheat.slowdown <;> simp [hc, hd]

theorem playBranch_tilt_low (s : TableState) (hsk : s.start_key = none)
    (hsp : s.space_pressed = true) (hnt : s.cheat.no_tilt = false)
    (hip : s.in_plunger = false) (hd : s.drained = false) (ht : s.tilted = false)
    (hlow : ¬ s.tilt_counter - 1 + 60 > 120) :
    (playBranch s).tilted = false ∧
    (playBranch s).flippers_enabled = s.flippers_enabled ∧
    (playBranch s).tilt_counter = s.tilt_counter - 1 + 60 := by
  unfold playBranch
  simp only [scrollUpdate, scoreBumper, ballGravity, checkTransitions, doRollTriggers,
    doHitTriggers, lightsBlinkFrame, physicsFrame, emit_start_key, hsk]
  refine ⟨?_, ?_, ?_⟩
  · simp only [springStep_tilted, emit_tilted, tasksFrame_tilted, dmBlinkFrame_tilted]
    rw [spacePressedStep_tilted_low]
    all_goals cases hc : s.cheat.slowdown <;>
      simp [hc, runVariantFrame_eq, tiltDecayStep_counter, hsp, hnt, hip, hd, ht, hlow]
  · simp only [springStep_flippers_enabled, emit_flippers_enabled,
      tasksFrame_flippers_enabled, dmBlinkFrame_flippers_enabled]
    rw [spacePressedStep_flippers_low]
    · simp only [flipperPressedStep_flippers_enabled, emit_flippers_enabled,
        runVariantFrame_eq]
      rw [drainStep_skip]
      · cases hc : s.cheat.slowdown <;> simp [hc]
      · cases hc : s.cheat.slowdown <;> simp [hc, hd]
    all_goals cases hc : s.cheat.slowdown <;>
      simp [hc, runVariantFrame_eq, tiltDecayStep_counter, hsp, hnt, hip, hd, ht, hlow]
  · simp only [springStep_tilt_counter, emit_tilt_counter, tasksFrame_tilt_counter,
      dmBlinkFrame_tilt_counter]
    rw [spacePressedStep_counter_low]
    · simp only [flipperPressedStep_tilt_counter, emit_tilt_counter, runVariantFrame_eq,
        drainStep_tilt_counter]
      rw [tiltDecayStep_counter]
      cases hc : s.cheat.slowdown <;> simp [hc]
    all_goals cases hc : s.cheat.slowdown <;>
      simp [hc, runVariantFrame_eq, tiltDecayStep_counter, hsp, hnt, hip, hd, ht, hlow]

theorem playBranch_tilt_high (s : TableState) (hsk : s.start_key = none)
    (hsp : s.space_pressed = true) (hnt : s.cheat.no_tilt = false)
    (hip : s.in_plunger = false) (hd : s.drained = false) (ht : s.tilted = false)
    (hhigh : s.tilt_counter - 1 + 60 > 120) :
    (playBranch s).tilted = true ∧
    (playBranch s).flippers_enabled = false := by
  unfold playBranch
  simp only [scrollUpdate, scoreBumper, ballGravity, checkTransitions, doRollTriggers,
    doHitTriggers, lightsBlinkFrame, physicsFrame, emit_start_key, hsk]
  refine ⟨?_, ?_⟩
  · simp only [springStep_tilted, emit_tilted, tasksFrame_tilted, dmBlinkFrame_tilted]
    rw [spacePressedStep_tilted_high]
    all_goals cases hc : s.cheat.slowdown <;>
      simp [hc, runVariantFrame_eq, tiltDecayStep_counter, hsp, hnt, hip, hd, ht, hhigh]
  · simp only [springStep_flippers_enabled, emit_flippers_enabled,
      tasksFrame_flippers_enabled, dmBlinkFrame_flippers_enabled]
    rw [spacePressedStep_flippers_high]
    all_goals cases hc : s.cheat.slowdown <;>
      simp [hc, runVariantFrame_eq, tiltDecayStep_counter, hsp, hnt, hip, hd, ht, hhigh]

theorem playBranch_tilt_stays (s : TableState) (hsk : s.start_key = none)
    (hd : s.drained = false) (ht : s.tilted = true) :
    (playBranch s).tilted = true ∧
    (playBranch s).flippers_enabled = s.flippers_enabled := by
  unfold playBranch
  simp only [scrollUpdate, scoreBumper, ballGravity, checkTransitions, doRollTriggers,
    doHitTriggers, lightsBlinkFrame, physicsFrame, emit_start_key, hsk]
  refine ⟨?_, ?_⟩
  · simp only [springStep_tilted, emit_tilted, tasksFrame_tilted, dmBlinkFrame_tilted]
    rw [spacePressedStep_tilted_stays]
    all_goals cases hc : s.cheat.slowdown <;>
      simp [hc, runVariantFrame_eq, ht]
  · simp only [springStep_flippers_enabled, emit_flippers_enabled,
      tasksFrame_flippers_enabled, dmBlinkFrame_flippers_enabled]
    rw [spacePressedStep_flippers_stays]
    · simp only [flipperPressedStep_flippers_enabled, emit_flippers_enabled,
        runVariantFrame_eq]
      rw [drainStep_skip]
      · cases hc : s.cheat.slowdown <;> simp [hc]
      · cases hc : s.cheat.slowdown <;> simp [hc, hd]
    · cases hc : s.cheat.slowdown <;>
        simp [hc, runVariantFrame_eq, ht]

theorem handleKey_space_pressed_eq (s : TableState) (hss : s.space_state = false)
    (hk : s.kbd_state = .Main) (hia : s.in_attract = false) (has : s.at_spring = false) :
    handleKey .Space .Pressed s = { s with space_pressed := true, space_state := true } := by
  by_cases hd : s.in_drain = true <;>
    simp [handleKey, isLeftFlipperKey, isRightFlipperKey, spaceKeyStep, downKeyStep,
      kbdDispatch, mainKbdStep, scrollSpeedSel, startKeysStep, startKeySel, keyChr,
      KeyState.isPressed, hss, hk, hia, has, hd]

theorem handleKey_space_released_eq (s : TableState) :
    handleKey .Space .Released s = { s with space_state := false } := by
  simp [handleKey, isLeftFlipperKey, isRightFlipperKey, spaceKeyStep, downKeyStep,
    KeyState.isPressed]

theorem pressFrame_low (s : TableState) (h : InPlay s) (ht : s.tilted = false)
    (hlow : ¬ s.tilt_counter - 1 + 60 > 120) :
    InPlay (pressFrame s) ∧ (pressFrame s).tilted = false ∧
    (pressFrame s).flippers_enabled = s.flippers_enabled ∧
    (pressFrame s).tilt_counter = s.tilt_counter - 1 + 60 := by
  obtain ⟨hk, hq, hia, hnt, hip, hd, hidr, has, hsk, hss⟩ := h
  unfold pressFrame
  rw [handleKey_space_pressed_eq s hss hk hia has]
  rw [runFrame_play _ (by simp [hk]) (by simp [hq]) (by simp [hia])]
  rw [handleKey_space_released_eq]
  have hb := playBranch_fields { s with space_pressed := true, space_state := true }
    (by simp [hsk])
  have hbd := playBranch_in_drain { s with space_pressed := true, space_state := true }
    (by simp [hsk]) (by simp [hd])
  have hbt := playBranch_tilt_low { s with space_pressed := true, space_state := true }
    (by simp [hsk]) (by simp) (by simp [hnt]) (by simp [hip]) (by simp [hd])
    (by simp [ht]) (by simp [hlow])
  obtain ⟨hb1, hb2, hb3, hb4, hb5, hb6, hb7, hb8, _⟩ := hb
  obtain ⟨hbt1, hbt2, hbt3⟩ := hbt
  refine ⟨⟨?_, ?_, ?_, ?_, ?_, ?_, ?_, ?_, ?_, ?_⟩, ?_, ?_, ?_⟩ <;>
    simp [hb1, hb2, hb3, hb4, hb5, hb6, hb7, hb8, hbd, hbt1, hbt2, hbt3] <;>
    (try simp [hk, hq, hia, hnt, hip, hd, hidr, has])

theorem pressFrame_high (s : TableState) (h : InPlay s) (ht : s.tilted = false)
    (hhigh : s.tilt_counter - 1 + 60 > 120) :
    InPlay (pressFrame s) ∧ (pressFrame s).tilted = true ∧
    (pressFrame s).flippers_enabled = false := by
  obtain ⟨hk, hq, hia, hnt, hip, hd, hidr, has, hsk, hss⟩ := h
  unfold pressFrame
  rw [handleKey_space_pressed_eq s hss hk hia has]
  rw [runFrame_play _ (by simp [hk]) (by simp [hq]) (by simp [hia])]
  rw [handleKey_space_released_eq]
  have hb := playBranch_fields { s with space_pressed := true, space_state := true }
    (by simp [hsk])
  have hbd := playBranch_in_drain { s with space_pressed := true, space_state := true }
    (by simp [hsk]) (by simp [hd])
  have hbt := playBranch_tilt_high { s with space_pressed := true, space_state := true }
    (by simp [hsk]) (by simp) (by simp [hnt]) (by simp [hip]) (by simp [hd])
    (by simp [ht]) (by simp [hhigh])
  obtain ⟨hb1, hb2, hb3, hb4, hb5, hb6, hb7, hb8, _⟩ := hb
  obtain ⟨hbt1, hbt2⟩ := hbt
  refine ⟨⟨?_, ?_, ?_, ?_, ?_, ?_, ?_, ?_, ?_, ?_⟩, ?_, ?_⟩ <;>
    simp [hb1, hb2, hb3, hb4, hb5, hb6, hb7, hb8, hbd, hbt1, hbt2] <;>
    (try simp [hk, hq, hia, hnt, hip, hd, hidr, has])

theorem pressFrame_stays (s : TableState) (h : InPlay s) (ht : s.tilted = true) :
    InPlay (pressFrame s) ∧ (pressFrame s).tilted = true ∧
    (pressFrame s).flippers_enabled = s.flippers_enabled := by
  obtain ⟨hk, hq, hia, hnt, hip, hd, hidr, has, hsk, hss⟩ := h
  unfold pressFrame
  rw [handleKey_space_pressed_eq s hss hk hia has]
  rw [runFrame_play _ (by simp [hk]) (by simp [hq]) (by simp [hia])]
  rw [handleKey_space_released_eq]
  have hb := playBranch_fields { s with space_pressed := true, space_state := true }
    (by simp [hsk])
  have hbd := playBranch_in_drain { s with space_pressed := true, space_state := true }
    (by simp [hsk]) (by simp [hd])
  have hbt := playBranch_tilt_stays { s with space_pressed := true, space_state := true }
    (by simp [hsk]) (by simp [hd]) (by simp [ht])
  obtain ⟨hb1, hb2, hb3, hb4, hb5, hb6, hb7, hb8, _⟩ := hb
  obtain ⟨hbt1, hbt2⟩ := hbt
  refine ⟨⟨?_, ?_, ?_, ?_, ?_, ?_, ?_, ?_, ?_, ?_⟩, ?_, ?_⟩ <;>
    simp [hb1, hb2, hb3, hb4, hb5, hb6, hb7, hb8, hbd, hbt1, hbt2] <;>
    (try simp [hk, hq, hia, hnt, hip, hd, hidr, has])

/-- C2: from any in-play state with the no-tilt cheat off, the ball on the
playfield, not drained and not yet tilted, and a fresh tilt window
(tilt_counter 0), six consecutive press-space-then-frame rounds leave the
table tilted with the flippers disabled (the threshold is in fact crossed
at the third press: each press adds 60, the counter decays 1 per frame,
and crossing 120 sets tilted and clears flippers_enabled). -/
theorem c2_tilt (s : TableState) (h : InPlay s) (ht : s.tilted = false)
    (hc0 : s.tilt_counter = 0) :
    (pressFrames 6 s).tilted = true ∧ (pressFrames 6 s).flippers_enabled = false := by
  have A1 := pressFrame_low s h ht (by omega)
  have A2 := pressFrame_low _ A1.1 A1.2.1 (by rw [A1.2.2.2]; omega)
  have A3 := pressFrame_high _ A2.1 A2.2.1 (by rw [A2.2.2.2, A1.2.2.2]; omega)
  have A4 := pressFrame_stays _ A3.1 A3.2.1
  have A5 := pressFrame_stays _ A4.1 A4.2.1
  have A6 := pressFrame_stays _ A5.1 A5.2.1
  simp only [pressFrames]
  exact ⟨A6.2.1, by rw [A6.2.2, A5.2.2, A4.2.2]; exact A3.2.2⟩

/-- C2 witness: the concrete in-play state tilts after six press-frame
rounds. -/
theorem c2_tilt_witness :
    (pressFrames 6 playEx).tilted = true ∧
    (pressFrames 6 playEx).flippers_enabled = false :=
  c2_tilt playEx ⟨rfl, rfl, rfl, rfl, rfl, rfl, rfl, rfl, rfl, rfl⟩ rfl rfl

theorem flipperKeyStepLeft_fp (st : KeyState) (s : TableState) :
    (flipperKeyStepLeft st s).flipper_pressed
      = (s.flipper_pressed || (st.isPressed && s.flippers_enabled && !s.flipper_left)) := by
  cases st <;> cases hfe : s.flippers_enabled <;> cases hfl : s.flipper_left <;>
    simp [flipperKeyStepLeft, playSfxBind, emit, KeyState.isPressed, hfe, hfl]

theorem flipperKeyStepLeft_count (st : KeyState) (s : TableState) :
    countEv isFlipperSfxEv (flipperKeyStepLeft st s).trace
      = countEv isFlipperSfxEv s.trace
        + (if st.isPressed && s.flippers_enabled && !s.flipper_left then 1 else 0) := by
  cases st <;> cases hfe : s.flippers_enabled <;> cases hfl : s.flipper_left <;>
    simp [flipperKeyStepLeft, playSfxBind, emit, KeyState.isPressed, hfe, hfl,
      countEv, List.countP_append, List.countP_cons, isFlipperSfxEv]

theorem flipperKeyStepLeft_fright (st : KeyState) (s : TableState) :
    (flipperKeyStepLeft st s).flipper_right = s.flipper_right := by
  unfold flipperKeyStepLeft
  split_ifs <;> simp [playSfxBind, emit]

theorem flipperKeyStepLeft_enabled (st : KeyState) (s : TableState) :
    (flipperKeyStepLeft st s).flippers_enabled = s.flippers_enabled := by
  unfold flipperKeyStepLeft
  split_ifs <;> simp [playSfxBind, emit]

theorem flipperKeyStepLeft_table (st : KeyState) (s : TableState) :
    (flipperKeyStepLeft st s).table = s.table := by
  unfold flipperKeyStepLeft
  split_ifs <;> simp [playSfxBind, emit]

theorem flipperKeyStepRight_fp (st : KeyState) (s : TableState) :
    (flipperKeyStepRight st s).flipper_pressed
      = (s.flipper_pressed || (st.isPressed && s.flippers_enabled && !s.flipper_right)) := by
  cases st <;> cases hfe : s.flippers_enabled <;> cases hfr : s.flipper_right <;>
    simp [flipperKeyStepRight, playSfxBind, emit, KeyState.isPressed, hfe, hfr]

theorem flipperKeyStepRight_count (st : KeyState) (s : TableState) :
    countEv isFlipperSfxEv (flipperKeyStepRight st s).trace
      = countEv isFlipperSfxEv s.trace
        + (if st.isPressed && s.flippers_enabled && !s.flipper_right then 1 else 0) := by
  cases st <;> cases hfe : s.flippers_enabled <;> cases hfr : s.flipper_right <;>
    simp [flipperKeyStepRight, playSfxBind, emit, KeyState.isPressed, hfe, hfr,
      countEv, List.countP_append, List.countP_cons, isFlipperSfxEv]

theorem flipperKeyStepRight_table (st : KeyState) (s : TableState) :
    (flipperKeyStepRight st s).table = s.table := by
  unfold flipperKeyStepRight
  split_ifs <;> simp [playSfxBind, emit]

theorem countFP_toggleMusic (s : TableState) :
    List.countP isFlipperSfxEv (toggleMusic s).trace
      = List.countP isFlipperSfxEv s.trace := by
  unfold toggleMusic
  split_ifs <;>
    simp [playJingleBindForce, emit, countEv, List.countP_append, List.countP_cons,
      isFlipperSfxEv]

theorem kbdDispatch_flipper_pressed (k : Key) (s : TableState) :
    (kbdDispatch k s).flipper_pressed = s.flipper_pressed := by
  unfold kbdDispatch mainKbdStep
  cases hkb : s.kbd_state <;> simp only [hkb] <;>
    cases hch : keyChr k <;> (try simp only [hch]) <;>
    cases hsc : scrollSpeedSel k <;> (try simp only [hsc]) <;>
    (try split_ifs) <;>
    simp [pause, unpause, abortGame, handleCheat, startScript,
      playSfxBind, playerPause, playerUnpause, dmSave, dmClear,
      dmSetState, dmPuts, dmRestore, emit]

theorem countFP_kbdDispatch (k : Key) (s : TableState) :
    countEv isFlipperSfxEv (kbdDispatch k s).trace = countEv isFlipperSfxEv s.trace := by
  unfold kbdDispatch mainKbdStep
  cases hkb : s.kbd_state <;> simp only [hkb] <;>
    cases hch : keyChr k <;> (try simp only [hch]) <;>
    cases hsc : scrollSpeedSel k <;> (try simp only [hsc]) <;>
    (try split_ifs) <;>
    simp [pause, unpause, abortGame, handleCheat, startScript,
      playSfxBind, playerPause, playerUnpause, dmSave, dmClear,
      dmSetState, dmPuts, dmRestore, emit, countFP_toggleMusic, countEv,
      List.countP_append, List.countP_cons, isFlipperSfxEv]

theorem kbdDispatch_table (k : Key) (s : TableState) :
    (kbdDispatch k s).table = s.table := by
  unfold kbdDispatch mainKbdStep
  cases hkb : s.kbd_state <;> simp only [hkb] <;>
    cases hch : keyChr k <;> (try simp only [hch]) <;>
    cases hsc : scrollSpeedSel k <;> (try simp only [hsc]) <;>
    (try split_ifs) <;>
    simp [pause, unpause, abortGame, handleCheat, startScript,
      playSfxBind, playerPause, playerUnpause, dmSave, dmClear,
      dmSetState, dmPuts, dmRestore, emit]

/-- C9: handle_key raises the flipper_pressed event, and plays the
flipper-press sound, exactly on a press transition of a flipper key while
flippers_enabled holds and that side is not already held; releases and
repeated presses of a held side never raise it. -/
theorem c9_flipper_press (s : TableState) (k : Key) (st : KeyState) :
    (handleKey k st s).flipper_pressed
      = (s.flipper_pressed
        || (isLeftFlipperKey k && st.isPressed && s.flippers_enabled && !s.flipper_left)
        || (isRightFlipperKey k && st.isPressed && s.flippers_enabled && !s.flipper_right)) ∧
    countEv isFlipperSfxEv (handleKey k st s).trace
      = countEv isFlipperSfxEv s.trace
        + (if isLeftFlipperKey k && st.isPressed && s.flippers_enabled && !s.flipper_left
            then 1 else 0)
        + (if isRightFlipperKey k && st.isPressed && s.flippers_enabled && !s.flipper_right
            then 1 else 0) := by
  cases st <;> cases hL : isLeftFlipperKey k <;> cases hR : isRightFlipperKey k <;>
    constructor <;>
    simp [handleKey, hL, hR, KeyState.isPressed, flipperKeyStepLeft_fp,
      flipperKeyStepLeft_count, flipperKeyStepLeft_fright, flipperKeyStepLeft_enabled,
      flipperKeyStepRight_fp, flipperKeyStepRight_count,
      kbdDispatch_flipper_pressed, countFP_kbdDispatch] <;>
    omega

theorem playBranch_table (s : TableState) : (playBranch s).table = s.table := by
  unfold playBranch
  simp only [scrollUpdate, scoreBumper, ballGravity, checkTransitions, doRollTriggers,
    doHitTriggers, lightsBlinkFrame, physicsFrame, emit_start_key]
  cases hsk : s.start_key <;>
    cases hc : s.cheat.slowdown <;>
    simp [hsk, hc, runVariantFrame_eq, gameStartMid, startScript, playSfxBind,
      addTask, emit]

theorem attractBranch_table (s : TableState) : (attractBranch s).table = s.table := by
  unfold attractBranch
  simp only [scrollAttractFrame, lightsAttractFrame, emit_start_key]
  cases hsk : s.start_key <;>
    simp [hsk, gameStartAttract, startScript, playSfxBind, initGame, issueBall,
      addTask, emit]

theorem runFrame_table (s : TableState) : (runFrame s).1.table = s.table := by
  unfold runFrame
  dsimp only
  split_ifs with hp hqq hat
  · rfl
  · unfold quitStep
    dsimp only
    split_ifs <;> simp [playerSetMasterVolume, emit]
  · simp [attractBranch_table]
  · simp [playBranch_table]

theorem handleKey_table (k : Key) (st : KeyState) (s : TableState) :
    (handleKey k st s).table = s.table := by
  unfold handleKey
  dsimp only
  split_ifs <;>
    simp [flipperKeyStepLeft_table, flipperKeyStepRight_table, kbdDispatch_table]

/-- C4: the rule-variant module invoked for per-frame logic, drain
handling and flipper-press handling is the one fixed by the table identity
(Table1 party, Table2 speed, Table3 show, Table4 stones), and the table
identity is never changed by run_frame or handle_key, so the selection is
constant over the lifetime of the instance. -/
theorem c4_variant_dispatch (s : TableState) (k : Key) (st : KeyState) :
    (runFrame s).1.table = s.table ∧
    (handleKey k st s).table = s.table ∧
    runVariantFrame s = emit (.variantFrame s.table) s ∧
    runDrained s = emit (.drainHandler s.table) s ∧
    runFlipperPressed s = emit (.flipperHandler s.table) s ∧
    (s.table = .Table1 →
      runVariantFrame s = partyFrame s ∧ runDrained s = partyDrained s ∧
        runFlipperPressed s = partyFlipperPressed s) ∧
    (s.table = .Table2 →
      runVariantFrame s = speedFrame s ∧ runDrained s = speedDrained s ∧
        runFlipperPressed s = speedFlipperPressed s) ∧
    (s.table = .Table3 →
      runVariantFrame s = showFrame s ∧ runDrained s = showDrained s ∧
        runFlipperPressed s = showFlipperPressed s) ∧
    (s.table = .Table4 →
      runVariantFrame s = stonesFrame s ∧ runDrained s = stonesDrained s ∧
        runFlipperPressed s = stonesFlipperPressed s) := by
  refine ⟨runFrame_table s, handleKey_table k st s, runVariantFrame_eq s,
    runDrained_eq s, runFlipperPressed_eq s, ?_, ?_, ?_, ?_⟩ <;>
    intro h <;>
    refine ⟨?_, ?_, ?_⟩ <;>
    simp [runVariantFrame, runDrained, runFlipperPressed, h]

/-- C4 witness: on the concrete Table1 in-play state the frame leaves the
table identity unchanged and dispatches the party hooks. -/
theorem c4_variant_dispatch_witness :
    (runFrame playEx).1.table = playEx.table ∧
    runVariantFrame playEx = partyFrame playEx :=
  ⟨(c4_variant_dispatch playEx .Space .Pressed).1,
    ((c4_variant_dispatch playEx .Space .Pressed).2.2.2.2.2.1 rfl).1⟩

end Pfr
